import Mathlib

/-!
# esc-classifier: quantized classification stage and audio pipeline orchestrator

Shallow embedding of

* `main/main.cpp` : `classify_mfcc` (quantize, invoke, dequantize, arg-max),
* `components/mic_control/i2s_mic.c`, `mfcc.c`, `audio_processor.c` :
  the capture source, the feature extractor wrapper and the orchestrator.

A finite `float` is embedded as the rational it denotes, and every `float` operation
of `classify_mfcc` rounds its exact result to binary32 (IEEE 754, round to nearest, ties
to even, overflow to an infinity).  Pointers are natural numbers with `0` for `NULL`.
Calls into the I2S driver, the heap, FreeRTOS and the MFCC library are recorded in a
trace, and their results are inputs of the embedded functions.
-/

namespace EscClassifier

/-! ## Classification stage (`main/main.cpp`) -/

/-- Nearest integer, halfway cases to the even neighbour: the rounding of the binary32
significand. -/
def round_half_even (q : ℚ) : Int :=
  if q - ⌊q⌋ < 1/2 then ⌊q⌋
  else if 1/2 < q - ⌊q⌋ then ⌊q⌋ + 1
  else if ⌊q⌋ % 2 = 0 then ⌊q⌋ else ⌊q⌋ + 1

/-- Exponent of the unit in the last place of binary32 at the magnitude of `q`: the
significand has 24 bits and the smallest exponent (subnormal numbers) is `-149`. -/
def binary32_exponent (q : ℚ) : Int := max (Int.log 2 |q| - 23) (-149)

/-- The binary32 value nearest to `q` (ties to even), with the exponent not bounded
above: a result of magnitude `2 ^ 128` or more stands for an overflow. -/
def binary32_round (q : ℚ) : ℚ :=
  round_half_even (q / 2 ^ binary32_exponent q) * 2 ^ binary32_exponent q

/-- A `float` that is not a NaN: a finite value or an infinity. -/
inductive float where
  | neg_inf
  | finite (v : ℚ)
  | pos_inf
  deriving DecidableEq

/-- Position of a `float` on the extended rational line. -/
def float.extended : float → WithBot (WithTop ℚ)
  | float.neg_inf => ⊥
  | float.finite v => ((v : WithTop ℚ) : WithBot (WithTop ℚ))
  | float.pos_inf => ((⊤ : WithTop ℚ) : WithBot (WithTop ℚ))

/-- The comparisons `<`, `<=`, `>` of `float` values that are not NaNs. -/
instance : LinearOrder float :=
  LinearOrder.lift' float.extended (by
    intro a b h
    cases a <;> cases b <;> simp [float.extended] at h ⊢
    exact h)

/-- The `float` result of an operation whose exact result is `q`. -/
def to_float (q : ℚ) : float :=
  if 2 ^ 128 ≤ binary32_round q then float.pos_inf
  else if binary32_round q ≤ -2 ^ 128 then float.neg_inf
  else float.finite (binary32_round q)

/-- C `round` on a finite value: the nearest integer, halfway cases rounded away from
zero.  The result is exact: a binary32 value of magnitude `2 ^ 23` or more is an
integer. -/
def round_half_away (q : ℚ) : Int := if 0 ≤ q then ⌊q + 1/2⌋ else ⌈q - 1/2⌉

/-- Conversion `static_cast<int32_t>` of an integral floating value: the value itself
when `int32_t` can represent it, and undefined behaviour (`none`) otherwise. -/
def static_cast_int32 (v : Int) : Option Int :=
  if -2147483648 ≤ v ∧ v ≤ 2147483647 then some v else none

/-- Conversion `static_cast<int8_t>` of an `int32_t`: reduction modulo `2^8` into
`[-128, 127]`. -/
def static_cast_int8 (v : Int) : Int := (v + 128) % 256 - 128

/-- The value of a C `int` (32 bits, two's complement) that a mathematical integer is
reduced to. -/
def wrap_int32 (v : Int) : Int := (v + 2147483648) % 4294967296 - 2147483648

/-- The operand `round(mfcc_input[i] / input_scale + input_zero_point)` of the
conversion of main.cpp line 151 for `x = mfcc_input[i]`: the quotient is rounded to
binary32, the zero point is converted to `float`, the sum is rounded to binary32 and
`round` is applied.  `none` when the operand is not finite: an infinity or a NaN from
the division by a zero scale, or an infinity from an overflow. -/
def unclamped_quantized (x input_scale : ℚ) (input_zero_point : Int) : Option Int :=
  if input_scale = 0 then none
  else
    match to_float (x / input_scale) with
    | float.finite quotient =>
      match to_float (quotient + binary32_round input_zero_point) with
      | float.finite sum => some (round_half_away sum)
      | _ => none
    | _ => none

/-- Body of the quantization loop of `classify_mfcc` (main.cpp lines 151-153) for one
coefficient `x = mfcc_input[i]`; `some v` is the value stored in `input->data.int8[i]` and
`none` is undefined behaviour: the operand of `static_cast<int32_t>` is not finite or
lies outside the range of `int32_t`. -/
def quantize_coeff (x input_scale : ℚ) (input_zero_point : Int) : Option Int :=
  match unclamped_quantized x input_scale input_zero_point with
  | none => none
  | some rounded =>
    match static_cast_int32 rounded with
    | none => none
    | some quantized_value =>
      let quantized_value := max (-128) (min 127 quantized_value)
      some (static_cast_int8 quantized_value)

/-- The loop of main.cpp lines 150-157 over the coefficients it reads: the values written
to `input->data.int8`, or `none` when the conversion of a coefficient is undefined. -/
def quantize_loop (input_scale : ℚ) (input_zero_point : Int) : List ℚ → Option (List Int)
  | [] => some []
  | x :: rest =>
    match quantize_coeff x input_scale input_zero_point with
    | none => none
    | some v =>
      match quantize_loop input_scale input_zero_point rest with
      | none => none
      | some data => some (v :: data)

/-- Whether the `int32_t` subtraction `raw - output_zero_point` of main.cpp lines 185 and
191 overflows, which is undefined behaviour. -/
def subtraction_overflows (raw output_zero_point : Int) : Bool :=
  decide (raw - output_zero_point < -2147483648 ∨ 2147483647 < raw - output_zero_point)

/-- Dequantized score of one raw output (main.cpp lines 185 and 191):
`(output->data.int8[i] - output_zero_point) * output_scale`.  The subtraction is an
`int32_t` subtraction, its result is converted to `float`, and the product is a `float`
product.  The difference is reduced to 32 bits; `read_output` treats a subtraction that
overflows as undefined. -/
def dequantize (raw output_zero_point : Int) (output_scale : ℚ) : float :=
  to_float (binary32_round ((wrap_int32 (raw - output_zero_point) : Int) : ℚ) * output_scale)

/-- The `for (int i = 1; i < NUM_LABELS; i++)` loop of main.cpp lines 190-197.  The list
holds the raw outputs not yet visited, `i` is the index of its head, and
`(max_index, max_score)` is the running maximum. -/
def argmax_loop (output_zero_point : Int) (output_scale : ℚ) :
    List Int → Nat → Nat → float → Nat × float
  | [], _, max_index, max_score => (max_index, max_score)
  | raw :: rest, i, max_index, max_score =>
    let score := dequantize raw output_zero_point output_scale
    if score > max_score then
      argmax_loop output_zero_point output_scale rest (i + 1) i score
    else
      argmax_loop output_zero_point output_scale rest (i + 1) max_index max_score

/-- Lines 184-197 of main.cpp on the output buffer `data` (`output->data.int8`): the
running maximum starts at index 0 and the loop visits indices `1 .. NUM_LABELS - 1`.
Returns `(max_index, max_score)`. -/
def select_max (NUM_LABELS : Nat) (data : List Int) (output_zero_point : Int)
    (output_scale : ℚ) : Nat × float :=
  argmax_loop output_zero_point output_scale ((data.take NUM_LABELS).drop 1) 1 0
    (dequantize (data.getD 0 0) output_zero_point output_scale)

/-- Number of entries of the label table. -/
def LABEL_COUNT : Nat := 4

/-- The label table of main.cpp lines 47-49. -/
def labels : List String := ["Fan", "Washing machine", "Vacuum cleaner", "Noise"]

/-- The schema version the TensorFlow Lite Micro headers define
(`TFLITE_SCHEMA_VERSION`). -/
def TFLITE_SCHEMA_VERSION : Nat := 3

/-- Element type tag of a tensor; the code only tests for `kTfLiteInt8`. -/
inductive TfLiteType where
  | kTfLiteNoType
  | kTfLiteFloat32
  | kTfLiteUInt8
  | kTfLiteInt8
  | kTfLiteInt16
  deriving DecidableEq, Repr

/-- The fields of a `TfLiteTensor` that `classify_mfcc` reads: element type,
quantization parameters (a finite `float` scale and an `int32_t` zero point) and the
number of `int8` elements of its data buffer. -/
structure TfLiteTensor where
  type : TfLiteType
  scale : ℚ
  zero_point : Int
  bytes : Nat

/-- What the collaborators answer during one call of `classify_mfcc`. -/
structure Collaborators where
  /-- Value of `model_ptr->version()`. -/
  model_version : Nat
  /-- Whether `heap_caps_malloc(.., MALLOC_CAP_SPIRAM | MALLOC_CAP_8BIT)` returns non-null. -/
  psram_alloc_ok : Bool
  /-- Whether the fallback `malloc` returns non-null. -/
  malloc_ok : Bool
  /-- Whether `interpreter->AllocateTensors()` returns `kTfLiteOk`. -/
  allocate_tensors_ok : Bool
  /-- Value of `interpreter->input(0)`; `none` is `nullptr`. -/
  input : Option TfLiteTensor
  /-- Whether `interpreter->Invoke()` returns `kTfLiteOk`. -/
  invoke_ok : Bool
  /-- Contents of `output->data.int8` after `Invoke`, as a function of the input data. -/
  output_data : List Int → List Int
  /-- Value of `interpreter->output(0)`; `none` is `nullptr`. -/
  output : Option TfLiteTensor

/-- The file-scope and function-static variables of `classify_mfcc`, together with the
observable effects of a call: the data written to the input tensor, the number of
`Invoke` calls, and the `Predicted class` line printed at line 204. -/
structure ClassifierState where
  /-- Whether `tensor_arena != nullptr`. -/
  tensor_arena : Bool
  resolver_initialized : Bool
  interpreter_initialized : Bool
  /-- Values written to `input->data.int8[0 .. MODEL_INPUT_SIZE-1]`. -/
  input_data : List Int
  invoke_count : Nat
  /-- Label and score printed by line 204 of the last successful call. -/
  predicted : Option (String × float)
  deriving DecidableEq

/-- State at program start: nothing allocated, nothing initialised. -/
def ClassifierState.initial : ClassifierState :=
  { tensor_arena := false, resolver_initialized := false, interpreter_initialized := false,
    input_data := [], invoke_count := 0, predicted := none }

/-- Result of a call: the returned C string, or undefined behaviour (a null pointer
dereference, an access beyond the end of a buffer, the conversion to `int32_t` of a
floating value that `int32_t` cannot represent, or an `int32_t` subtraction that
overflows). -/
inductive Outcome where
  | returned (s : String)
  | undefined_behaviour
  deriving DecidableEq, Repr

/-- Lines 78-121 of main.cpp: the one-time interpreter set-up.  Returns `some r` when
the function leaves through this block with outcome `r`. -/
def init_interpreter (env : Collaborators) (st : ClassifierState) :
    Option Outcome × ClassifierState :=
  if st.interpreter_initialized then (none, st)
  else
    -- lines 79-91: arena allocation, PSRAM first, then internal RAM
    if !st.tensor_arena && !env.psram_alloc_ok && !env.malloc_ok then
      (some (Outcome.returned "MemoryError"), st)
    else
      let st := { st with tensor_arena := true }
      -- lines 99-104
      if !env.allocate_tensors_ok then
        (some (Outcome.returned "AllocateError"), st)
      else
        -- lines 107-118 dereference both tensors without a null check
        match env.input, env.output with
        | some _, some _ => (none, { st with interpreter_initialized := true })
        | _, _ => (some Outcome.undefined_behaviour, st)

/-- Lines 174-206 of main.cpp: output check, dequantization, arg-max, label lookup. -/
def read_output (NUM_LABELS : Nat) (env : Collaborators) (st : ClassifierState)
    (data : List Int) : Outcome × ClassifierState :=
  match env.output with
  | none => (Outcome.returned "OutputError", st)
  | some output =>
    if output.type ≠ TfLiteType.kTfLiteInt8 then (Outcome.returned "OutputError", st)
    else
      -- reads `output->data.int8[0 .. NUM_LABELS-1]`, `[0 .. 3]` (line 199) and
      -- `labels[0 .. NUM_LABELS-1]` (lines 188, 192)
      if data.length < 4 ∨ data.length < NUM_LABELS ∨ LABEL_COUNT < NUM_LABELS then
        (Outcome.undefined_behaviour, st)
      -- the subtractions of line 185 (index 0) and line 191 (indices below `NUM_LABELS`)
      else if (data.take (max 1 NUM_LABELS)).any
          (fun raw => subtraction_overflows raw output.zero_point) then
        (Outcome.undefined_behaviour, st)
      else
        let r := select_max NUM_LABELS data output.zero_point output.scale
        let label := labels.getD r.1 ""
        (Outcome.returned label, { st with predicted := some (label, r.2) })

/-- The function `classify_mfcc` of main.cpp.  `MODEL_INPUT_SIZE` and `NUM_LABELS`
(`= MODEL_OUTPUT_SIZE`) are the constants of the absent `model.h`; `mfcc_input` is the
array of finite `float` values the argument points to. -/
def classify_mfcc (MODEL_INPUT_SIZE NUM_LABELS : Nat) (env : Collaborators)
    (st : ClassifierState) (mfcc_input : List ℚ) : Outcome × ClassifierState :=
  if env.model_version ≠ TFLITE_SCHEMA_VERSION then (Outcome.returned "InvalidModel", st)
  else
    let st := { st with resolver_initialized := true }
    match init_interpreter env st with
    | (some r, st) => (r, st)
    | (none, st) =>
      match env.input with
      | none => (Outcome.returned "InvalidInput", st)
      | some input =>
        if input.type ≠ TfLiteType.kTfLiteInt8 then (Outcome.returned "InvalidInput", st)
        else
          -- line 141 reads `mfcc_input[0]`; lines 142-157 read `mfcc_input[i]` and write
          -- `input->data.int8[i]` for every `i < MODEL_INPUT_SIZE`
          if mfcc_input.length = 0 ∨ mfcc_input.length < MODEL_INPUT_SIZE
              ∨ input.bytes < MODEL_INPUT_SIZE then
            (Outcome.undefined_behaviour, st)
          else
            match quantize_loop input.scale input.zero_point
                (mfcc_input.take MODEL_INPUT_SIZE) with
            | none => (Outcome.undefined_behaviour, st)
            | some data =>
              let st := { st with input_data := data, invoke_count := st.invoke_count + 1 }
              if !env.invoke_ok then (Outcome.returned "InvokeError", st)
              else read_output NUM_LABELS env st (env.output_data data)

/-! ## Capture source, feature extractor and orchestrator (`components/mic_control`) -/

/-- The type `esp_err_t` of ESP-IDF: a C `int`. -/
abbrev esp_err_t := Int

def ESP_OK : esp_err_t := 0
def ESP_FAIL : esp_err_t := -1
def ESP_ERR_NO_MEM : esp_err_t := 0x101
def ESP_ERR_INVALID_ARG : esp_err_t := 0x102
def ESP_ERR_INVALID_STATE : esp_err_t := 0x103

/-- FreeRTOS `pdPASS`. -/
def pdPASS : Int := 1

/-- The struct `i2s_mic_config_t` of i2s_mic.h. -/
structure i2s_mic_config_t where
  sck_pin : Int
  ws_pin : Int
  sd_pin : Int
  sample_rate : Nat
  buffer_len : Nat
  bit_width : Nat
  slot_mode : Nat
  deriving DecidableEq, Repr

/-- The struct `i2s_mic_t` of i2s_mic.h; `rx_handle` and `buffer` are pointers. -/
structure i2s_mic_t where
  rx_handle : Nat
  config : i2s_mic_config_t
  buffer : Nat
  is_initialized : Bool
  deriving DecidableEq, Repr

/-- The fields of `esp_mfcc_opts_t` that the repository sets (mfcc.c lines 9-27). -/
structure esp_mfcc_opts_t where
  winstep_ms : Int
  winlen_ms : Int
  nch : Int
  numcep : Int
  nfilter : Int
  nfft : Int
  samp_freq : Int
  low_freq : Int
  high_freq : Int
  preemph : ℚ
  win_type : Option String
  append_energy : Bool
  use_power : Bool
  use_log_fbank : Int
  log_epsilon : ℚ
  psram_first : Bool
  remove_dc_offset : Bool
  deriving DecidableEq

/-- The struct `mfcc_processor_t` of mfcc.h; `mfcc_iface` and `runner` are pointers. -/
structure mfcc_processor_t where
  mfcc_iface : Nat
  runner : Nat
  opts : esp_mfcc_opts_t
  is_initialized : Bool
  deriving DecidableEq

/-- The struct `audio_processor_t` of audio_processor.h; `task_handle`, `mfcc_callback`
and `user_data` are pointers. -/
structure audio_processor_t where
  mic : i2s_mic_t
  mfcc : mfcc_processor_t
  is_running : Bool
  task_handle : Nat
  mfcc_callback : Nat
  user_data : Nat
  deriving DecidableEq

/-- The struct `audio_processor_config_t` of audio_processor.h. -/
structure audio_processor_config_t where
  mic_config : i2s_mic_config_t
  mfcc_config : esp_mfcc_opts_t
  process_interval_ms : Nat
  mfcc_callback : Nat
  user_data : Nat
  deriving DecidableEq

/-- Result of `memset(&config, 0, ..)` on an `i2s_mic_config_t`. -/
def i2s_mic_config_t.zero : i2s_mic_config_t :=
  { sck_pin := 0, ws_pin := 0, sd_pin := 0, sample_rate := 0, buffer_len := 0,
    bit_width := 0, slot_mode := 0 }

/-- Result of `memset(mic, 0, sizeof(i2s_mic_t))`. -/
def i2s_mic_t.zero : i2s_mic_t :=
  { rx_handle := 0, config := i2s_mic_config_t.zero, buffer := 0, is_initialized := false }

/-- Result of zeroing an `esp_mfcc_opts_t`. -/
def esp_mfcc_opts_t.zero : esp_mfcc_opts_t :=
  { winstep_ms := 0, winlen_ms := 0, nch := 0, numcep := 0, nfilter := 0, nfft := 0,
    samp_freq := 0, low_freq := 0, high_freq := 0, preemph := 0, win_type := none,
    append_energy := false, use_power := false, use_log_fbank := 0, log_epsilon := 0,
    psram_first := false, remove_dc_offset := false }

/-- Result of `memset(processor, 0, sizeof(mfcc_processor_t))`. -/
def mfcc_processor_t.zero : mfcc_processor_t :=
  { mfcc_iface := 0, runner := 0, opts := esp_mfcc_opts_t.zero, is_initialized := false }

/-- Result of `memset(processor, 0, sizeof(audio_processor_t))`. -/
def audio_processor_t.zero : audio_processor_t :=
  { mic := i2s_mic_t.zero, mfcc := mfcc_processor_t.zero, is_running := false,
    task_handle := 0, mfcc_callback := 0, user_data := 0 }

/-- The constant `default_i2s_mic_config` of i2s_mic.c lines 10-18
(`I2S_DATA_BIT_WIDTH_16BIT = 16`, `I2S_SLOT_MODE_MONO = 1`). -/
def default_i2s_mic_config : i2s_mic_config_t :=
  { sck_pin := 11, ws_pin := 10, sd_pin := 12, sample_rate := 16000, buffer_len := 1024,
    bit_width := 16, slot_mode := 1 }

/-- The constant `default_mfcc_opts` of mfcc.c lines 9-27. -/
def default_mfcc_opts : esp_mfcc_opts_t :=
  { winstep_ms := 20, winlen_ms := 20, nch := 1, numcep := 13, nfilter := 32, nfft := 2048,
    samp_freq := 16000, low_freq := 300, high_freq := 8000, preemph := 98 / 100,
    win_type := some "hamming", append_energy := true, use_power := true,
    use_log_fbank := 1, log_epsilon := 1 / 10000000, psram_first := false,
    remove_dc_offset := true }

/-- Address of the global `esp_fbank_f32`, a non-null pointer. -/
def esp_fbank_f32 : Nat := 1

/-- A call made to a collaborator (heap, I2S driver, MFCC library, FreeRTOS, consumer
callback), with its arguments. -/
inductive Call where
  | malloc (size : Nat)
  | free (ptr : Nat)
  | i2s_new_channel
  | i2s_channel_init_std_mode (handle : Nat)
  | i2s_channel_enable (handle : Nat)
  | i2s_channel_disable (handle : Nat)
  | i2s_del_channel (handle : Nat)
  | i2s_channel_read (handle : Nat) (buffer : Nat) (size : Nat) (timeout_ms : Nat)
  | mfcc_create
  | mfcc_run_step (runner : Nat) (samples : Nat) (num_channels : Int)
  | mfcc_clean (runner : Nat)
  | mfcc_destroy (runner : Nat)
  | xTaskCreate
  | vTaskDelay (ms : Nat)
  | vTaskDelete
  | mfcc_callback (fn : Nat) (features : Nat) (num_coeffs : Int) (user_data : Nat)
  deriving DecidableEq, Repr

/-- What the collaborators answer during one call of an embedded function. -/
structure Responses where
  /-- Pointer returned by `malloc`; `0` is `NULL`. -/
  malloc_ptr : Nat
  /-- Return value of `i2s_new_channel`. -/
  new_channel_ret : esp_err_t
  /-- Value left in `mic->rx_handle` by `i2s_new_channel`. -/
  new_channel_handle : Nat
  /-- Return value of `i2s_channel_init_std_mode`. -/
  init_std_mode_ret : esp_err_t
  /-- Return value of `i2s_channel_enable`. -/
  enable_ret : esp_err_t
  /-- Return value of `i2s_channel_disable`. -/
  disable_ret : esp_err_t
  /-- Return value of `i2s_channel_read`. -/
  read_ret : esp_err_t
  /-- Value left in `bytes_read` by `i2s_channel_read`. -/
  read_bytes : Nat
  /-- Pointer returned by `mfcc_iface->create`; `0` is `NULL`. -/
  mfcc_runner : Nat
  /-- Pointer returned by `mfcc_iface->run_step`; `0` is `NULL`. -/
  run_step_result : Nat
  /-- Return value of `xTaskCreate`. -/
  task_create_ret : Int
  /-- Handle stored in `processor->task_handle` by a successful `xTaskCreate`. -/
  created_task : Nat
  deriving DecidableEq

/-- The function `i2s_mic_init` of i2s_mic.c lines 20-93.  `config = none` is a `NULL`
configuration pointer. -/
def i2s_mic_init (hw : Responses) (config : Option i2s_mic_config_t) :
    esp_err_t × i2s_mic_t × List Call :=
  let mic := { i2s_mic_t.zero with config := config.getD default_i2s_mic_config }
  let size := (mic.config.buffer_len * 2) % 2 ^ 32
  let mic := { mic with buffer := hw.malloc_ptr }
  if mic.buffer = 0 then (ESP_ERR_NO_MEM, mic, [Call.malloc size])
  else
    let mic := { mic with rx_handle := hw.new_channel_handle }
    if hw.new_channel_ret ≠ ESP_OK then
      (hw.new_channel_ret, mic, [Call.malloc size, Call.i2s_new_channel, Call.free mic.buffer])
    else if hw.init_std_mode_ret ≠ ESP_OK then
      (hw.init_std_mode_ret, mic,
        [Call.malloc size, Call.i2s_new_channel, Call.i2s_channel_init_std_mode mic.rx_handle,
         Call.i2s_del_channel mic.rx_handle, Call.free mic.buffer])
    else
      (ESP_OK, { mic with is_initialized := true },
        [Call.malloc size, Call.i2s_new_channel, Call.i2s_channel_init_std_mode mic.rx_handle])

/-- The function `i2s_mic_start` of i2s_mic.c lines 95-110. -/
def i2s_mic_start (hw : Responses) (mic : i2s_mic_t) : esp_err_t × List Call :=
  if !mic.is_initialized then (ESP_ERR_INVALID_STATE, [])
  else
    let ret := hw.enable_ret
    if ret ≠ ESP_OK then (ret, [Call.i2s_channel_enable mic.rx_handle])
    else (ESP_OK, [Call.i2s_channel_enable mic.rx_handle])

/-- The function `i2s_mic_stop` of i2s_mic.c lines 147-162. -/
def i2s_mic_stop (hw : Responses) (mic : i2s_mic_t) : esp_err_t × List Call :=
  if !mic.is_initialized then (ESP_ERR_INVALID_STATE, [])
  else
    let ret := hw.disable_ret
    if ret ≠ ESP_OK then (ret, [Call.i2s_channel_disable mic.rx_handle])
    else (ESP_OK, [Call.i2s_channel_disable mic.rx_handle])

/-- The function `i2s_mic_destroy` of i2s_mic.c lines 164-181. -/
def i2s_mic_destroy (mic : i2s_mic_t) : i2s_mic_t × List Call :=
  let t1 := if mic.is_initialized && mic.rx_handle ≠ 0 then
      [Call.i2s_channel_disable mic.rx_handle, Call.i2s_del_channel mic.rx_handle]
    else []
  let t2 := if mic.buffer ≠ 0 then [Call.free mic.buffer] else []
  (i2s_mic_t.zero, t1 ++ t2)

/-- The function `mfcc_processor_init` of mfcc.c lines 29-60.  `opts = none` is a `NULL`
options pointer. -/
def mfcc_processor_init (hw : Responses) (opts : Option esp_mfcc_opts_t) :
    esp_err_t × mfcc_processor_t × List Call :=
  let processor := { mfcc_processor_t.zero with opts := opts.getD default_mfcc_opts }
  let processor := { processor with mfcc_iface := esp_fbank_f32 }
  let processor := { processor with runner := hw.mfcc_runner }
  if processor.runner = 0 then (ESP_FAIL, processor, [Call.mfcc_create])
  else (ESP_OK, { processor with is_initialized := true }, [Call.mfcc_create])

/-- The function `mfcc_processor_destroy` of mfcc.c lines 99-111. -/
def mfcc_processor_destroy (processor : mfcc_processor_t) : mfcc_processor_t × List Call :=
  let t := if processor.is_initialized && processor.mfcc_iface ≠ 0 && processor.runner ≠ 0 then
      [Call.mfcc_destroy processor.runner]
    else []
  (mfcc_processor_t.zero, t)

/-- The function `audio_processor_init` of audio_processor.c lines 32-68, for a non-null
handle.  `config = none` is a `NULL` configuration pointer. -/
def audio_processor_init (hw : Responses) (config : Option audio_processor_config_t) :
    esp_err_t × audio_processor_t × List Call :=
  let processor := audio_processor_t.zero
  let r1 := i2s_mic_init hw (config.map (fun c => c.mic_config))
  let processor := { processor with mic := r1.2.1 }
  if r1.1 ≠ ESP_OK then (r1.1, processor, r1.2.2)
  else
    let r2 := mfcc_processor_init hw (config.map (fun c => c.mfcc_config))
    let processor := { processor with mfcc := r2.2.1 }
    if r2.1 ≠ ESP_OK then
      let r3 := i2s_mic_destroy processor.mic
      (r2.1, { processor with mic := r3.1 }, r1.2.2 ++ r2.2.2 ++ r3.2)
    else
      let processor := match config with
        | some c => { processor with mfcc_callback := c.mfcc_callback, user_data := c.user_data }
        | none => processor
      (ESP_OK, processor, r1.2.2 ++ r2.2.2)

/-- The function `audio_processor_start` of audio_processor.c lines 70-101, for a
non-null handle. -/
def audio_processor_start (hw : Responses) (processor : audio_processor_t) :
    esp_err_t × audio_processor_t × List Call :=
  if processor.is_running then (ESP_OK, processor, [])
  else
    let r := i2s_mic_start hw processor.mic
    if r.1 ≠ ESP_OK then (r.1, processor, r.2)
    else
      let processor := { processor with is_running := true }
      if hw.task_create_ret ≠ pdPASS then
        let processor := { processor with is_running := false }
        let r2 := i2s_mic_stop hw processor.mic
        (ESP_FAIL, processor, r.2 ++ [Call.xTaskCreate] ++ r2.2)
      else
        (ESP_OK, { processor with task_handle := hw.created_task }, r.2 ++ [Call.xTaskCreate])

/-- The function `audio_processor_stop` of audio_processor.c lines 103-131, for a
non-null handle. -/
def audio_processor_stop (hw : Responses) (processor : audio_processor_t) :
    esp_err_t × audio_processor_t × List Call :=
  if !processor.is_running then (ESP_OK, processor, [])
  else
    let processor := { processor with is_running := false }
    let d := if processor.task_handle ≠ 0 then
        (({ processor with task_handle := 0 } : audio_processor_t), [Call.vTaskDelay 200])
      else (processor, [])
    let r := i2s_mic_stop hw d.1.mic
    if r.1 ≠ ESP_OK then (r.1, d.1, d.2 ++ r.2)
    else (ESP_OK, d.1, d.2 ++ r.2)

/-- The function `audio_processor_destroy` of audio_processor.c lines 161-178, for a
non-null handle.  Returns the handle after the final `memset` and the calls made. -/
def audio_processor_destroy (hw : Responses) (processor : audio_processor_t) :
    audio_processor_t × List Call :=
  let s := if processor.is_running then
      let r := audio_processor_stop hw processor
      (r.2.1, r.2.2)
    else (processor, [])
  let m := mfcc_processor_destroy s.1.mfcc
  let c := i2s_mic_destroy s.1.mic
  (audio_processor_t.zero, s.2 ++ m.2 ++ c.2)

/-- The function `i2s_mic_read` of i2s_mic.c lines 112-145.  `samples_read_nonnull` tells
whether the pointer `samples_read` is non-null.  Returns the returned pointer (`0` is
`NULL`), the value stored in `*samples_read` (`none` when nothing is stored) and the
calls made; the read is recorded with its timeout in milliseconds. -/
def i2s_mic_read (hw : Responses) (mic : i2s_mic_t) (samples_read_nonnull : Bool)
    (timeout_ms : Nat) : Nat × Option Nat × List Call :=
  if !mic.is_initialized then (0, none, [])
  else if !samples_read_nonnull then (0, none, [])
  else
    let call := Call.i2s_channel_read mic.rx_handle mic.buffer
      ((mic.config.buffer_len * 2) % 2 ^ 32) timeout_ms
    if hw.read_ret ≠ ESP_OK then (0, some 0, [call])
    else
      let samples := hw.read_bytes / 2
      if samples = 0 then (0, some samples, [call])
      else (mic.buffer, some samples, [call])

/-- The function `mfcc_processor_run` of mfcc.c lines 62-84.  `samples` is the pointer to
the sample block.  An initialised processor holds the interface table stored by
`mfcc_processor_init`. -/
def mfcc_processor_run (hw : Responses) (processor : mfcc_processor_t) (samples : Nat)
    (num_channels : Int) : Nat × List Call :=
  if !processor.is_initialized then (0, [])
  else if samples = 0 then (0, [])
  else (hw.run_step_result, [Call.mfcc_run_step processor.runner samples num_channels])

/-- The function `mfcc_processor_get_num_coeffs` of mfcc.c lines 113-119. -/
def mfcc_processor_get_num_coeffs (processor : mfcc_processor_t) : Int :=
  if !processor.is_initialized then 0 else processor.opts.numcep

/-- One pass through the body of the `while (processor->is_running)` loop of
`audio_processor_task` (audio_processor.c lines 13-26).  `consumer` is what the
registered callback does to the processor when it is invoked.  Returns the processor
after the pass and the calls made. -/
def audio_processor_task_iteration (consumer : audio_processor_t → audio_processor_t)
    (hw : Responses) (processor : audio_processor_t) : audio_processor_t × List Call :=
  let r := i2s_mic_read hw processor.mic true 1000
  -- `samples != NULL && samples_read > 0`; `samples_read` is only read when `samples`
  -- is non-null, and then it has been stored
  if r.1 ≠ 0 ∧ 0 < r.2.1.getD 0 then
    let f := mfcc_processor_run hw processor.mfcc r.1 1
    if f.1 ≠ 0 ∧ processor.mfcc_callback ≠ 0 then
      let num_coeffs := mfcc_processor_get_num_coeffs processor.mfcc
      (consumer processor,
        r.2.2 ++ f.2 ++
          [Call.mfcc_callback processor.mfcc_callback f.1 num_coeffs processor.user_data,
           Call.vTaskDelay 100])
    else (processor, r.2.2 ++ f.2 ++ [Call.vTaskDelay 100])
  else (processor, r.2.2 ++ [Call.vTaskDelay 100])

/-- The function `audio_processor_task` of audio_processor.c lines 8-30, run for at most
one pass per element of `hws` and without interference from other tasks.  The Boolean
tells whether the loop has been left (`vTaskDelete` reached). -/
def audio_processor_task (consumer : audio_processor_t → audio_processor_t) :
    List Responses → audio_processor_t → audio_processor_t × List Call × Bool
  | [], processor =>
    if processor.is_running then (processor, [], false)
    else (processor, [Call.vTaskDelete], true)
  | hw :: rest, processor =>
    if processor.is_running then
      let r := audio_processor_task_iteration consumer hw processor
      let s := audio_processor_task consumer rest r.1
      (s.1, r.2 ++ s.2.1, s.2.2)
    else (processor, [Call.vTaskDelete], true)

/-- The function `audio_processor_process_frame` of audio_processor.c lines 133-159, for
a non-null handle.  `mfcc_features_nonnull` tells whether the output pointer
`mfcc_features` is non-null.  Returns the status, the processor, the value stored in
`*mfcc_features` (`none` when nothing is stored) and the calls made. -/
def audio_processor_process_frame (hw : Responses) (processor : audio_processor_t)
    (mfcc_features_nonnull : Bool) : esp_err_t × audio_processor_t × Option Nat × List Call :=
  let r := i2s_mic_read hw processor.mic true 1000
  -- `samples == NULL || samples_read == 0`
  if r.1 = 0 ∨ r.2.1.getD 0 = 0 then
    (ESP_OK, processor, if mfcc_features_nonnull then some 0 else none, r.2.2)
  else
    let f := mfcc_processor_run hw processor.mfcc r.1 1
    (ESP_OK, processor, if mfcc_features_nonnull then some f.1 else none, r.2.2 ++ f.2)

/-- The function `mfcc_processor_get_samples_per_frame` of mfcc.c lines 121-127: an
`int` multiplication followed by an `int` division, which truncates toward zero. -/
def mfcc_processor_get_samples_per_frame (processor : mfcc_processor_t) : Int :=
  if !processor.is_initialized then 0
  else Int.tdiv (wrap_int32 (processor.opts.samp_freq * processor.opts.winstep_ms)) 1000

/-- A processor on which `audio_processor_init` has succeeded: both components are
marked initialised. -/
def initialised (processor : audio_processor_t) : Prop :=
  processor.mic.is_initialized = true ∧ processor.mfcc.is_initialized = true

instance (processor : audio_processor_t) : Decidable (initialised processor) := by
  unfold initialised; infer_instance

/-! ## Predicates and example values used in the statements -/

/-- Whether the one-time set-up block (main.cpp lines 78-121) lets the call continue:
either the interpreter is already initialised, or an arena is available, the tensors are
allocated and both tensors exist. -/
def setup_passes (env : Collaborators) (st : ClassifierState) : Prop :=
  st.interpreter_initialized = true ∨
    ((st.tensor_arena = true ∨ env.psram_alloc_ok = true ∨ env.malloc_ok = true) ∧
      env.allocate_tensors_ok = true ∧ env.input.isSome = true ∧ env.output.isSome = true)

/-- The quantized input written by a call (main.cpp lines 150-157); `none` when the
conversion of one of the first `MODEL_INPUT_SIZE` coefficients is undefined. -/
def quantized_input (MODEL_INPUT_SIZE : Nat) (input : TfLiteTensor) (mfcc_input : List ℚ) :
    Option (List Int) :=
  quantize_loop input.scale input.zero_point (mfcc_input.take MODEL_INPUT_SIZE)

/-- Conditions under which a call runs to the final `return labels[max_index]` without
an error return and without undefined behaviour; `data` is the quantized input. -/
def runs_to_label (MODEL_INPUT_SIZE NUM_LABELS : Nat) (env : Collaborators)
    (st : ClassifierState) (mfcc_input : List ℚ) (input output : TfLiteTensor)
    (data : List Int) : Prop :=
  env.model_version = TFLITE_SCHEMA_VERSION ∧ setup_passes env st ∧
  env.input = some input ∧ input.type = TfLiteType.kTfLiteInt8 ∧
  mfcc_input.length ≠ 0 ∧ MODEL_INPUT_SIZE ≤ mfcc_input.length ∧
  MODEL_INPUT_SIZE ≤ input.bytes ∧
  quantized_input MODEL_INPUT_SIZE input mfcc_input = some data ∧
  env.invoke_ok = true ∧
  env.output = some output ∧ output.type = TfLiteType.kTfLiteInt8 ∧
  4 ≤ (env.output_data data).length ∧
  NUM_LABELS ≤ (env.output_data data).length ∧
  NUM_LABELS ≤ LABEL_COUNT ∧
  ((env.output_data data).take (max 1 NUM_LABELS)).any
    (fun raw => subtraction_overflows raw output.zero_point) = false

/-- The error strings `classify_mfcc` returns. -/
def error_strings : List String :=
  ["InvalidModel", "MemoryError", "AllocateError", "InvalidInput", "InvokeError", "OutputError"]

/-- An int8 tensor with scale `1` and zero point `0` holding `n` elements. -/
def unit_int8_tensor (n : Nat) : TfLiteTensor :=
  { type := TfLiteType.kTfLiteInt8, scale := 1, zero_point := 0, bytes := n }

/-- Collaborators of a model with 12 inputs and 4 outputs on which every step succeeds
and whose outputs are all zero. -/
def env_all_ok : Collaborators :=
  { model_version := 3, psram_alloc_ok := true, malloc_ok := true,
    allocate_tensors_ok := true, input := some (unit_int8_tensor 12), invoke_ok := true,
    output_data := fun _ => [0, 0, 0, 0], output := some (unit_int8_tensor 4) }

/-- As `env_all_ok`, for a model without an input tensor: `interpreter->input(0)` is
`nullptr`. -/
def env_no_input : Collaborators := { env_all_ok with input := none }

/-- Responses with which every driver, heap, library and scheduler call succeeds. -/
def hw_all_ok : Responses :=
  { malloc_ptr := 1000, new_channel_ret := ESP_OK, new_channel_handle := 2000,
    init_std_mode_ret := ESP_OK, enable_ret := ESP_OK, disable_ret := ESP_OK,
    read_ret := ESP_OK, read_bytes := 640, mfcc_runner := 3000, run_step_result := 4000,
    task_create_ret := pdPASS, created_task := 5000 }

/-- As `hw_all_ok`, but `i2s_channel_enable` fails. -/
def hw_enable_fails : Responses := { hw_all_ok with enable_ret := ESP_ERR_INVALID_STATE }

/-- As `hw_all_ok`, but `xTaskCreate` fails for lack of memory. -/
def hw_task_fails : Responses := { hw_all_ok with task_create_ret := -1 }

/-- The processor left by a successful `audio_processor_init` with the default
configuration. -/
def ready_processor : audio_processor_t := (audio_processor_init hw_all_ok none).2.1

/-- The driver contract used for the channel handle: a successful `i2s_new_channel`
stores a non-null handle. -/
def handle_stored (hw : Responses) : Prop :=
  hw.new_channel_ret = ESP_OK → hw.new_channel_handle ≠ 0

/-- Whether a call is a call of the consumer callback. -/
def Call.is_callback : Call → Bool
  | Call.mfcc_callback _ _ _ _ => true
  | _ => false

/-- Whether a call is a capture read. -/
def Call.is_read : Call → Bool
  | Call.i2s_channel_read _ _ _ _ => true
  | _ => false

/-- Whether a call is an extractor step. -/
def Call.is_run_step : Call → Bool
  | Call.mfcc_run_step _ _ _ => true
  | _ => false

/-- As `hw_all_ok`, but `i2s_new_channel` fails and stores no handle. -/
def hw_new_channel_fails : Responses :=
  { hw_all_ok with new_channel_ret := ESP_ERR_INVALID_STATE, new_channel_handle := 0 }

/-- As `hw_all_ok`, but `i2s_channel_init_std_mode` fails. -/
def hw_std_mode_fails : Responses := { hw_all_ok with init_std_mode_ret := ESP_ERR_INVALID_ARG }

/-- As `hw_all_ok`, but `malloc` returns `NULL`. -/
def hw_malloc_fails : Responses := { hw_all_ok with malloc_ptr := 0 }

/-- As `hw_all_ok`, but the MFCC library cannot create its runner. -/
def hw_mfcc_fails : Responses := { hw_all_ok with mfcc_runner := 0 }

/-- As `hw_all_ok`, but the read delivers a single byte. -/
def hw_one_byte : Responses := { hw_all_ok with read_bytes := 1 }

/-- As `hw_all_ok`, but the read fails. -/
def hw_read_fails : Responses := { hw_all_ok with read_ret := ESP_FAIL }

/-- The default microphone configuration with sample rate `0`. -/
def config_rate_zero : i2s_mic_config_t := { default_i2s_mic_config with sample_rate := 0 }

/-- The processor `ready_processor` with a consumer callback and user context
registered. -/
def ready_processor_with_consumer : audio_processor_t :=
  { ready_processor with mfcc_callback := 7000, user_data := 8000 }

/-- The processor states reachable from an all-zero handle by calls of
`audio_processor_init`, `audio_processor_start`, `audio_processor_stop`,
`audio_processor_process_frame` and `audio_processor_destroy`, with arbitrary arguments
and arbitrary answers of the collaborators. -/
inductive Reachable : audio_processor_t → Prop where
  | zero : Reachable audio_processor_t.zero
  | init (hw : Responses) (config : Option audio_processor_config_t)
      {processor : audio_processor_t} :
      Reachable processor → Reachable (audio_processor_init hw config).2.1
  | start (hw : Responses) {processor : audio_processor_t} :
      Reachable processor → Reachable (audio_processor_start hw processor).2.1
  | stop (hw : Responses) {processor : audio_processor_t} :
      Reachable processor → Reachable (audio_processor_stop hw processor).2.1
  | process_frame (hw : Responses) (mfcc_features_nonnull : Bool)
      {processor : audio_processor_t} :
      Reachable processor →
      Reachable (audio_processor_process_frame hw processor mfcc_features_nonnull).2.1
  | destroy (hw : Responses) {processor : audio_processor_t} :
      Reachable processor → Reachable (audio_processor_destroy hw processor).1

/-- The greatest raw output of a list (`0` for the empty list). -/
def max_raw (raw : List Int) : Int := raw.foldl max (raw.headD 0)

/-- The first index at which the raw output is maximal: the position of the first
occurrence of the greatest raw output. -/
def first_index_of_max_raw (raw : List Int) : Nat := raw.indexOf (max_raw raw)

/-- MFCC options with a stride of `-1` ms at a sample rate of `1` Hz. -/
def opts_negative_stride : esp_mfcc_opts_t :=
  { default_mfcc_opts with samp_freq := 1, winstep_ms := -1 }

/-- MFCC options with a stride of one minute at 48 kHz; the product of the two does
not fit a 32-bit `int`. -/
def opts_long_stride : esp_mfcc_opts_t :=
  { default_mfcc_opts with samp_freq := 48000, winstep_ms := 60000 }

/-! ## Interleaving of `audio_processor_stop` with the background task -/

/-- Program points of a call of `audio_processor_stop` (audio_processor.c lines 110-123)
between its accesses to the shared processor. -/
inductive StopPc where
  /-- Before the test of `is_running` (line 110). -/
  | entry
  /-- Before `processor->is_running = false` (line 116). -/
  | clear_flag
  /-- Inside `vTaskDelay(pdMS_TO_TICKS(200))` (line 118), to be woken at time `wake`. -/
  | delay (wake : Nat)
  /-- Before `processor->task_handle = NULL` (line 119). -/
  | clear_handle
  /-- Before `i2s_mic_stop` (line 123). -/
  | disable
  /-- After the `return`. -/
  | returned (ret : esp_err_t)
  deriving DecidableEq, Repr

/-- Program points of `audio_processor_task` (audio_processor.c lines 12-29). -/
inductive TaskPc where
  /-- At the loop condition `processor->is_running` (line 12). -/
  | test
  /-- Blocked inside `i2s_channel_read` (line 14), which returns at `deadline` at the
  latest: the call passes a timeout of 1000 ms. -/
  | reading (deadline : Nat)
  /-- Inside `vTaskDelay(pdMS_TO_TICKS(100))` (line 26), to be woken at time `wake`. -/
  | delay (wake : Nat)
  /-- After `vTaskDelete(NULL)` (line 29). -/
  | deleted
  deriving DecidableEq, Repr

/-- The two contexts and what they share: the time in milliseconds, the processor, the
program point of the caller of `audio_processor_stop`, the program point of the
background task, and the calls completed so far. -/
structure Threads where
  now : Nat
  processor : audio_processor_t
  stop_pc : StopPc
  task_pc : TaskPc
  calls : List Call
  deriving DecidableEq

/-- What happens next: time passes, the caller of `audio_processor_stop` runs to its
next program point, or the background task does. -/
inductive Action where
  | wait (ms : Nat)
  | stop_step
  | task_step
  deriving DecidableEq, Repr

/-- Time passes by `ms` milliseconds.  A read in flight returns by its deadline, so time
cannot pass beyond it while the task is still inside the read. -/
def wait_step (ms : Nat) (s : Threads) : Option Threads :=
  match s.task_pc with
  | TaskPc.reading deadline =>
    if s.now + ms ≤ deadline then some { s with now := s.now + ms } else none
  | _ => some { s with now := s.now + ms }

/-- One step of `audio_processor_stop` (lines 110-130); `none` when the caller is still
blocked in its delay or has returned. -/
def stop_step (hw : Responses) (s : Threads) : Option Threads :=
  match s.stop_pc with
  | StopPc.entry =>
    if !s.processor.is_running then some { s with stop_pc := StopPc.returned ESP_OK }
    else some { s with stop_pc := StopPc.clear_flag }
  | StopPc.clear_flag =>
    let processor := { s.processor with is_running := false }
    if processor.task_handle ≠ 0 then
      some { s with processor := processor, stop_pc := StopPc.delay (s.now + 200),
                    calls := s.calls ++ [Call.vTaskDelay 200] }
    else some { s with processor := processor, stop_pc := StopPc.disable }
  | StopPc.delay wake =>
    if wake ≤ s.now then some { s with stop_pc := StopPc.clear_handle } else none
  | StopPc.clear_handle =>
    some { s with processor := { s.processor with task_handle := 0 },
                  stop_pc := StopPc.disable }
  | StopPc.disable =>
    let r := i2s_mic_stop hw s.processor.mic
    some { s with stop_pc := StopPc.returned (if r.1 ≠ ESP_OK then r.1 else ESP_OK),
                  calls := s.calls ++ r.2 }
  | StopPc.returned _ => none

/-- One step of `audio_processor_task` (lines 12-29); `none` when the task is still
blocked in its delay or has deleted itself.  On an initialised microphone the task
enters the hardware read with a timeout of 1000 ms; when the read returns, the rest of
the pass is that of `audio_processor_task_iteration`. -/
def task_step (consumer : audio_processor_t → audio_processor_t) (hw : Responses)
    (s : Threads) : Option Threads :=
  match s.task_pc with
  | TaskPc.test =>
    if s.processor.is_running then
      if s.processor.mic.is_initialized then
        some { s with task_pc := TaskPc.reading (s.now + 1000) }
      else
        let r := audio_processor_task_iteration consumer hw s.processor
        some { s with processor := r.1, calls := s.calls ++ r.2,
                      task_pc := TaskPc.delay (s.now + 100) }
    else some { s with task_pc := TaskPc.deleted, calls := s.calls ++ [Call.vTaskDelete] }
  | TaskPc.reading _ =>
    let r := audio_processor_task_iteration consumer hw s.processor
    some { s with processor := r.1, calls := s.calls ++ r.2,
                  task_pc := TaskPc.delay (s.now + 100) }
  | TaskPc.delay wake =>
    if wake ≤ s.now then some { s with task_pc := TaskPc.test } else none
  | TaskPc.deleted => none

/-- One action of an interleaving. -/
def step (consumer : audio_processor_t → audio_processor_t) (hw : Responses) :
    Action → Threads → Option Threads
  | Action.wait ms, s => wait_step ms s
  | Action.stop_step, s => stop_step hw s
  | Action.task_step, s => task_step consumer hw s

/-- An interleaving: the actions of a schedule one after the other; `none` when an
action is not possible in the state reached. -/
def run (consumer : audio_processor_t → audio_processor_t) (hw : Responses) :
    List Action → Threads → Option Threads
  | [], s => some s
  | a :: rest, s =>
    match step consumer hw a s with
    | some s' => run consumer hw rest s'
    | none => none

/-- Whether the background task is inside a hardware read. -/
def read_in_flight (s : Threads) : Bool :=
  match s.task_pc with
  | TaskPc.reading _ => true
  | _ => false

/-- The processor `ready_processor` after a successful `audio_processor_start`. -/
def started_processor : audio_processor_t :=
  (audio_processor_start hw_all_ok ready_processor).2.1

/-- The started processor, the background task at its loop condition, and a caller
about to enter `audio_processor_stop`, at time `0`. -/
def threads_at_stop : Threads :=
  { now := 0, processor := started_processor, stop_pc := StopPc.entry,
    task_pc := TaskPc.test, calls := [] }

/-- The schedule in which the task enters its read, then `audio_processor_stop` runs
from entry to return while 200 ms pass and the read has not returned. -/
def stop_during_read : List Action :=
  [Action.task_step, Action.stop_step, Action.stop_step, Action.wait 200,
   Action.stop_step, Action.stop_step, Action.stop_step]

/-! ## Binary32 rounding -/

theorem round_half_even_cases (q : ℚ) :
    (round_half_even q = ⌊q⌋ ∧ q - ⌊q⌋ ≤ 1/2) ∨ (round_half_even q = ⌊q⌋ + 1 ∧ 1/2 ≤ q - ⌊q⌋) := by
  unfold round_half_even
  split_ifs with h1 h2 h3
  · left; exact ⟨rfl, le_of_lt h1⟩
  · right; exact ⟨rfl, le_of_lt h2⟩
  · left; exact ⟨rfl, not_lt.mp h2⟩
  · right; exact ⟨rfl, not_lt.mp h1⟩

theorem round_half_even_intCast (n : Int) : round_half_even (n : ℚ) = n := by
  unfold round_half_even
  rw [Int.floor_intCast]
  simp

/-- The rounded value lies within one half of its argument. -/
theorem round_half_even_bounds (q : ℚ) :
    q - 1/2 ≤ (round_half_even q : ℚ) ∧ (round_half_even q : ℚ) ≤ q + 1/2 := by
  have h1 := Int.floor_le q
  have h2 := Int.lt_floor_add_one q
  rcases round_half_even_cases q with ⟨e, h⟩ | ⟨e, h⟩
  · rw [e]; constructor <;> linarith
  · rw [e]; push_cast; constructor <;> linarith

theorem round_half_even_mono {a b : ℚ} (h : a ≤ b) : round_half_even a ≤ round_half_even b := by
  have fa1 := Int.floor_le a
  have fa2 := Int.lt_floor_add_one a
  have fb1 := Int.floor_le b
  have fb2 := Int.lt_floor_add_one b
  rcases lt_or_eq_of_le (Int.floor_le_floor h) with hlt | heq
  · rcases round_half_even_cases a with ⟨ea, _⟩ | ⟨ea, _⟩ <;>
    rcases round_half_even_cases b with ⟨eb, _⟩ | ⟨eb, _⟩ <;> omega
  · unfold round_half_even
    rw [← heq]
    have hab : a - ⌊a⌋ ≤ b - ⌊a⌋ := by linarith
    split_ifs <;> first | omega | (exfalso; linarith)

/-- Evaluation of the rounding at a value strictly within one half of an integer. -/
theorem round_half_even_of_near {q : ℚ} {n : Int} (h1 : (n : ℚ) - 1/2 < q) (h2 : q < n + 1/2) :
    round_half_even q = n := by
  have f1 := Int.floor_le q
  have f2 := Int.lt_floor_add_one q
  rcases round_half_even_cases q with ⟨e, h⟩ | ⟨e, h⟩
  · rw [e]
    have a : ((⌊q⌋ : Int) : ℚ) < n + 1 := by linarith
    have b : (n : ℚ) < ⌊q⌋ + 1 := by linarith
    have a' : ⌊q⌋ < n + 1 := by exact_mod_cast a
    have b' : n < ⌊q⌋ + 1 := by exact_mod_cast b
    omega
  · rw [e]
    have a : ((⌊q⌋ : Int) : ℚ) < n := by linarith
    have b : (n : ℚ) < ⌊q⌋ + 2 := by linarith
    have a' : ⌊q⌋ < n := by exact_mod_cast a
    have b' : n < ⌊q⌋ + 2 := by exact_mod_cast b
    omega

theorem two_zpow_pos (e : Int) : (0 : ℚ) < 2 ^ e := zpow_pos (by norm_num) e

theorem two_zpow_le {a b : Int} (h : a ≤ b) : (2 : ℚ) ^ a ≤ 2 ^ b :=
  zpow_le_zpow_right₀ (by norm_num) h

theorem two_zpow_eq_intCast (d : Int) (hd : 0 ≤ d) :
    (2 : ℚ) ^ d = (((2 : Int) ^ d.toNat : Int) : ℚ) := by
  have e : d = (d.toNat : Int) := (Int.toNat_of_nonneg hd).symm
  rw [e, zpow_natCast, Int.toNat_ofNat]
  push_cast
  rfl

theorem binary32_round_zero : binary32_round 0 = 0 := by
  unfold binary32_round
  rw [zero_div, show ((0 : ℚ)) = ((0 : Int) : ℚ) by norm_num, round_half_even_intCast]
  simp

theorem int_log_lt {q : ℚ} {g : Int} (hq : q ≠ 0) (h : |q| < 2 ^ g) : Int.log 2 |q| < g := by
  have hpos : 0 < |q| := abs_pos.mpr hq
  have := (Int.lt_zpow_iff_log_lt (b := 2) (by norm_num) (x := g) hpos).mp (by exact_mod_cast h)
  exact this

theorem int_log_ge {q : ℚ} {g : Int} (hq : q ≠ 0) (h : 2 ^ g ≤ |q|) : g ≤ Int.log 2 |q| := by
  have hpos : 0 < |q| := abs_pos.mpr hq
  have := (Int.zpow_le_iff_le_log (b := 2) (by norm_num) (x := g) hpos).mp (by exact_mod_cast h)
  exact this

theorem binary32_exponent_ge (q : ℚ) : -149 ≤ binary32_exponent q := by
  unfold binary32_exponent
  exact le_max_right _ _

theorem binary32_exponent_le {q : ℚ} {g : Int} (hq : q ≠ 0) (h : |q| < 2 ^ (g + 24))
    (hg : -149 ≤ g) : binary32_exponent q ≤ g := by
  have := int_log_lt hq h
  unfold binary32_exponent
  apply max_le <;> omega

theorem binary32_exponent_eq {q : ℚ} {g : Int} (h1 : 2 ^ (g + 23) ≤ |q|)
    (h2 : |q| < 2 ^ (g + 24)) (hg : -149 ≤ g) : binary32_exponent q = g := by
  have hq : q ≠ 0 := by
    intro e
    rw [e, abs_zero] at h1
    exact absurd h1 (not_le.mpr (two_zpow_pos _))
  have a := int_log_lt hq h2
  have b := int_log_ge hq h1
  unfold binary32_exponent
  rw [max_eq_left (by omega)]
  omega

/-- A value on a grid at least as coarse as the grid of `q` stays on the same side of `q`
after rounding. -/
theorem binary32_round_grid (q : ℚ) (c g : Int) (h : |q| < 2 ^ (g + 24)) (hg : -149 ≤ g) :
    ((c : ℚ) * 2 ^ g ≤ q → (c : ℚ) * 2 ^ g ≤ binary32_round q) ∧
    (q ≤ (c : ℚ) * 2 ^ g → binary32_round q ≤ (c : ℚ) * 2 ^ g) := by
  by_cases hq : q = 0
  · rw [hq, binary32_round_zero]; exact ⟨id, id⟩
  have he := binary32_exponent_le hq h hg
  have hpos := two_zpow_pos (binary32_exponent q)
  have hsplit : (c : ℚ) * 2 ^ g
      = ((c * 2 ^ (g - binary32_exponent q).toNat : Int) : ℚ) * 2 ^ binary32_exponent q := by
    push_cast
    have := two_zpow_eq_intCast (g - binary32_exponent q) (by omega)
    push_cast at this
    rw [← this, mul_assoc, ← zpow_add₀ (by norm_num : (2 : ℚ) ≠ 0)]
    congr 2
    omega
  rw [hsplit]
  unfold binary32_round
  constructor
  · intro hle
    apply mul_le_mul_of_nonneg_right _ (le_of_lt hpos)
    have : ((c * 2 ^ (g - binary32_exponent q).toNat : Int) : ℚ) ≤ q / 2 ^ binary32_exponent q :=
      (le_div_iff₀ hpos).mpr hle
    have m := round_half_even_mono this
    rw [round_half_even_intCast] at m
    exact_mod_cast m
  · intro hle
    apply mul_le_mul_of_nonneg_right _ (le_of_lt hpos)
    have : q / 2 ^ binary32_exponent q ≤ ((c * 2 ^ (g - binary32_exponent q).toNat : Int) : ℚ) :=
      (div_le_iff₀ hpos).mpr hle
    have m := round_half_even_mono this
    rw [round_half_even_intCast] at m
    exact_mod_cast m

/-- A value `c * 2 ^ g` with fewer than 25 significant bits and `g ≥ -149` is a binary32
value: rounding leaves it unchanged. -/
theorem binary32_round_of_representable (c g : Int) (hc : |c| < 2 ^ 24) (hg : -149 ≤ g) :
    binary32_round ((c : ℚ) * 2 ^ g) = (c : ℚ) * 2 ^ g := by
  have hb : |(c : ℚ) * 2 ^ g| < 2 ^ (g + 24) := by
    rw [abs_mul, abs_of_pos (two_zpow_pos g), add_comm, zpow_add₀ (by norm_num : (2 : ℚ) ≠ 0)]
    apply mul_lt_mul_of_pos_right _ (two_zpow_pos g)
    have : ((|c| : Int) : ℚ) < ((2 ^ 24 : Int) : ℚ) := by exact_mod_cast hc
    push_cast at this
    rw [show (2 : ℚ) ^ (24 : Int) = 2 ^ 24 by norm_num]
    exact this
  have k := binary32_round_grid ((c : ℚ) * 2 ^ g) c g hb hg
  exact le_antisymm (k.2 le_rfl) (k.1 le_rfl)

theorem binary32_round_intCast (n : Int) (h : |n| < 2 ^ 24) : binary32_round (n : ℚ) = n := by
  have := binary32_round_of_representable n 0 h (by decide)
  simpa using this

/-- Rounding error: at most half a unit in the last place. -/
theorem binary32_round_error (q : ℚ) (g : Int) (h : |q| < 2 ^ (g + 24)) (hg : -149 ≤ g) :
    |binary32_round q - q| ≤ 2 ^ (g - 1) := by
  by_cases hq : q = 0
  · rw [hq, binary32_round_zero, sub_zero, abs_zero]; exact le_of_lt (two_zpow_pos _)
  have he := binary32_exponent_le hq h hg
  have hpos := two_zpow_pos (binary32_exponent q)
  have b := round_half_even_bounds (q / 2 ^ binary32_exponent q)
  have e1 : q = q / 2 ^ binary32_exponent q * 2 ^ binary32_exponent q := by
    field_simp
  have e2 : (2 : ℚ) ^ (g - 1) = 2 ^ g / 2 := by
    rw [zpow_sub₀ (by norm_num : (2 : ℚ) ≠ 0)]; simp
  have hle := two_zpow_le he
  unfold binary32_round
  rw [abs_le, e2]
  constructor
  · have : (q / 2 ^ binary32_exponent q - 1 / 2) * 2 ^ binary32_exponent q
        ≤ (round_half_even (q / 2 ^ binary32_exponent q) : ℚ) * 2 ^ binary32_exponent q :=
      mul_le_mul_of_nonneg_right b.1 (le_of_lt hpos)
    rw [sub_mul, ← e1] at this
    linarith
  · have : (round_half_even (q / 2 ^ binary32_exponent q) : ℚ) * 2 ^ binary32_exponent q
        ≤ (q / 2 ^ binary32_exponent q + 1 / 2) * 2 ^ binary32_exponent q :=
      mul_le_mul_of_nonneg_right b.2 (le_of_lt hpos)
    rw [add_mul, ← e1] at this
    linarith

theorem float_finite_lt_finite {a b : ℚ} : float.finite a < float.finite b ↔ a < b := by
  show float.extended (float.finite a) < float.extended (float.finite b) ↔ a < b
  simp [float.extended]

theorem float_finite_le_finite {a b : ℚ} : float.finite a ≤ float.finite b ↔ a ≤ b := by
  show float.extended (float.finite a) ≤ float.extended (float.finite b) ↔ a ≤ b
  simp [float.extended]

/-- An operation whose rounded result is below `2 ^ 128` in magnitude does not
overflow. -/
theorem to_float_finite {q : ℚ} (h1 : -2 ^ 128 < binary32_round q)
    (h2 : binary32_round q < 2 ^ 128) : to_float q = float.finite (binary32_round q) := by
  unfold to_float
  rw [if_neg (not_le.mpr h2), if_neg (not_le.mpr h1)]

/-- Rounding does not cross a power of two `2 ^ g` that bounds the magnitude. -/
theorem binary32_round_abs_le {q : ℚ} {g : Int} (h : |q| ≤ 2 ^ g) (hg : -149 ≤ g) :
    |binary32_round q| ≤ 2 ^ g := by
  have hlt : |q| < 2 ^ (g + 24) :=
    lt_of_le_of_lt h ((zpow_lt_zpow_iff_right₀ (by norm_num : (1 : ℚ) < 2)).mpr (by omega))
  have k1 := binary32_round_grid q 1 g hlt hg
  have k2 := binary32_round_grid q (-1) g hlt hg
  have a := abs_le.mp h
  rw [abs_le]
  constructor
  · have := k2.1 (by push_cast; linarith [a.1])
    push_cast at this; linarith
  · have := k1.2 (by push_cast; linarith [a.2])
    push_cast at this; linarith

theorem to_float_of_abs_le {q : ℚ} (h : |q| ≤ 2 ^ (127 : Int)) :
    to_float q = float.finite (binary32_round q) := by
  have b := abs_le.mp (binary32_round_abs_le h (by decide))
  have e : (2 : ℚ) ^ (127 : Int) < 2 ^ 128 := by norm_num
  apply to_float_finite <;> linarith [b.1, b.2]


/-- The significand produced by the rounding has at most 24 bits, or is `2 ^ 24`. -/
theorem binary32_round_significand_bound (q : ℚ) :
    |round_half_even (q / 2 ^ binary32_exponent q)| ≤ 2 ^ 24 := by
  by_cases hq : q = 0
  · rw [hq, zero_div, show ((0 : ℚ)) = ((0 : Int) : ℚ) by norm_num, round_half_even_intCast]
    decide
  have hpos := two_zpow_pos (binary32_exponent q)
  have h1 : |q| < 2 ^ (Int.log 2 |q| + 1) := by
    have := Int.lt_zpow_succ_log_self (b := 2) (by norm_num) (|q|)
    exact_mod_cast this
  have h2 : (2 : ℚ) ^ (Int.log 2 |q| + 1) ≤ 2 ^ (binary32_exponent q + 24) := by
    apply two_zpow_le
    unfold binary32_exponent
    have := le_max_left (Int.log 2 |q| - 23) (-149)
    omega
  have h3 : |q| < 2 ^ binary32_exponent q * 2 ^ (24 : Int) := by
    rw [← zpow_add₀ (by norm_num : (2 : ℚ) ≠ 0)]
    exact lt_of_lt_of_le h1 h2
  have h4 : |q / 2 ^ binary32_exponent q| < 2 ^ (24 : Int) := by
    rw [abs_div, abs_of_pos hpos, div_lt_iff₀ hpos, mul_comm]
    exact h3
  have h5 := abs_lt.mp h4
  have a : ((-2 ^ 24 : Int) : ℚ) ≤ q / 2 ^ binary32_exponent q := by
    push_cast
    have := h5.1
    norm_num at this ⊢
    linarith
  have b : q / 2 ^ binary32_exponent q ≤ ((2 ^ 24 : Int) : ℚ) := by
    push_cast
    have := h5.2
    norm_num at this ⊢
    linarith
  have a' := round_half_even_mono a
  have b' := round_half_even_mono b
  rw [round_half_even_intCast] at a' b'
  rw [abs_le]
  exact ⟨a', b'⟩

/-- The result of the rounding is a binary32 value. -/
theorem binary32_round_representable (q : ℚ) :
    ∃ c g : Int, |c| < 2 ^ 24 ∧ -149 ≤ g ∧ binary32_round q = (c : ℚ) * 2 ^ g := by
  have hb := binary32_round_significand_bound q
  have hg := binary32_exponent_ge q
  rcases lt_or_eq_of_le hb with hlt | heq
  · exact ⟨_, _, hlt, hg, rfl⟩
  · have hn : round_half_even (q / 2 ^ binary32_exponent q) = 2 ^ 24 ∨
        round_half_even (q / 2 ^ binary32_exponent q) = -2 ^ 24 := by
      rcases abs_cases (round_half_even (q / 2 ^ binary32_exponent q)) with ⟨e, _⟩ | ⟨e, _⟩
      · left; omega
      · right; omega
    rcases hn with hn | hn
    · refine ⟨2 ^ 23, binary32_exponent q + 1, by decide, by omega, ?_⟩
      unfold binary32_round
      rw [hn, zpow_add₀ (by norm_num : (2 : ℚ) ≠ 0)]
      push_cast
      ring
    · refine ⟨-2 ^ 23, binary32_exponent q + 1, by decide, by omega, ?_⟩
      unfold binary32_round
      rw [hn, zpow_add₀ (by norm_num : (2 : ℚ) ≠ 0)]
      push_cast
      ring

/-- Rounding a binary32 value again does not change it. -/
theorem binary32_round_idem (q : ℚ) : binary32_round (binary32_round q) = binary32_round q := by
  obtain ⟨c, g, hc, hg, e⟩ := binary32_round_representable q
  rw [e]
  exact binary32_round_of_representable c g hc hg

/-- Evaluation of the rounding once the binade of `q` is known. -/
theorem binary32_round_eval {q : ℚ} {g n : Int} (h1 : 2 ^ (g + 23) ≤ |q|)
    (h2 : |q| < 2 ^ (g + 24)) (hg : -149 ≤ g) (hn : round_half_even (q / 2 ^ g) = n) :
    binary32_round q = (n : ℚ) * 2 ^ g := by
  unfold binary32_round
  rw [binary32_exponent_eq h1 h2 hg, hn]

/-! ## Quantization: rounding and saturation -/

theorem round_half_away_intCast (n : Int) : round_half_away (n : ℚ) = n := by
  unfold round_half_away
  split
  · rw [Int.floor_eq_iff]; constructor <;> norm_num
  · rw [Int.ceil_eq_iff]; constructor <;> norm_num

/-- The rounded value lies within one half of its argument. -/
theorem round_half_away_bounds (q : ℚ) :
    q - 1/2 ≤ (round_half_away q : ℚ) ∧ (round_half_away q : ℚ) ≤ q + 1/2 := by
  unfold round_half_away
  split
  · have h1 := Int.floor_le (q + 1/2)
    have h2 := Int.lt_floor_add_one (q + 1/2)
    constructor <;> linarith
  · have h1 := Int.le_ceil (q - 1/2)
    have h2 := Int.ceil_lt_add_one (q - 1/2)
    constructor <;> linarith

/-- Rounding the sum and adding the zero point to the rounded quotient differ by at
most one. -/
theorem round_half_away_add_int_near (q : ℚ) (z : Int) :
    round_half_away q + z - 1 ≤ round_half_away (q + z) ∧
    round_half_away (q + z) ≤ round_half_away q + z + 1 := by
  have a := round_half_away_bounds q
  have b := round_half_away_bounds (q + z)
  constructor
  · have : ((round_half_away q + z - 1 : Int) : ℚ) < (round_half_away (q + z) : ℚ) + 1 := by
      push_cast; linarith [a.2, b.1]
    have : round_half_away q + z - 1 < round_half_away (q + z) + 1 := by exact_mod_cast this
    omega
  · have : ((round_half_away (q + z) : Int) : ℚ) < ((round_half_away q + z + 1 : Int) : ℚ) + 1 := by
      push_cast; linarith [a.1, b.2]
    have : round_half_away (q + z) < round_half_away q + z + 1 + 1 := by exact_mod_cast this
    omega

theorem static_cast_int8_of_range {v : Int} (h1 : -128 ≤ v) (h2 : v ≤ 127) :
    static_cast_int8 v = v := by
  unfold static_cast_int8
  omega

theorem static_cast_int32_of_range {v : Int} (h1 : -2147483648 ≤ v) (h2 : v ≤ 2147483647) :
    static_cast_int32 v = some v := by
  unfold static_cast_int32
  rw [if_pos ⟨h1, h2⟩]

theorem static_cast_int32_out_of_range {v : Int} (h : v < -2147483648 ∨ 2147483647 < v) :
    static_cast_int32 v = none := by
  unfold static_cast_int32
  rw [if_neg (by omega)]

/-- With the operand of the conversion in the range of `int32_t`, the stored value is
its clamp. -/
theorem quantize_coeff_of_unclamped {x s : ℚ} {z u : Int}
    (hu : unclamped_quantized x s z = some u) (h1 : -2147483648 ≤ u) (h2 : u ≤ 2147483647) :
    quantize_coeff x s z = some (max (-128) (min 127 u)) := by
  unfold quantize_coeff
  rw [hu]
  simp only [static_cast_int32_of_range h1 h2]
  rw [static_cast_int8_of_range (by omega) (by omega)]

/-- With the operand of the conversion outside the range of `int32_t`, the conversion is
undefined. -/
theorem quantize_coeff_of_unclamped_out_of_range {x s : ℚ} {z u : Int}
    (hu : unclamped_quantized x s z = some u) (h : u < -2147483648 ∨ 2147483647 < u) :
    quantize_coeff x s z = none := by
  unfold quantize_coeff
  rw [hu]
  simp only [static_cast_int32_out_of_range h]

theorem unclamped_quantized_of_finite {x s q t : ℚ} {z : Int} (hs : s ≠ 0)
    (hq : to_float (x / s) = float.finite q)
    (ht : to_float (q + binary32_round z) = float.finite t) :
    unclamped_quantized x s z = some (round_half_away t) := by
  unfold unclamped_quantized
  rw [if_neg hs, hq]
  simp only [ht]

/-- When neither the quotient nor the sum is changed by the rounding to binary32, the
operand of the conversion is `round(x / s + z)`. -/
theorem unclamped_quantized_of_exact {x s : ℚ} {z : Int} (hs : s ≠ 0)
    (hq : binary32_round (x / s) = x / s) (hz : binary32_round z = z)
    (hsum : binary32_round (x / s + z) = x / s + z)
    (hqb : |x / s| < 2 ^ 128) (hsb : |x / s + z| < 2 ^ 128) :
    unclamped_quantized x s z = some (round_half_away (x / s + z)) := by
  have a := abs_lt.mp hqb
  have b := abs_lt.mp hsb
  apply unclamped_quantized_of_finite hs
  · rw [to_float_finite (by rw [hq]; exact a.1) (by rw [hq]; exact a.2), hq]
  · rw [hz, to_float_finite (by rw [hsum]; exact b.1) (by rw [hsum]; exact b.2), hsum]

theorem binary32_round_eq_self_of {q : ℚ} (c g : Int) (hc : |c| < 2 ^ 24) (hg : -149 ≤ g)
    (e : q = (c : ℚ) * 2 ^ g) : binary32_round q = q := by
  rw [e]
  exact binary32_round_of_representable c g hc hg

/-- C2 (failing input): the coefficient `3 * 10 ^ 9` is a binary32 value; with scale `1`
and zero point `0` the operand of `static_cast<int32_t>` in line 151 is `3 * 10 ^ 9`,
which `int32_t` cannot represent, so the conversion is undefined before the clamp of
line 152 is reached, where the claim demands the stored value `127`.  In general, when
the operand `u` lies in the range of `int32_t` the stored value is `127` for `u > 127`,
`-128` for `u < -128` and `u` otherwise, and lies in `[-128, 127]`; when `u` lies outside
that range the conversion is undefined. -/
theorem quantize_coeff_conversion_undefined :
    unclamped_quantized 3000000000 1 0 = some 3000000000 ∧
    quantize_coeff 3000000000 1 0 = none ∧
    (∀ (x s : ℚ) (z u : Int), unclamped_quantized x s z = some u →
      (-2147483648 ≤ u → u ≤ 2147483647 →
        (127 < u → quantize_coeff x s z = some 127) ∧
        (u < -128 → quantize_coeff x s z = some (-128)) ∧
        (-128 ≤ u → u ≤ 127 → quantize_coeff x s z = some u) ∧
        (∃ v, quantize_coeff x s z = some v ∧ -128 ≤ v ∧ v ≤ 127)) ∧
      ((u < -2147483648 ∨ 2147483647 < u) → quantize_coeff x s z = none)) := by
  have hu : unclamped_quantized 3000000000 1 0 = some 3000000000 := by
    have e := unclamped_quantized_of_exact (x := 3000000000) (s := 1) (z := 0) (by norm_num)
      (binary32_round_eq_self_of 5859375 9 (by decide) (by decide) (by norm_num))
      (binary32_round_intCast 0 (by decide))
      (binary32_round_eq_self_of 5859375 9 (by decide) (by decide) (by norm_num))
      (by rw [abs_lt]; constructor <;> norm_num)
      (by rw [abs_lt]; constructor <;> norm_num)
    rw [e]
    have r : round_half_away ((3000000000 : ℚ) / 1 + ((0 : Int) : ℚ)) = 3000000000 := by
      have := round_half_away_intCast 3000000000
      rw [← this]
      congr 1
      norm_num
    rw [r]
  refine ⟨hu, quantize_coeff_of_unclamped_out_of_range hu (Or.inr (by decide)), ?_⟩
  intro x s z u h
  refine ⟨?_, quantize_coeff_of_unclamped_out_of_range h⟩
  intro h1 h2
  have e := quantize_coeff_of_unclamped h h1 h2
  rw [e]
  refine ⟨?_, ?_, ?_, ?_⟩
  · intro c; congr 1; omega
  · intro c; congr 1; omega
  · intro c1 c2; congr 1; omega
  · exact ⟨_, rfl, by omega, by omega⟩

theorem to_float_zero : to_float 0 = float.finite 0 := by
  rw [to_float_finite (by rw [binary32_round_zero]; norm_num)
    (by rw [binary32_round_zero]; norm_num), binary32_round_zero]

/-- The operand of the conversion for a zero coefficient is the zero point converted to
`float`. -/
theorem unclamped_quantized_zero (s : ℚ) (z : Int) (hs : s ≠ 0)
    (hz : |(z : ℚ)| ≤ 2 ^ (31 : Int)) :
    unclamped_quantized 0 s z = some (round_half_away (binary32_round z)) := by
  have b := abs_le.mp (binary32_round_abs_le hz (by decide))
  have e : (2 : ℚ) ^ (31 : Int) < 2 ^ 128 := by norm_num
  apply unclamped_quantized_of_finite hs
  · rw [zero_div]; exact to_float_zero
  · rw [zero_add, to_float_finite (by rw [binary32_round_idem]; linarith [b.1])
      (by rw [binary32_round_idem]; linarith [b.2]), binary32_round_idem]

theorem quantize_coeff_zero (s : ℚ) (z : Int) (hs : s ≠ 0) (hz1 : -2147483648 ≤ z)
    (hz2 : z ≤ 2147483583) :
    quantize_coeff 0 s z = some (max (-128) (min 127 z)) := by
  have q1 : ((-2147483648 : Int) : ℚ) ≤ z := by exact_mod_cast hz1
  have q2 : (z : ℚ) ≤ ((2147483583 : Int) : ℚ) := by exact_mod_cast hz2
  push_cast at q1 q2
  have habs : |(z : ℚ)| ≤ 2 ^ (31 : Int) := by
    rw [abs_le]; constructor <;> norm_num <;> linarith
  have hu := unclamped_quantized_zero s z hs habs
  have b := round_half_away_bounds (binary32_round z)
  by_cases hsmall : |z| < 2 ^ 24
  · rw [binary32_round_intCast z hsmall, round_half_away_intCast] at hu
    exact quantize_coeff_of_unclamped hu hz1 (by omega)
  · have hwide : |(z : ℚ)| < 2 ^ ((31 : Int) + 24) := lt_of_le_of_lt habs (by norm_num)
    have hwide2 : |(z : ℚ)| < 2 ^ ((24 : Int) + 24) := lt_of_le_of_lt habs (by norm_num)
    rcases le_or_lt 0 z with hpos | hneg
    · have hpq : (0 : ℚ) ≤ z := by exact_mod_cast hpos
      have hlt : |(z : ℚ)| < 2 ^ ((7 : Int) + 24) := by
        rw [abs_of_nonneg hpq]; norm_num; linarith
      have err := abs_le.mp (binary32_round_error z 7 hlt (by decide))
      have p : (2 : ℚ) ^ ((7 : Int) - 1) = 64 := by norm_num
      rw [p] at err
      have hbig : 2 ^ 24 ≤ z := by
        rw [abs_of_nonneg hpos] at hsmall; omega
      have hbigq : ((1 : Int) : ℚ) * 2 ^ (24 : Int) ≤ z := by
        have : (((2 ^ 24 : Int)) : ℚ) ≤ z := by exact_mod_cast hbig
        push_cast at this; norm_num; linarith
      have g := (binary32_round_grid z 1 24 hwide2 (by decide)).1 hbigq
      norm_num at g
      have u1 : ((16777215 : Int) : ℚ) < round_half_away (binary32_round z) := by
        push_cast; linarith [b.1]
      have u2 : (round_half_away (binary32_round z) : ℚ) < ((2147483648 : Int) : ℚ) := by
        push_cast; linarith [b.2, err.2]
      have u1' : 16777215 < round_half_away (binary32_round z) := by exact_mod_cast u1
      have u2' : round_half_away (binary32_round z) < 2147483648 := by exact_mod_cast u2
      rw [quantize_coeff_of_unclamped hu (by omega) (by omega)]
      congr 1; omega
    · have hbig : z ≤ -2 ^ 24 := by
        rw [abs_of_neg hneg] at hsmall; omega
      have hbigq : (z : ℚ) ≤ ((-1 : Int) : ℚ) * 2 ^ (24 : Int) := by
        have : (z : ℚ) ≤ (((-2 ^ 24 : Int)) : ℚ) := by exact_mod_cast hbig
        push_cast at this; norm_num; linarith
      have g := (binary32_round_grid z (-1) 24 hwide2 (by decide)).2 hbigq
      have hlow : ((-1 : Int) : ℚ) * 2 ^ (31 : Int) ≤ z := by norm_num; linarith
      have g2 := (binary32_round_grid z (-1) 31 hwide (by decide)).1 hlow
      norm_num at g g2
      have u1 : (round_half_away (binary32_round z) : ℚ) < ((-16777215 : Int) : ℚ) := by
        push_cast; linarith [b.2]
      have u2 : ((-2147483649 : Int) : ℚ) < round_half_away (binary32_round z) := by
        push_cast; linarith [b.1]
      have u1' : round_half_away (binary32_round z) < -16777215 := by exact_mod_cast u1
      have u2' : -2147483649 < round_half_away (binary32_round z) := by exact_mod_cast u2
      rw [quantize_coeff_of_unclamped hu (by omega) (by omega)]
      congr 1; omega

theorem quantize_loop_replicate (s : ℚ) (z v : Int) (x : ℚ)
    (h : quantize_coeff x s z = some v) (n : Nat) :
    quantize_loop s z (List.replicate n x) = some (List.replicate n v) := by
  induction n with
  | zero => rfl
  | succ n ih =>
    rw [List.replicate_succ, quantize_loop, h]
    simp only [ih]
    rfl

theorem dequantize_zero_point (zp : Int) (sc : ℚ) : dequantize zp zp sc = float.finite 0 := by
  unfold dequantize
  rw [sub_self, show wrap_int32 0 = 0 by decide, binary32_round_intCast 0 (by decide)]
  simp only [Int.cast_zero, zero_mul]
  exact to_float_zero

/-- Invariant of the arg-max loop: if the running maximum is the first maximum of the
scores at indices below `i`, the result is the first maximum of the scores at indices
below `i + rest.length`. -/
theorem argmax_loop_first_max (zp : Int) (sc : ℚ) (f : Nat → float) :
    ∀ (rest : List Int) (i mi : Nat) (ms : float),
      (∀ k, k < rest.length → dequantize (rest.getD k 0) zp sc = f (i + k)) →
      mi < i → ms = f mi →
      (∀ j, j < mi → f j < ms) →
      (∀ j, mi < j → j < i → f j ≤ ms) →
      (argmax_loop zp sc rest i mi ms).1 < i + rest.length ∧
      (argmax_loop zp sc rest i mi ms).2 = f (argmax_loop zp sc rest i mi ms).1 ∧
      (∀ j, j < (argmax_loop zp sc rest i mi ms).1 → f j < (argmax_loop zp sc rest i mi ms).2) ∧
      (∀ j, (argmax_loop zp sc rest i mi ms).1 < j → j < i + rest.length →
        f j ≤ (argmax_loop zp sc rest i mi ms).2) := by
  intro rest
  induction rest with
  | nil =>
    intro i mi ms _ hmi hms hlt hle
    simp only [argmax_loop, List.length_nil, Nat.add_zero]
    exact ⟨hmi, hms, hlt, hle⟩
  | cons raw rest ih =>
    intro i mi ms hf hmi hms hlt hle
    have hhead : dequantize raw zp sc = f i := by
      have := hf 0 (by simp)
      simpa using this
    have htail : ∀ k, k < rest.length → dequantize (rest.getD k 0) zp sc = f (i + 1 + k) := by
      intro k hk
      have := hf (k + 1) (by simp; omega)
      rw [show i + 1 + k = i + (k + 1) by omega]
      simpa using this
    have hlen : i + (raw :: rest).length = i + 1 + rest.length := by
      simp; omega
    rw [hlen]
    simp only [argmax_loop]
    split
    · rename_i hgt
      apply ih (i + 1) i (dequantize raw zp sc) htail (by omega) hhead
      · intro j hj
        rcases Nat.lt_trichotomy j mi with h | h | h
        · exact lt_trans (hlt j h) (by rw [hms] at hgt ⊢; exact hgt)
        · rw [h, ← hms]; exact hgt
        · exact lt_of_le_of_lt (hle j h hj) hgt
      · intro j h1 h2; omega
    · rename_i hgt
      apply ih (i + 1) mi ms htail (by omega) hms hlt
      intro j h1 h2
      rcases Nat.lt_or_ge j i with h | h
      · exact hle j h1 h
      · have : j = i := by omega
        rw [this, ← hhead]
        exact not_lt.mp hgt

theorem select_max_first_max (n : Nat) (data : List Int) (zp : Int) (sc : ℚ)
    (hn : 0 < n) (hlen : n ≤ data.length) :
    (select_max n data zp sc).1 < n ∧
    (select_max n data zp sc).2 = dequantize (data.getD (select_max n data zp sc).1 0) zp sc ∧
    (∀ j, j < (select_max n data zp sc).1 →
      dequantize (data.getD j 0) zp sc < (select_max n data zp sc).2) ∧
    (∀ j, (select_max n data zp sc).1 < j → j < n →
      dequantize (data.getD j 0) zp sc ≤ (select_max n data zp sc).2) := by
  have hl : ((data.take n).drop 1).length = n - 1 := by
    simp [List.length_drop, List.length_take, Nat.min_eq_left hlen]
  have key := argmax_loop_first_max zp sc (fun j => dequantize (data.getD j 0) zp sc)
    ((data.take n).drop 1) 1 0 (dequantize (data.getD 0 0) zp sc)
    (by
      intro k hk
      rw [hl] at hk
      simp only []
      congr 1
      simp only [List.getD_eq_getElem?_getD, List.getElem?_drop, List.getElem?_take]
      rw [if_pos (by omega)])
    (by omega) rfl (by intro j hj; omega) (by intro j h1 h2; omega)
  rw [hl, show 1 + (n - 1) = n by omega] at key
  exact key

/-! ## Control flow of `classify_mfcc` -/

theorem error_strings_not_labels :
    "InvalidModel" ∉ labels ∧ "MemoryError" ∉ labels ∧ "AllocateError" ∉ labels ∧
    "InvalidInput" ∉ labels ∧ "InvokeError" ∉ labels ∧ "OutputError" ∉ labels := by
  decide

theorem init_interpreter_cases (env : Collaborators) (st : ClassifierState) :
    (setup_passes env st ∧ init_interpreter env st =
        (none, { st with tensor_arena := st.tensor_arena || !st.interpreter_initialized,
                         interpreter_initialized := true })) ∨
    (¬ setup_passes env st ∧ ∃ r st', init_interpreter env st = (some r, st') ∧
      ((r = Outcome.returned "MemoryError" ∧ st.interpreter_initialized = false ∧
          st.tensor_arena = false ∧ env.psram_alloc_ok = false ∧ env.malloc_ok = false) ∨
       (r = Outcome.returned "AllocateError" ∧ st.interpreter_initialized = false ∧
          env.allocate_tensors_ok = false) ∨
        r = Outcome.undefined_behaviour)) := by
  unfold setup_passes init_interpreter
  rcases st with ⟨ta, ri, ii, d, c, p⟩
  rcases env with ⟨mv, pa, ma, al, inp, io, od, out⟩
  cases ii <;> cases ta <;> cases pa <;> cases ma <;> cases al <;> cases inp <;> cases out <;> simp

theorem setup_passes_resolver (env : Collaborators) (st : ClassifierState) :
    setup_passes env { st with resolver_initialized := true } ↔ setup_passes env st := by
  unfold setup_passes; simp

theorem classify_mfcc_cases (MIS NL : Nat) (env : Collaborators) (st : ClassifierState)
    (v : List ℚ) :
    ((classify_mfcc MIS NL env st v).1 = Outcome.returned "InvalidModel" ∧
      env.model_version ≠ TFLITE_SCHEMA_VERSION) ∨
    ((classify_mfcc MIS NL env st v).1 = Outcome.returned "MemoryError" ∧
      st.interpreter_initialized = false ∧ st.tensor_arena = false ∧
      env.psram_alloc_ok = false ∧ env.malloc_ok = false) ∨
    ((classify_mfcc MIS NL env st v).1 = Outcome.returned "AllocateError" ∧
      st.interpreter_initialized = false ∧ env.allocate_tensors_ok = false) ∨
    ((classify_mfcc MIS NL env st v).1 = Outcome.returned "InvalidInput" ∧
      ∀ i, env.input = some i → i.type ≠ TfLiteType.kTfLiteInt8) ∨
    ((classify_mfcc MIS NL env st v).1 = Outcome.returned "InvokeError" ∧
      env.invoke_ok = false) ∨
    ((classify_mfcc MIS NL env st v).1 = Outcome.returned "OutputError" ∧
      ∀ o, env.output = some o → o.type ≠ TfLiteType.kTfLiteInt8) ∨
    ((classify_mfcc MIS NL env st v).1 = Outcome.undefined_behaviour) ∨
    (∃ input output data, runs_to_label MIS NL env st v input output data) := by
  by_cases hv : env.model_version = TFLITE_SCHEMA_VERSION
  swap
  · left
    exact ⟨by unfold classify_mfcc; rw [if_pos hv], hv⟩
  right
  rcases init_interpreter_cases env { st with resolver_initialized := true } with
    ⟨hs, h⟩ | ⟨_, r, st', h, hr⟩
  swap
  · have e : (classify_mfcc MIS NL env st v).1 = r := by
      unfold classify_mfcc
      simp only [hv, ne_eq, not_true_eq_false, if_false, h]
    rw [e]
    rcases hr with hr | hr | hr
    · left; exact hr
    · right; left; exact hr
    · right; right; right; right; right; left; exact hr
  rw [setup_passes_resolver] at hs
  right; right
  cases hin : env.input with
  | none =>
    left
    refine ⟨?_, by simp⟩
    unfold classify_mfcc
    simp only [hv, ne_eq, not_true_eq_false, if_false, h, hin]
  | some input =>
    by_cases hint : input.type = TfLiteType.kTfLiteInt8
    swap
    · left
      refine ⟨?_, by intro i hi; cases hi; exact hint⟩
      unfold classify_mfcc
      simp only [hv, ne_eq, not_true_eq_false, if_false, h, hin, hint, not_false_eq_true, if_true]
    right
    by_cases hg : v.length = 0 ∨ v.length < MIS ∨ input.bytes < MIS
    · right; right; left
      unfold classify_mfcc
      simp only [hv, ne_eq, not_true_eq_false, if_false, h, hin, hint]
      rw [if_pos hg]
    cases hq : quantize_loop input.scale input.zero_point (v.take MIS) with
    | none =>
      right; right; left
      unfold classify_mfcc
      simp only [hv, ne_eq, not_true_eq_false, if_false, h, hin, hint]
      rw [if_neg hg]
      simp only [hq]
    | some data =>
      by_cases hinv : env.invoke_ok = true
      swap
      · left
        refine ⟨?_, by simpa using hinv⟩
        unfold classify_mfcc
        simp only [hv, ne_eq, not_true_eq_false, if_false, h, hin, hint]
        rw [if_neg hg]
        simp [hq, hinv]
      right
      have e : (classify_mfcc MIS NL env st v).1 =
          (read_output NL env
            { tensor_arena := st.tensor_arena || !st.interpreter_initialized,
              resolver_initialized := true, interpreter_initialized := true,
              input_data := data,
              invoke_count := st.invoke_count + 1, predicted := st.predicted }
            (env.output_data data)).1 := by
        unfold classify_mfcc
        simp only [hv, ne_eq, not_true_eq_false, if_false, h, hin, hint]
        rw [if_neg hg]
        simp only [hq, hinv, Bool.not_true, Bool.false_eq_true, if_false]
      rw [e]
      cases hout : env.output with
      | none =>
        left
        refine ⟨?_, by simp⟩
        unfold read_output
        simp only [hout]
      | some output =>
        by_cases hot : output.type = TfLiteType.kTfLiteInt8
        swap
        · left
          refine ⟨?_, by intro o ho; cases ho; exact hot⟩
          unfold read_output
          simp only [hout, ne_eq, hot, not_false_eq_true, if_true]
        right
        by_cases hg2 : (env.output_data data).length < 4 ∨
            (env.output_data data).length < NL ∨ LABEL_COUNT < NL
        · left
          unfold read_output
          simp only [hout, ne_eq, hot, not_true_eq_false, if_false]
          rw [if_pos hg2]
        cases hov : ((env.output_data data).take (max 1 NL)).any
            (fun raw => subtraction_overflows raw output.zero_point) with
        | true =>
          left
          unfold read_output
          simp only [hout, ne_eq, hot, not_true_eq_false, if_false]
          rw [if_neg hg2]
          simp only [hov, if_true]
        | false =>
          right
          refine ⟨input, output, data, hv, hs, hin, hint, ?_, ?_, ?_, hq, hinv, hout, hot,
            ?_, ?_, ?_, hov⟩ <;> omega

theorem classify_mfcc_success (MIS NL : Nat) (env : Collaborators) (st : ClassifierState)
    (v : List ℚ) (input output : TfLiteTensor) (data : List Int)
    (hv : env.model_version = TFLITE_SCHEMA_VERSION)
    (hsetup : setup_passes env st)
    (hin : env.input = some input) (hint : input.type = TfLiteType.kTfLiteInt8)
    (hlen : v.length ≠ 0) (hlen2 : MIS ≤ v.length) (hbytes : MIS ≤ input.bytes)
    (hq : quantized_input MIS input v = some data)
    (hinv : env.invoke_ok = true)
    (hout : env.output = some output) (hot : output.type = TfLiteType.kTfLiteInt8)
    (hd : 4 ≤ (env.output_data data).length)
    (hd2 : NL ≤ (env.output_data data).length)
    (hl : NL ≤ LABEL_COUNT)
    (hov : ((env.output_data data).take (max 1 NL)).any
      (fun raw => subtraction_overflows raw output.zero_point) = false) :
    classify_mfcc MIS NL env st v =
      (Outcome.returned (labels.getD (select_max NL (env.output_data data)
          output.zero_point output.scale).1 ""),
       { tensor_arena := st.tensor_arena || !st.interpreter_initialized,
         resolver_initialized := true,
         interpreter_initialized := true,
         input_data := data,
         invoke_count := st.invoke_count + 1,
         predicted := some (labels.getD (select_max NL (env.output_data data)
          output.zero_point output.scale).1 "", (select_max NL (env.output_data data)
          output.zero_point output.scale).2) }) := by
  have hs' := (setup_passes_resolver env st).mpr hsetup
  unfold quantized_input at hq
  rcases init_interpreter_cases env { st with resolver_initialized := true } with ⟨_, h⟩ | ⟨h, _⟩
  · unfold classify_mfcc
    simp only [hv, ne_eq, not_true_eq_false, if_false, h, hin, hint]
    rw [if_neg (by omega)]
    simp only [hq, hinv, Bool.not_true, Bool.false_eq_true, if_false]
    unfold read_output
    simp only [hout, hot, ne_eq, not_true_eq_false, if_false]
    rw [if_neg (by omega)]
    simp only [hov, Bool.false_eq_true, if_false]
  · exact absurd hs' h

/-! ## Claims on the classification stage -/

/-- C3: for every non-empty vector of `n` raw outputs, every output zero point and every
output scale, the selected index is the lowest index of maximal dequantized score: it
is below `n`, every earlier index has a strictly smaller score and every later index a
score that is not greater.  For the scores `[0.5, 0.5, 0.1, 0.1]` (the binary32 value
nearest to `0.1` is `13421773 / 2 ^ 27`) the index is `0`. -/
theorem select_max_lowest_index_of_max (n : Nat) (data : List Int) (zp : Int) (sc : ℚ)
    (hn : 0 < n) (hlen : n ≤ data.length) :
    (select_max n data zp sc).1 < n ∧
    (select_max n data zp sc).2 = dequantize (data.getD (select_max n data zp sc).1 0) zp sc ∧
    (∀ j, j < (select_max n data zp sc).1 →
      dequantize (data.getD j 0) zp sc < (select_max n data zp sc).2) ∧
    (∀ j, (select_max n data zp sc).1 < j → j < n →
      dequantize (data.getD j 0) zp sc ≤ (select_max n data zp sc).2) ∧
    ((data.take n).map (fun raw => dequantize raw zp sc)
        = [float.finite (1/2), float.finite (1/2), float.finite (13421773/134217728),
            float.finite (13421773/134217728)] →
      (select_max n data zp sc).1 = 0) := by
  have key := select_max_first_max n data zp sc hn hlen
  refine ⟨key.1, key.2.1, key.2.2.1, key.2.2.2, ?_⟩
  intro hsc
  have hl : (data.take n).length = 4 := by
    have := congrArg List.length hsc
    simpa using this
  have hn4 : n = 4 := by
    rw [List.length_take] at hl
    omega
  have hget : ∀ j, j < 4 → dequantize (data.getD j 0) zp sc
      = ([float.finite (1/2), float.finite (1/2), float.finite (13421773/134217728),
            float.finite (13421773/134217728)] : List float).getD j (float.finite 0) := by
    intro j hj
    rw [← hsc]
    simp only [List.getD_eq_getElem?_getD, List.getElem?_map, List.getElem?_take]
    rw [if_pos (by omega)]
    have hj' : j < data.length := by omega
    simp [List.getElem?_eq_getElem hj']
  by_contra hne
  have hpos : 0 < (select_max n data zp sc).1 := Nat.pos_of_ne_zero hne
  have h0 := key.2.2.1 0 hpos
  rw [key.2.1] at h0
  have hidx : (select_max n data zp sc).1 < 4 := hn4 ▸ key.1
  rw [hget 0 (by omega), hget _ hidx] at h0
  generalize (select_max n data zp sc).1 = k at h0 hidx hpos
  interval_cases k <;>
    simp only [List.getD_eq_getElem?_getD, List.getElem?_cons_zero, List.getElem?_cons_succ,
      Option.getD_some, float_finite_lt_finite] at h0 <;>
    norm_num at h0

theorem dequantize_of_no_overflow (raw zp : Int) (sc : ℚ)
    (h : subtraction_overflows raw zp = false) :
    dequantize raw zp sc = to_float (binary32_round ((raw - zp : Int) : ℚ) * sc) := by
  unfold dequantize
  have w : wrap_int32 (raw - zp) = raw - zp := by
    unfold subtraction_overflows at h
    have := of_decide_eq_false h
    unfold wrap_int32
    omega
  rw [w]

theorem no_overflow_of_any_false (data : List Int) (m : Nat) (zp : Int)
    (h : (data.take m).any (fun raw => subtraction_overflows raw zp) = false) (i : Nat)
    (hi : i < m) (hl : i < data.length) :
    subtraction_overflows (data.getD i 0) zp = false := by
  rw [List.any_eq_false] at h
  have hmem : data.getD i 0 ∈ data.take m := by
    rw [List.mem_iff_getElem]
    refine ⟨i, by rw [List.length_take]; omega, ?_⟩
    simp [List.getElem_take, List.getD_eq_getElem?_getD, List.getElem?_eq_getElem hl]
  simpa using h _ hmem

theorem dequantize_of_small (raw zp : Int) (sc : ℚ) (h : |raw - zp| < 2 ^ 24) :
    dequantize raw zp sc = to_float (((raw - zp : Int) : ℚ) * sc) := by
  unfold dequantize
  have w : wrap_int32 (raw - zp) = raw - zp := by
    have := abs_lt.mp h
    unfold wrap_int32
    omega
  rw [w, binary32_round_intCast _ h]

/-- The binary32 scale nearest to `1/10` times `5` is rounded to `1/2`. -/
theorem dequantize_five_tenths :
    dequantize 5 0 (13421773/134217728) = float.finite (1/2) := by
  rw [dequantize_of_small 5 0 _ (by decide)]
  have hq : binary32_round (((5 - 0 : Int) : ℚ) * (13421773/134217728)) = 1/2 := by
    have hn : round_half_even (((5 - 0 : Int) : ℚ) * (13421773/134217728) / 2 ^ (-24 : Int))
        = 8388608 := by
      apply round_half_even_of_near <;> norm_num
    have := binary32_round_eval (q := ((5 - 0 : Int) : ℚ) * (13421773/134217728)) (g := -24)
      (by rw [abs_of_pos (by norm_num)]; norm_num)
      (by rw [abs_of_pos (by norm_num)]; norm_num) (by decide) hn
    rw [this]; norm_num
  rw [to_float_finite (by rw [hq]; norm_num) (by rw [hq]; norm_num), hq]

theorem dequantize_one_tenth :
    dequantize 1 0 (13421773/134217728) = float.finite (13421773/134217728) := by
  rw [dequantize_of_small 1 0 _ (by decide)]
  have hq : binary32_round (((1 - 0 : Int) : ℚ) * (13421773/134217728))
      = 13421773/134217728 := by
    have e := binary32_round_eq_self_of (q := ((1 - 0 : Int) : ℚ) * (13421773/134217728))
      13421773 (-27) (by decide) (by decide) (by norm_num)
    rw [e]; norm_num
  rw [to_float_finite (by rw [hq]; norm_num) (by rw [hq]; norm_num), hq]

/-- Witness for C3: raw outputs `[5, 5, 1, 1]` with zero point `0` and the binary32 scale
nearest to `1/10` have the scores `[0.5, 0.5, 0.1, 0.1]`. -/
theorem select_max_lowest_index_of_max_witness :
    0 < 4 ∧ 4 ≤ ([5, 5, 1, 1] : List Int).length ∧
    (select_max 4 [5, 5, 1, 1] 0 (13421773/134217728)).1 = 0 :=
  ⟨by decide, by decide,
    (select_max_lowest_index_of_max 4 [5, 5, 1, 1] 0 (13421773/134217728) (by decide)
      (by decide)).2.2.2.2
      (by
        simp only [List.take, List.map, dequantize_five_tenths, dequantize_one_tenth])⟩

theorem labels_getElem_of_lt (i : Nat) (h : i < LABEL_COUNT) :
    labels[i]? = some (labels.getD i "") := by
  unfold LABEL_COUNT at h
  interval_cases i <;> rfl

theorem select_max_zero (data : List Int) (zp : Int) (sc : ℚ) :
    select_max 0 data zp sc = (0, dequantize (data.getD 0 0) zp sc) := by
  simp [select_max, argmax_loop]

/-- A returned label can only come from the final `return labels[max_index]`. -/
theorem classify_mfcc_label_runs (MIS NL : Nat) (env : Collaborators) (st : ClassifierState)
    (v : List ℚ) (s : String)
    (h : (classify_mfcc MIS NL env st v).1 = Outcome.returned s) (hs : s ∈ labels) :
    ∃ input output data, runs_to_label MIS NL env st v input output data := by
  have ne := error_strings_not_labels
  rcases classify_mfcc_cases MIS NL env st v with
    c | c | c | c | c | c | c | c
  · rw [c.1] at h; cases h; exact absurd hs ne.1
  · rw [c.1] at h; cases h; exact absurd hs ne.2.1
  · rw [c.1] at h; cases h; exact absurd hs ne.2.2.1
  · rw [c.1] at h; cases h; exact absurd hs ne.2.2.2.1
  · rw [c.1] at h; cases h; exact absurd hs ne.2.2.2.2.1
  · rw [c.1] at h; cases h; exact absurd hs ne.2.2.2.2.2
  · rw [c] at h; cases h
  · exact c

theorem classify_mfcc_of_runs (MIS NL : Nat) (env : Collaborators) (st : ClassifierState)
    (v : List ℚ) (input output : TfLiteTensor) (data : List Int)
    (h : runs_to_label MIS NL env st v input output data) :
    classify_mfcc MIS NL env st v =
      (Outcome.returned (labels.getD (select_max NL (env.output_data data)
          output.zero_point output.scale).1 ""),
       { tensor_arena := st.tensor_arena || !st.interpreter_initialized,
         resolver_initialized := true,
         interpreter_initialized := true,
         input_data := data,
         invoke_count := st.invoke_count + 1,
         predicted := some (labels.getD (select_max NL (env.output_data data)
          output.zero_point output.scale).1 "", (select_max NL (env.output_data data)
          output.zero_point output.scale).2) }) := by
  obtain ⟨h1, h2, h3, h4, h5, h6, h7, h8, h9, h10, h11, h12, h13, h14, h15⟩ := h
  exact classify_mfcc_success MIS NL env st v input output data h1 h2 h3 h4 h5 h6 h7 h8 h9 h10
    h11 h12 h13 h14 h15

/-- C4: on every successful classification (the call returns an entry `s` of the label
table) the score of output index `i` is the `float` product
`(raw_i - output_zero_point) * output_scale`: the difference, which does not overflow,
converted to `float` and multiplied by the scale in binary32 (the binary32 rounding of
the exact product whenever the difference has fewer than 25 bits); `s` is the
label-table entry of the selected index, and the score printed with it is the score of
that index and is at least the score of every output index. -/
theorem classify_mfcc_returns_winning_label (MIS NL : Nat) (env : Collaborators)
    (st : ClassifierState) (v : List ℚ) (s : String)
    (h : (classify_mfcc MIS NL env st v).1 = Outcome.returned s) (hs : s ∈ labels) :
    ∃ input output data, env.input = some input ∧ env.output = some output ∧
      quantized_input MIS input v = some data ∧
      (∀ i, i < NL →
        dequantize ((env.output_data data).getD i 0) output.zero_point output.scale
          = to_float (binary32_round
              (((env.output_data data).getD i 0 - output.zero_point : Int) : ℚ)
              * output.scale)) ∧
      (∀ raw, |raw - output.zero_point| < 2 ^ 24 →
        dequantize raw output.zero_point output.scale
          = to_float (((raw - output.zero_point : Int) : ℚ) * output.scale)) ∧
      labels[(select_max NL (env.output_data data) output.zero_point output.scale).1]?
        = some s ∧
      (classify_mfcc MIS NL env st v).2.predicted
        = some (s, (select_max NL (env.output_data data) output.zero_point output.scale).2) ∧
      (select_max NL (env.output_data data) output.zero_point output.scale).2
        = dequantize ((env.output_data data).getD
            (select_max NL (env.output_data data) output.zero_point output.scale).1 0)
            output.zero_point output.scale ∧
      (∀ i, i < NL →
        dequantize ((env.output_data data).getD i 0) output.zero_point output.scale
          ≤ (select_max NL (env.output_data data) output.zero_point output.scale).2) := by
  obtain ⟨input, output, data, hr⟩ := classify_mfcc_label_runs MIS NL env st v s h hs
  have e := classify_mfcc_of_runs MIS NL env st v input output data hr
  obtain ⟨_, _, hin, _, _, _, _, hq, _, hout, _, _, hd2, hl, hov⟩ := hr
  rw [e] at h
  simp only [Outcome.returned.injEq] at h
  refine ⟨input, output, data, hin, hout, hq, ?_,
    fun raw hraw => dequantize_of_small raw _ _ hraw, ?_, ?_, ?_, ?_⟩
  · intro i hi
    exact dequantize_of_no_overflow _ _ _
      (no_overflow_of_any_false _ _ _ hov i (by omega) (by omega))
  · rw [← h]
    apply labels_getElem_of_lt
    rcases Nat.eq_zero_or_pos NL with h0 | hpos
    · rw [h0, select_max_zero]; exact Nat.zero_lt_succ 3
    · exact lt_of_lt_of_le (select_max_first_max NL _ _ _ hpos hd2).1 hl
  · rw [e, ← h]
  · rcases Nat.eq_zero_or_pos NL with h0 | hpos
    · rw [h0, select_max_zero]
    · exact (select_max_first_max NL _ _ _ hpos hd2).2.1
  · intro i hi
    have hpos : 0 < NL := by omega
    have key := select_max_first_max NL _ output.zero_point output.scale hpos hd2
    rcases Nat.lt_trichotomy i (select_max NL (env.output_data data)
          output.zero_point output.scale).1 with c | c | c
    · exact le_of_lt (key.2.2.1 i c)
    · rw [c]; exact le_of_eq key.2.1.symm
    · exact key.2.2.2 i c hi

theorem quantize_coeff_zero_unit : quantize_coeff 0 1 0 = some 0 :=
  quantize_coeff_zero 1 0 (by norm_num) (by decide) (by decide)

theorem env_all_ok_runs :
    runs_to_label 12 4 env_all_ok ClassifierState.initial (List.replicate 13 0)
      (unit_int8_tensor 12) (unit_int8_tensor 4) (List.replicate 12 0) := by
  unfold runs_to_label setup_passes
  refine ⟨rfl, Or.inr ⟨Or.inr (Or.inl rfl), rfl, rfl, rfl⟩, rfl, rfl, by decide, by decide,
    by decide, ?_, rfl, rfl, rfl, by decide, by decide, by decide, by decide⟩
  unfold quantized_input
  rw [List.take_replicate]
  exact quantize_loop_replicate 1 0 0 0 quantize_coeff_zero_unit _

theorem select_max_all_zero :
    select_max 4 [0, 0, 0, 0] 0 1 = (0, float.finite 0) := by
  have d : dequantize 0 0 1 = float.finite 0 := dequantize_zero_point 0 1
  simp [select_max, argmax_loop, d]

theorem env_all_ok_result :
    classify_mfcc 12 4 env_all_ok ClassifierState.initial (List.replicate 13 0)
      = (Outcome.returned "Fan",
          { tensor_arena := true, resolver_initialized := true,
            interpreter_initialized := true, input_data := List.replicate 12 0,
            invoke_count := 1, predicted := some ("Fan", float.finite 0) }) := by
  rw [classify_mfcc_of_runs _ _ _ _ _ _ _ _ env_all_ok_runs]
  have hsel : select_max 4 (env_all_ok.output_data (List.replicate 12 0))
      (unit_int8_tensor 4).zero_point (unit_int8_tensor 4).scale = (0, float.finite 0) :=
    select_max_all_zero
  rw [hsel]
  rfl

/-- Witness for C4: the first call on thirteen zero coefficients with collaborators that
all succeed returns `"Fan"`. -/
theorem classify_mfcc_returns_winning_label_witness :
    (classify_mfcc 12 4 env_all_ok ClassifierState.initial (List.replicate 13 0)).1
      = Outcome.returned "Fan" ∧ "Fan" ∈ labels ∧
    ∃ input output data, env_all_ok.input = some input ∧ env_all_ok.output = some output ∧
      quantized_input 12 input (List.replicate 13 0) = some data ∧
      labels[(select_max 4 (env_all_ok.output_data data)
          output.zero_point output.scale).1]? = some "Fan" := by
  have h1 : (classify_mfcc 12 4 env_all_ok ClassifierState.initial (List.replicate 13 0)).1
      = Outcome.returned "Fan" := by rw [env_all_ok_result]
  have h2 : "Fan" ∈ labels := by decide
  obtain ⟨i, o, d, a, b, q, _, _, c, _⟩ :=
    classify_mfcc_returns_winning_label 12 4 env_all_ok ClassifierState.initial
      (List.replicate 13 0) "Fan" h1 h2
  exact ⟨h1, h2, i, o, d, a, b, q, c⟩

theorem read_output_keeps_input (NL : Nat) (env : Collaborators) (st : ClassifierState)
    (data : List Int) :
    (read_output NL env st data).2.input_data = st.input_data ∧
    (read_output NL env st data).2.invoke_count = st.invoke_count := by
  unfold read_output
  split
  · exact ⟨rfl, rfl⟩
  · split
    · exact ⟨rfl, rfl⟩
    · split
      · exact ⟨rfl, rfl⟩
      · split <;> exact ⟨rfl, rfl⟩

theorem labels_getD_mem (i : Nat) (h : i < LABEL_COUNT) : labels.getD i "" ∈ labels := by
  unfold LABEL_COUNT at h
  interval_cases i <;> decide

/-- C5 (counterexample): with `MODEL_INPUT_SIZE = 12` a 13-coefficient vector is not
rejected: the call returns the label `"Fan"`, has written the twelve quantized
coefficients into the input tensor and has invoked inference once. -/
theorem classify_mfcc_length_mismatch_counterexample :
    (List.replicate 13 (0 : ℚ)).length ≠ 12 ∧
    classify_mfcc 12 4 env_all_ok ClassifierState.initial (List.replicate 13 0)
      = (Outcome.returned "Fan",
          { tensor_arena := true, resolver_initialized := true,
            interpreter_initialized := true, input_data := List.replicate 12 0,
            invoke_count := 1, predicted := some ("Fan", float.finite 0) }) :=
  ⟨by decide, env_all_ok_result⟩

/-- C5 (amended): `classify_mfcc` receives no length and has no shape-mismatch error.
For non-empty feature vectors holding at least `MODEL_INPUT_SIZE` coefficients the
result depends only on the first `MODEL_INPUT_SIZE` coefficients, every returned string
is a label or one of the six error strings, and whenever the schema, set-up and
input-tensor checks pass, either the conversion of one of the first `MODEL_INPUT_SIZE`
coefficients is undefined, or the input tensor receives the quantized first
`MODEL_INPUT_SIZE` coefficients and inference is invoked once. -/
theorem classify_mfcc_ignores_length (MIS NL : Nat) (env : Collaborators)
    (st : ClassifierState) (v w : List ℚ)
    (hv : v.length ≠ 0) (hvl : MIS ≤ v.length) (hw : w.length ≠ 0) (hwl : MIS ≤ w.length)
    (heq : v.take MIS = w.take MIS) :
    classify_mfcc MIS NL env st v = classify_mfcc MIS NL env st w ∧
    (∀ e, (classify_mfcc MIS NL env st v).1 = Outcome.returned e →
      e ∈ labels ∨ e ∈ error_strings) ∧
    (∀ input, env.model_version = TFLITE_SCHEMA_VERSION → setup_passes env st →
      env.input = some input → input.type = TfLiteType.kTfLiteInt8 → MIS ≤ input.bytes →
      (quantized_input MIS input v = none ∧
        (classify_mfcc MIS NL env st v).1 = Outcome.undefined_behaviour) ∨
      (∃ data, quantized_input MIS input v = some data ∧
        (classify_mfcc MIS NL env st v).2.input_data = data ∧
        (classify_mfcc MIS NL env st v).2.invoke_count = st.invoke_count + 1)) := by
  refine ⟨?_, ?_, ?_⟩
  · have g : ∀ b : Nat, (v.length = 0 ∨ v.length < MIS ∨ b < MIS)
        = (w.length = 0 ∨ w.length < MIS ∨ b < MIS) := by
      intro b
      apply propext
      constructor <;> intro h <;> omega
    unfold classify_mfcc
    simp only [g, heq]
  · intro e he
    rcases classify_mfcc_cases MIS NL env st v with
      c | c | c | c | c | c | c | ⟨input, output, data, c⟩
    · rw [c.1] at he; cases he; right; decide
    · rw [c.1] at he; cases he; right; decide
    · rw [c.1] at he; cases he; right; decide
    · rw [c.1] at he; cases he; right; decide
    · rw [c.1] at he; cases he; right; decide
    · rw [c.1] at he; cases he; right; decide
    · rw [c] at he; cases he
    · left
      rw [classify_mfcc_of_runs MIS NL env st v input output data c] at he
      simp only [Outcome.returned.injEq] at he
      rw [← he]
      apply labels_getD_mem
      obtain ⟨_, _, _, _, _, _, _, _, _, _, _, _, hd2, hl, _⟩ := c
      rcases Nat.eq_zero_or_pos NL with h0 | hpos
      · rw [h0, select_max_zero]; exact Nat.zero_lt_succ 3
      · exact lt_of_lt_of_le (select_max_first_max NL _ _ _ hpos hd2).1 hl
  · intro input hver hs hin hint hb
    have hs' := (setup_passes_resolver env st).mpr hs
    rcases init_interpreter_cases env { st with resolver_initialized := true } with
      ⟨_, h⟩ | ⟨h, _⟩
    · unfold quantized_input
      cases hq : quantize_loop input.scale input.zero_point (v.take MIS) with
      | none =>
        left
        refine ⟨rfl, ?_⟩
        unfold classify_mfcc
        simp only [hver, ne_eq, not_true_eq_false, if_false, h, hin, hint]
        rw [if_neg (by omega)]
        simp only [hq]
      | some data =>
        right
        refine ⟨data, rfl, ?_⟩
        unfold classify_mfcc
        simp only [hver, ne_eq, not_true_eq_false, if_false, h, hin, hint]
        rw [if_neg (by omega)]
        simp only [hq]
        split
        · exact ⟨rfl, rfl⟩
        · exact read_output_keeps_input _ _ _ _
    · exact absurd hs' h

/-- Witness for C5: vectors of 13 and of 12 zero coefficients give the same result when
`MODEL_INPUT_SIZE = 12`. -/
theorem classify_mfcc_ignores_length_witness :
    (List.replicate 13 (0 : ℚ)).length ≠ 0 ∧ 12 ≤ (List.replicate 13 (0 : ℚ)).length ∧
    (List.replicate 12 (0 : ℚ)).length ≠ 0 ∧ 12 ≤ (List.replicate 12 (0 : ℚ)).length ∧
    classify_mfcc 12 4 env_all_ok ClassifierState.initial (List.replicate 13 0)
      = classify_mfcc 12 4 env_all_ok ClassifierState.initial (List.replicate 12 0) :=
  ⟨by decide, by decide, by decide, by decide,
    (classify_mfcc_ignores_length 12 4 env_all_ok ClassifierState.initial
      (List.replicate 13 0) (List.replicate 12 0) (by decide) (by decide) (by decide)
      (by decide) (by simp)).1⟩

/-- C6 (failing input): on the first call, with a matching schema version, a successful
arena and tensor allocation and a model without an input tensor, the set-up block
dereferences the null `input_tensor` (line 111) before the null check of line 123 is
reached: the call has undefined behaviour instead of returning an error value.  Once
the interpreter is initialised the same collaborators give `"InvalidInput"`. -/
theorem classify_mfcc_missing_input_first_call :
    (classify_mfcc 12 4 env_no_input ClassifierState.initial (List.replicate 12 0)).1
      = Outcome.undefined_behaviour ∧
    (classify_mfcc 12 4 env_no_input
      { ClassifierState.initial with tensor_arena := true, interpreter_initialized := true }
      (List.replicate 12 0)).1 = Outcome.returned "InvalidInput" := by
  constructor <;> rfl

/-- Apart from undefined behaviour, `classify_mfcc` returns an entry of the label table
exactly when none of the six failures occurs, and an error string that is not a label
when one occurs; an arena allocation that fails in the preferred pool only is none of
them. -/
theorem classify_mfcc_label_iff_no_failure (MIS NL : Nat) (env : Collaborators)
    (st : ClassifierState) (v : List ℚ)
    (hub : (classify_mfcc MIS NL env st v).1 ≠ Outcome.undefined_behaviour) :
    ((∃ s, s ∈ labels ∧ (classify_mfcc MIS NL env st v).1 = Outcome.returned s) ↔
      ¬ (env.model_version ≠ TFLITE_SCHEMA_VERSION ∨
         (st.interpreter_initialized = false ∧ st.tensor_arena = false ∧
            env.psram_alloc_ok = false ∧ env.malloc_ok = false) ∨
         (st.interpreter_initialized = false ∧ env.allocate_tensors_ok = false) ∨
         (∀ i, env.input = some i → i.type ≠ TfLiteType.kTfLiteInt8) ∨
         env.invoke_ok = false ∨
         (∀ o, env.output = some o → o.type ≠ TfLiteType.kTfLiteInt8))) ∧
    ((¬ ∃ s, s ∈ labels ∧ (classify_mfcc MIS NL env st v).1 = Outcome.returned s) →
      ∃ e, e ∈ error_strings ∧ e ∉ labels ∧
        (classify_mfcc MIS NL env st v).1 = Outcome.returned e) := by
  have ne := error_strings_not_labels
  have hlabel : ∀ input output data, runs_to_label MIS NL env st v input output data →
      ∃ s, s ∈ labels ∧ (classify_mfcc MIS NL env st v).1 = Outcome.returned s := by
    intro input output data c
    refine ⟨_, ?_, by rw [classify_mfcc_of_runs MIS NL env st v input output data c]⟩
    apply labels_getD_mem
    obtain ⟨_, _, _, _, _, _, _, _, _, _, _, _, hd2, hl, _⟩ := c
    rcases Nat.eq_zero_or_pos NL with h0 | hpos
    · rw [h0, select_max_zero]; exact Nat.zero_lt_succ 3
    · exact lt_of_lt_of_le (select_max_first_max NL _ _ _ hpos hd2).1 hl
  constructor
  · constructor
    · rintro ⟨s, hs, h⟩
      obtain ⟨input, output, data, h1, h2, h3, h4, _, _, _, _, h8, h9, h10, _⟩ :=
        classify_mfcc_label_runs MIS NL env st v s h hs
      rintro (f | f | f | f | f | f)
      · exact f h1
      · unfold setup_passes at h2
        rcases h2 with h2 | ⟨h2 | h2 | h2, _⟩
        · rw [f.1] at h2; cases h2
        · rw [f.2.1] at h2; cases h2
        · rw [f.2.2.1] at h2; cases h2
        · rw [f.2.2.2] at h2; cases h2
      · unfold setup_passes at h2
        rcases h2 with h2 | ⟨_, h2, _⟩
        · rw [f.1] at h2; cases h2
        · rw [f.2] at h2; cases h2
      · exact f input h3 h4
      · rw [f] at h8; cases h8
      · exact f output h9 h10
    · intro hno
      rcases classify_mfcc_cases MIS NL env st v with
        c | c | c | c | c | c | c | ⟨input, output, data, c⟩
      · exact absurd (Or.inl c.2) hno
      · exact absurd (Or.inr (Or.inl c.2)) hno
      · exact absurd (Or.inr (Or.inr (Or.inl c.2))) hno
      · exact absurd (Or.inr (Or.inr (Or.inr (Or.inl c.2)))) hno
      · exact absurd (Or.inr (Or.inr (Or.inr (Or.inr (Or.inl c.2))))) hno
      · exact absurd (Or.inr (Or.inr (Or.inr (Or.inr (Or.inr c.2))))) hno
      · exact absurd c hub
      · exact hlabel input output data c
  · intro hno
    rcases classify_mfcc_cases MIS NL env st v with
      c | c | c | c | c | c | c | ⟨input, output, data, c⟩
    · exact ⟨_, by decide, ne.1, c.1⟩
    · exact ⟨_, by decide, ne.2.1, c.1⟩
    · exact ⟨_, by decide, ne.2.2.1, c.1⟩
    · exact ⟨_, by decide, ne.2.2.2.1, c.1⟩
    · exact ⟨_, by decide, ne.2.2.2.2.1, c.1⟩
    · exact ⟨_, by decide, ne.2.2.2.2.2, c.1⟩
    · exact absurd c hub
    · exact absurd (hlabel input output data c) hno

/-! ## Claims on the pipeline orchestrator -/

theorem ready_processor_eq :
    ready_processor =
      { mic := { rx_handle := 2000, config := default_i2s_mic_config, buffer := 1000,
                 is_initialized := true },
        mfcc := { mfcc_iface := esp_fbank_f32, runner := 3000, opts := default_mfcc_opts,
                  is_initialized := true },
        is_running := false, task_handle := 0, mfcc_callback := 0, user_data := 0 } := by
  rfl

theorem ready_processor_initialised : initialised ready_processor := by
  rw [ready_processor_eq]; exact ⟨rfl, rfl⟩

theorem i2s_mic_init_ok (hw : Responses) (config : Option i2s_mic_config_t)
    (h : (i2s_mic_init hw config).1 = ESP_OK) :
    (i2s_mic_init hw config).2.1.is_initialized = true := by
  unfold i2s_mic_init at h ⊢
  by_cases h1 : hw.malloc_ptr = 0
  · simp [h1] at h
    exact absurd h (by decide)
  · by_cases h2 : hw.new_channel_ret = ESP_OK
    · by_cases h3 : hw.init_std_mode_ret = ESP_OK
      · simp [h1, h2, h3]
      · simp [h1, h2, h3] at h
    · simp [h1, h2] at h

theorem mfcc_processor_init_ok (hw : Responses) (opts : Option esp_mfcc_opts_t)
    (h : (mfcc_processor_init hw opts).1 = ESP_OK) :
    (mfcc_processor_init hw opts).2.1.is_initialized = true := by
  unfold mfcc_processor_init at h ⊢
  by_cases h1 : hw.mfcc_runner = 0
  · simp [h1] at h
    exact absurd h (by decide)
  · simp [h1]

/-- A successful `audio_processor_init` leaves an initialised, not running processor. -/
theorem audio_processor_init_ok (hw : Responses) (config : Option audio_processor_config_t)
    (h : (audio_processor_init hw config).1 = ESP_OK) :
    initialised (audio_processor_init hw config).2.1 ∧
    (audio_processor_init hw config).2.1.is_running = false := by
  unfold audio_processor_init at h ⊢
  cases config with
  | none =>
    simp only [Option.map_none'] at h ⊢
    by_cases h1 : (i2s_mic_init hw none).1 = ESP_OK
    · by_cases h2 : (mfcc_processor_init hw none).1 = ESP_OK
      · have a := i2s_mic_init_ok hw _ h1
        have b := mfcc_processor_init_ok hw _ h2
        simp [h1, h2, initialised, audio_processor_t.zero, a, b]
      · simp [h1, h2] at h
    · simp [h1] at h
  | some c =>
    simp only [Option.map_some'] at h ⊢
    by_cases h1 : (i2s_mic_init hw (some c.mic_config)).1 = ESP_OK
    · by_cases h2 : (mfcc_processor_init hw (some c.mfcc_config)).1 = ESP_OK
      · have a := i2s_mic_init_ok hw _ h1
        have b := mfcc_processor_init_ok hw _ h2
        simp [h1, h2, initialised, audio_processor_t.zero, a, b]
      · simp [h1, h2] at h
    · simp [h1] at h

theorem audio_processor_start_running (hw : Responses) (processor : audio_processor_t)
    (h : processor.is_running = true) :
    audio_processor_start hw processor = (ESP_OK, processor, []) := by
  unfold audio_processor_start
  rw [if_pos h]

theorem audio_processor_stop_not_running (hw : Responses) (processor : audio_processor_t)
    (h : processor.is_running = false) :
    audio_processor_stop hw processor = (ESP_OK, processor, []) := by
  unfold audio_processor_stop
  simp [h]

/-- A start that returns `ESP_OK` leaves the processor running. -/
theorem audio_processor_start_ok_running (hw : Responses) (processor : audio_processor_t)
    (h : (audio_processor_start hw processor).1 = ESP_OK) :
    (audio_processor_start hw processor).2.1.is_running = true := by
  by_cases hrun : processor.is_running = true
  · rw [audio_processor_start_running hw processor hrun]; exact hrun
  · unfold audio_processor_start at h ⊢
    rw [if_neg hrun] at h ⊢
    by_cases hret : (i2s_mic_start hw processor.mic).1 = ESP_OK
    · by_cases htask : hw.task_create_ret = pdPASS
      · simp [hret, htask]
      · simp [hret, htask] at h
        exact absurd h (by decide)
    · simp [hret] at h

/-- After a stop the processor is not running. -/
theorem audio_processor_stop_not_running_after (hw : Responses)
    (processor : audio_processor_t) :
    (audio_processor_stop hw processor).2.1.is_running = false := by
  by_cases hrun : processor.is_running = false
  · rw [audio_processor_stop_not_running hw processor hrun]; exact hrun
  · unfold audio_processor_stop
    simp only [Bool.not_eq_false] at hrun
    simp only [hrun, Bool.not_true, Bool.false_eq_true, if_false]
    by_cases hth : processor.task_handle = 0 <;>
      by_cases hret : (i2s_mic_stop hw processor.mic).1 = ESP_OK <;> simp [hth, hret]

/-- C8 (counterexample): on the initialised processor `ready_processor`, when
`xTaskCreate` fails the first `audio_processor_start` returns `ESP_FAIL`, and the second
call does the same again: it does not return `ESP_OK` and it calls the capture source
and the task scheduler. -/
theorem audio_processor_start_twice_counterexample :
    initialised ready_processor ∧
    audio_processor_start hw_task_fails ready_processor
      = (ESP_FAIL, ready_processor,
          [Call.i2s_channel_enable 2000, Call.xTaskCreate, Call.i2s_channel_disable 2000]) ∧
    audio_processor_start hw_task_fails
        (audio_processor_start hw_task_fails ready_processor).2.1
      = (ESP_FAIL, ready_processor,
          [Call.i2s_channel_enable 2000, Call.xTaskCreate, Call.i2s_channel_disable 2000]) ∧
    ESP_FAIL ≠ ESP_OK := by
  refine ⟨ready_processor_initialised, ?_, ?_, by decide⟩ <;> rfl

/-- C8 (amended): for every initialised processor, if the first `audio_processor_start`
returns `ESP_OK` then a second start returns `ESP_OK`, changes no field and makes no
call to the capture source or the task scheduler; and a second `audio_processor_stop`
after a first one returns `ESP_OK`, changes no field and makes no such call. -/
theorem audio_processor_start_stop_idempotent (hw1 hw2 : Responses)
    (processor : audio_processor_t) (_hinit : initialised processor) :
    ((audio_processor_start hw1 processor).1 = ESP_OK →
      audio_processor_start hw2 (audio_processor_start hw1 processor).2.1
        = (ESP_OK, (audio_processor_start hw1 processor).2.1, [])) ∧
    audio_processor_stop hw2 (audio_processor_stop hw1 processor).2.1
      = (ESP_OK, (audio_processor_stop hw1 processor).2.1, []) := by
  constructor
  · intro h
    exact audio_processor_start_running hw2 _ (audio_processor_start_ok_running hw1 processor h)
  · exact audio_processor_stop_not_running hw2 _ (audio_processor_stop_not_running_after hw1 processor)

/-- Witness for C8: after a successful start of `ready_processor` a second start is a
successful no-op, whatever the collaborators would answer. -/
theorem audio_processor_start_stop_idempotent_witness :
    initialised ready_processor ∧
    (audio_processor_start hw_all_ok ready_processor).1 = ESP_OK ∧
    audio_processor_start hw_task_fails (audio_processor_start hw_all_ok ready_processor).2.1
      = (ESP_OK, (audio_processor_start hw_all_ok ready_processor).2.1, []) :=
  ⟨ready_processor_initialised, rfl,
    (audio_processor_start_stop_idempotent hw_all_ok hw_task_fails ready_processor
      ready_processor_initialised).1 rfl⟩

/-- C9: for every initialised, not running processor: if enabling the capture source
fails, `audio_processor_start` returns that error code, leaves every field unchanged
(`is_running` stays false) and creates no task; if the task cannot be created, it
returns `ESP_FAIL`, which is not `ESP_OK`, `is_running` is false again and
`i2s_channel_disable` has been called on the channel after the enable. -/
theorem audio_processor_start_failures (hw : Responses) (processor : audio_processor_t)
    (hinit : initialised processor) (hrun : processor.is_running = false) :
    (hw.enable_ret ≠ ESP_OK →
      audio_processor_start hw processor
        = (hw.enable_ret, processor, [Call.i2s_channel_enable processor.mic.rx_handle]) ∧
      (audio_processor_start hw processor).2.1.is_running = false ∧
      Call.xTaskCreate ∉ (audio_processor_start hw processor).2.2) ∧
    (hw.enable_ret = ESP_OK → hw.task_create_ret ≠ pdPASS →
      audio_processor_start hw processor
        = (ESP_FAIL, processor,
            [Call.i2s_channel_enable processor.mic.rx_handle, Call.xTaskCreate,
             Call.i2s_channel_disable processor.mic.rx_handle]) ∧
      (audio_processor_start hw processor).1 ≠ ESP_OK ∧
      (audio_processor_start hw processor).2.1.is_running = false) := by
  have hmic : processor.mic.is_initialized = true := hinit.1
  constructor
  · intro he
    have e : audio_processor_start hw processor
        = (hw.enable_ret, processor, [Call.i2s_channel_enable processor.mic.rx_handle]) := by
      unfold audio_processor_start i2s_mic_start
      simp [hrun, hmic, he]
    rw [e]
    exact ⟨rfl, hrun, by simp⟩
  · intro he ht
    have e : audio_processor_start hw processor
        = (ESP_FAIL, processor,
            [Call.i2s_channel_enable processor.mic.rx_handle, Call.xTaskCreate,
             Call.i2s_channel_disable processor.mic.rx_handle]) := by
      unfold audio_processor_start i2s_mic_start i2s_mic_stop
      rcases processor with ⟨mic, mfcc, run, th, cb, ud⟩
      simp only at hrun hmic
      subst hrun
      by_cases hd : hw.disable_ret = ESP_OK <;> simp [hmic, he, ht, hd]
    rw [e]
    exact ⟨rfl, (by decide : ESP_FAIL ≠ ESP_OK), hrun⟩

/-- Witness for C9: `ready_processor` with a failing enable, and with a failing
`xTaskCreate`. -/
theorem audio_processor_start_failures_witness :
    initialised ready_processor ∧ ready_processor.is_running = false ∧
    audio_processor_start hw_enable_fails ready_processor
      = (ESP_ERR_INVALID_STATE, ready_processor, [Call.i2s_channel_enable 2000]) ∧
    audio_processor_start hw_task_fails ready_processor
      = (ESP_FAIL, ready_processor,
          [Call.i2s_channel_enable 2000, Call.xTaskCreate, Call.i2s_channel_disable 2000]) :=
  ⟨ready_processor_initialised, rfl,
    ((audio_processor_start_failures hw_enable_fails ready_processor
      ready_processor_initialised rfl).1 (by decide)).1,
    ((audio_processor_start_failures hw_task_fails ready_processor
      ready_processor_initialised rfl).2 rfl (by decide)).1⟩

theorem audio_processor_destroy_zero (hw : Responses) (processor : audio_processor_t) :
    (audio_processor_destroy hw processor).1 = audio_processor_t.zero := rfl

/-- C10: on a processor whose fields are all zero, and on a processor that has been
destroyed, `audio_processor_start` returns `ESP_ERR_INVALID_STATE`, leaves every field
unchanged with `is_running` false, and makes no call at all: it neither enables the
hardware channel nor creates a task. -/
theorem audio_processor_start_uninitialised (hw hw0 : Responses) (q : audio_processor_t) :
    audio_processor_start hw audio_processor_t.zero
      = (ESP_ERR_INVALID_STATE, audio_processor_t.zero, []) ∧
    audio_processor_t.zero.is_running = false ∧
    (audio_processor_destroy hw0 q).1 = audio_processor_t.zero ∧
    audio_processor_start hw (audio_processor_destroy hw0 q).1
      = (ESP_ERR_INVALID_STATE, (audio_processor_destroy hw0 q).1, []) ∧
    (audio_processor_start hw (audio_processor_destroy hw0 q).1).2.1.is_running = false := by
  have e : audio_processor_start hw audio_processor_t.zero
      = (ESP_ERR_INVALID_STATE, audio_processor_t.zero, []) := by
    unfold audio_processor_start i2s_mic_start
    simp [audio_processor_t.zero, i2s_mic_t.zero, ESP_ERR_INVALID_STATE, ESP_OK]
  rw [audio_processor_destroy_zero, e]
  exact ⟨rfl, rfl, rfl, rfl, rfl⟩

/-! ## Claims on initialisation, teardown and single-frame processing -/

theorem i2s_mic_read_uninitialised (hw : Responses) (mic : i2s_mic_t) (b : Bool) (t : Nat)
    (h : mic.is_initialized = false) : i2s_mic_read hw mic b t = (0, none, []) := by
  unfold i2s_mic_read
  simp [h]

theorem audio_processor_start_zero (hw : Responses) :
    audio_processor_start hw audio_processor_t.zero
      = (ESP_ERR_INVALID_STATE, audio_processor_t.zero, []) := by
  unfold audio_processor_start i2s_mic_start
  simp [audio_processor_t.zero, i2s_mic_t.zero, ESP_ERR_INVALID_STATE, ESP_OK]

/-- C11 (failing input): on an all-zero handle, and on a handle that has been destroyed,
`audio_processor_process_frame` makes no call, stores `NULL` in `*mfcc_features` and
returns `ESP_OK`, which is not `ESP_ERR_INVALID_STATE`; `audio_processor_start` returns
`ESP_ERR_INVALID_STATE` on the same handle. -/
theorem audio_processor_process_frame_uninitialised (hw hw0 : Responses)
    (q : audio_processor_t) (mfcc_features_nonnull : Bool) :
    audio_processor_process_frame hw audio_processor_t.zero mfcc_features_nonnull
      = (ESP_OK, audio_processor_t.zero,
          if mfcc_features_nonnull then some 0 else none, []) ∧
    audio_processor_process_frame hw (audio_processor_destroy hw0 q).1 mfcc_features_nonnull
      = (ESP_OK, audio_processor_t.zero,
          if mfcc_features_nonnull then some 0 else none, []) ∧
    ESP_OK ≠ ESP_ERR_INVALID_STATE ∧
    (audio_processor_start hw audio_processor_t.zero).1 = ESP_ERR_INVALID_STATE := by
  have e : audio_processor_process_frame hw audio_processor_t.zero mfcc_features_nonnull
      = (ESP_OK, audio_processor_t.zero,
          if mfcc_features_nonnull then some 0 else none, []) := by
    unfold audio_processor_process_frame
    rw [i2s_mic_read_uninitialised hw _ true 1000 rfl]
    simp
  refine ⟨e, ?_, by decide, ?_⟩
  · rw [audio_processor_destroy_zero]; exact e
  · rw [audio_processor_start_zero]

/-- The three failure exits and the success exit of `i2s_mic_init`. -/
theorem i2s_mic_init_cases (hw : Responses) (config : Option i2s_mic_config_t) :
    (hw.malloc_ptr = 0 →
      i2s_mic_init hw config
        = (ESP_ERR_NO_MEM,
            { i2s_mic_t.zero with config := config.getD default_i2s_mic_config },
            [Call.malloc (((config.getD default_i2s_mic_config).buffer_len * 2) % 2 ^ 32)])) ∧
    (hw.malloc_ptr ≠ 0 → hw.new_channel_ret ≠ ESP_OK →
      i2s_mic_init hw config
        = (hw.new_channel_ret,
            { rx_handle := hw.new_channel_handle,
              config := config.getD default_i2s_mic_config,
              buffer := hw.malloc_ptr, is_initialized := false },
            [Call.malloc (((config.getD default_i2s_mic_config).buffer_len * 2) % 2 ^ 32),
             Call.i2s_new_channel, Call.free hw.malloc_ptr])) ∧
    (hw.malloc_ptr ≠ 0 → hw.new_channel_ret = ESP_OK → hw.init_std_mode_ret ≠ ESP_OK →
      i2s_mic_init hw config
        = (hw.init_std_mode_ret,
            { rx_handle := hw.new_channel_handle,
              config := config.getD default_i2s_mic_config,
              buffer := hw.malloc_ptr, is_initialized := false },
            [Call.malloc (((config.getD default_i2s_mic_config).buffer_len * 2) % 2 ^ 32),
             Call.i2s_new_channel, Call.i2s_channel_init_std_mode hw.new_channel_handle,
             Call.i2s_del_channel hw.new_channel_handle, Call.free hw.malloc_ptr])) ∧
    (hw.malloc_ptr ≠ 0 → hw.new_channel_ret = ESP_OK → hw.init_std_mode_ret = ESP_OK →
      i2s_mic_init hw config
        = (ESP_OK,
            { rx_handle := hw.new_channel_handle,
              config := config.getD default_i2s_mic_config,
              buffer := hw.malloc_ptr, is_initialized := true },
            [Call.malloc (((config.getD default_i2s_mic_config).buffer_len * 2) % 2 ^ 32),
             Call.i2s_new_channel, Call.i2s_channel_init_std_mode hw.new_channel_handle])) := by
  refine ⟨?_, ?_, ?_, ?_⟩
  · intro h
    unfold i2s_mic_init
    simp [h, i2s_mic_t.zero]
  · intro h1 h2
    unfold i2s_mic_init
    simp [h1, h2, i2s_mic_t.zero]
  · intro h1 h2 h3
    unfold i2s_mic_init
    simp [h1, h2, h3, i2s_mic_t.zero]
  · intro h1 h2 h3
    unfold i2s_mic_init
    simp [h1, h2, h3, i2s_mic_t.zero]

/-- C13: for every configuration, if the buffer allocation fails `i2s_mic_init` returns
`ESP_ERR_NO_MEM` and has created no channel; if channel creation fails after the buffer
was allocated it frees the buffer exactly once and returns the driver's error code; if
the standard-mode initialisation fails it deletes the created channel once, then frees
the buffer exactly once, and returns the driver's error code; whenever it does not
return `ESP_OK`, `is_initialized` is false. -/
theorem i2s_mic_init_failure_paths (hw : Responses) (config : Option i2s_mic_config_t) :
    (hw.malloc_ptr = 0 →
      (i2s_mic_init hw config).1 = ESP_ERR_NO_MEM ∧
      (i2s_mic_init hw config).2.2
        = [Call.malloc (((config.getD default_i2s_mic_config).buffer_len * 2) % 2 ^ 32)] ∧
      Call.i2s_new_channel ∉ (i2s_mic_init hw config).2.2) ∧
    (hw.malloc_ptr ≠ 0 → hw.new_channel_ret ≠ ESP_OK →
      (i2s_mic_init hw config).1 = hw.new_channel_ret ∧
      (i2s_mic_init hw config).2.2
        = [Call.malloc (((config.getD default_i2s_mic_config).buffer_len * 2) % 2 ^ 32),
           Call.i2s_new_channel, Call.free hw.malloc_ptr] ∧
      (i2s_mic_init hw config).2.2.count (Call.free hw.malloc_ptr) = 1) ∧
    (hw.malloc_ptr ≠ 0 → hw.new_channel_ret = ESP_OK → hw.init_std_mode_ret ≠ ESP_OK →
      (i2s_mic_init hw config).1 = hw.init_std_mode_ret ∧
      (i2s_mic_init hw config).2.2
        = [Call.malloc (((config.getD default_i2s_mic_config).buffer_len * 2) % 2 ^ 32),
           Call.i2s_new_channel, Call.i2s_channel_init_std_mode hw.new_channel_handle,
           Call.i2s_del_channel hw.new_channel_handle, Call.free hw.malloc_ptr] ∧
      (i2s_mic_init hw config).2.2.count (Call.free hw.malloc_ptr) = 1 ∧
      (i2s_mic_init hw config).2.2.count (Call.i2s_del_channel hw.new_channel_handle) = 1) ∧
    ((i2s_mic_init hw config).1 ≠ ESP_OK →
      (i2s_mic_init hw config).2.1.is_initialized = false) := by
  obtain ⟨c1, c2, c3, c4⟩ := i2s_mic_init_cases hw config
  refine ⟨?_, ?_, ?_, ?_⟩
  · intro h
    rw [c1 h]
    exact ⟨rfl, rfl, by simp⟩
  · intro h1 h2
    rw [c2 h1 h2]
    exact ⟨rfl, rfl, by simp⟩
  · intro h1 h2 h3
    rw [c3 h1 h2 h3]
    exact ⟨rfl, rfl, by simp, by simp⟩
  · intro h
    by_cases h1 : hw.malloc_ptr = 0
    · rw [c1 h1]; rfl
    · by_cases h2 : hw.new_channel_ret = ESP_OK
      · by_cases h3 : hw.init_std_mode_ret = ESP_OK
        · rw [c4 h1 h2 h3] at h; exact absurd rfl h
        · rw [c3 h1 h2 h3]
      · rw [c2 h1 h2]

/-- Witness for C13: the three failure exits with the default configuration. -/
theorem i2s_mic_init_failure_paths_witness :
    (i2s_mic_init hw_malloc_fails none).1 = ESP_ERR_NO_MEM ∧
    (i2s_mic_init hw_malloc_fails none).2.2 = [Call.malloc 2048] ∧
    (i2s_mic_init hw_new_channel_fails none).2.2
      = [Call.malloc 2048, Call.i2s_new_channel, Call.free 1000] ∧
    (i2s_mic_init hw_std_mode_fails none).2.2
      = [Call.malloc 2048, Call.i2s_new_channel, Call.i2s_channel_init_std_mode 2000,
         Call.i2s_del_channel 2000, Call.free 1000] ∧
    (i2s_mic_init hw_std_mode_fails none).2.1.is_initialized = false :=
  ⟨((i2s_mic_init_failure_paths hw_malloc_fails none).1 rfl).1,
   ((i2s_mic_init_failure_paths hw_malloc_fails none).1 rfl).2.1,
   ((i2s_mic_init_failure_paths hw_new_channel_fails none).2.1 (by decide) (by decide)).2.1,
   ((i2s_mic_init_failure_paths hw_std_mode_fails none).2.2.1 (by decide) rfl (by decide)).2.1,
   (i2s_mic_init_failure_paths hw_std_mode_fails none).2.2.2 (by decide)⟩


theorem mfcc_processor_init_fail (hw : Responses) (opts : Option esp_mfcc_opts_t)
    (h : hw.mfcc_runner = 0) :
    mfcc_processor_init hw opts
      = (ESP_FAIL,
          { mfcc_iface := esp_fbank_f32, runner := 0, opts := opts.getD default_mfcc_opts,
            is_initialized := false },
          [Call.mfcc_create]) := by
  unfold mfcc_processor_init
  simp [h, mfcc_processor_t.zero]

theorem mfcc_processor_init_success (hw : Responses) (opts : Option esp_mfcc_opts_t)
    (h : hw.mfcc_runner ≠ 0) :
    mfcc_processor_init hw opts
      = (ESP_OK,
          { mfcc_iface := esp_fbank_f32, runner := hw.mfcc_runner,
            opts := opts.getD default_mfcc_opts, is_initialized := true },
          [Call.mfcc_create]) := by
  unfold mfcc_processor_init
  simp [h, mfcc_processor_t.zero]

/-- A successful `i2s_mic_init` went through its success exit. -/
theorem i2s_mic_init_ok_inv (hw : Responses) (config : Option i2s_mic_config_t)
    (h : (i2s_mic_init hw config).1 = ESP_OK) :
    hw.malloc_ptr ≠ 0 ∧ hw.new_channel_ret = ESP_OK ∧ hw.init_std_mode_ret = ESP_OK := by
  obtain ⟨c1, c2, c3, _⟩ := i2s_mic_init_cases hw config
  by_cases h1 : hw.malloc_ptr = 0
  · rw [c1 h1] at h; exact absurd h (by decide : ESP_ERR_NO_MEM ≠ ESP_OK)
  · by_cases h2 : hw.new_channel_ret = ESP_OK
    · by_cases h3 : hw.init_std_mode_ret = ESP_OK
      · exact ⟨h1, h2, h3⟩
      · rw [c3 h1 h2 h3] at h; exact absurd h h3
    · rw [c2 h1 h2] at h; exact absurd h h2

theorem mfcc_processor_init_ne_ok_inv (hw : Responses) (opts : Option esp_mfcc_opts_t)
    (h : (mfcc_processor_init hw opts).1 ≠ ESP_OK) : hw.mfcc_runner = 0 := by
  by_contra hne
  rw [mfcc_processor_init_success hw opts hne] at h
  exact h rfl

/-- C12: `audio_processor_init` constructs the capture source before the feature
extractor; when the capture source has been constructed (with the channel handle the
driver stored) and the feature extractor then fails, init disables and deletes the
hardware channel and frees the sample buffer, each exactly once and after the failed
`create`, returns the extractor's error code and leaves both `mic.is_initialized` and
`mfcc.is_initialized` false. -/
theorem audio_processor_init_unwinds_capture (hw : Responses)
    (config : Option audio_processor_config_t)
    (hmic : (i2s_mic_init hw (config.map (fun c => c.mic_config))).1 = ESP_OK)
    (hh : handle_stored hw)
    (hmfcc : (mfcc_processor_init hw (config.map (fun c => c.mfcc_config))).1 ≠ ESP_OK) :
    (audio_processor_init hw config).1
      = (mfcc_processor_init hw (config.map (fun c => c.mfcc_config))).1 ∧
    (audio_processor_init hw config).2.2
      = [Call.malloc ((((config.map (fun c => c.mic_config)).getD
            default_i2s_mic_config).buffer_len * 2) % 2 ^ 32),
         Call.i2s_new_channel, Call.i2s_channel_init_std_mode hw.new_channel_handle,
         Call.mfcc_create,
         Call.i2s_channel_disable hw.new_channel_handle,
         Call.i2s_del_channel hw.new_channel_handle, Call.free hw.malloc_ptr] ∧
    (audio_processor_init hw config).2.2.count (Call.i2s_channel_disable hw.new_channel_handle)
      = 1 ∧
    (audio_processor_init hw config).2.2.count (Call.i2s_del_channel hw.new_channel_handle)
      = 1 ∧
    (audio_processor_init hw config).2.2.count (Call.free hw.malloc_ptr) = 1 ∧
    (audio_processor_init hw config).2.1.mic.is_initialized = false ∧
    (audio_processor_init hw config).2.1.mfcc.is_initialized = false ∧
    (audio_processor_init hw config).2.1.mic = i2s_mic_t.zero := by
  obtain ⟨h1, h2, h3⟩ := i2s_mic_init_ok_inv hw _ hmic
  have h4 := mfcc_processor_init_ne_ok_inv hw _ hmfcc
  have h5 : hw.new_channel_handle ≠ 0 := hh h2
  have e : audio_processor_init hw config
      = (ESP_FAIL,
          { audio_processor_t.zero with
            mic := i2s_mic_t.zero,
            mfcc := { mfcc_iface := esp_fbank_f32, runner := 0,
                      opts := (config.map (fun c => c.mfcc_config)).getD default_mfcc_opts,
                      is_initialized := false } },
          [Call.malloc ((((config.map (fun c => c.mic_config)).getD
              default_i2s_mic_config).buffer_len * 2) % 2 ^ 32),
           Call.i2s_new_channel, Call.i2s_channel_init_std_mode hw.new_channel_handle,
           Call.mfcc_create,
           Call.i2s_channel_disable hw.new_channel_handle,
           Call.i2s_del_channel hw.new_channel_handle, Call.free hw.malloc_ptr]) := by
    unfold audio_processor_init
    rw [(i2s_mic_init_cases hw _).2.2.2 h1 h2 h3, mfcc_processor_init_fail hw _ h4]
    simp [i2s_mic_destroy, h1, h5, ESP_FAIL, ESP_OK]
  rw [e, mfcc_processor_init_fail hw _ h4]
  refine ⟨rfl, rfl, ?_, ?_, ?_, rfl, rfl, rfl⟩ <;> simp

/-- Witness for C12: default configuration, the MFCC library fails to create its
runner. -/
theorem audio_processor_init_unwinds_capture_witness :
    (i2s_mic_init hw_mfcc_fails none).1 = ESP_OK ∧ handle_stored hw_mfcc_fails ∧
    (mfcc_processor_init hw_mfcc_fails none).1 ≠ ESP_OK ∧
    (audio_processor_init hw_mfcc_fails none).1 = ESP_FAIL ∧
    (audio_processor_init hw_mfcc_fails none).2.2
      = [Call.malloc 2048, Call.i2s_new_channel, Call.i2s_channel_init_std_mode 2000,
         Call.mfcc_create, Call.i2s_channel_disable 2000, Call.i2s_del_channel 2000,
         Call.free 1000] := by
  have a : (i2s_mic_init hw_mfcc_fails none).1 = ESP_OK := rfl
  have b : handle_stored hw_mfcc_fails := fun _ => by decide
  have c : (mfcc_processor_init hw_mfcc_fails none).1 ≠ ESP_OK := by decide
  have h := audio_processor_init_unwinds_capture hw_mfcc_fails none a b c
  exact ⟨a, b, c, h.1, h.2.1⟩

/-- C14 (failing input): when `i2s_new_channel` or `i2s_channel_init_std_mode` fails,
`i2s_mic_init` frees the buffer but leaves the stale pointer in `mic->buffer`; a
following `i2s_mic_destroy` frees the same pointer again, and so does
`audio_processor_destroy` after a failed `audio_processor_init`: the buffer is freed
twice in total. -/
theorem destroy_after_failed_init_frees_twice :
    (i2s_mic_init hw_new_channel_fails none).1 = ESP_ERR_INVALID_STATE ∧
    (i2s_mic_init hw_new_channel_fails none).2.2
      = [Call.malloc 2048, Call.i2s_new_channel, Call.free 1000] ∧
    (i2s_mic_destroy (i2s_mic_init hw_new_channel_fails none).2.1).2 = [Call.free 1000] ∧
    ((i2s_mic_init hw_new_channel_fails none).2.2
        ++ (i2s_mic_destroy (i2s_mic_init hw_new_channel_fails none).2.1).2).count
      (Call.free 1000) = 2 ∧
    ((i2s_mic_init hw_std_mode_fails none).2.2
        ++ (i2s_mic_destroy (i2s_mic_init hw_std_mode_fails none).2.1).2).count
      (Call.free 1000) = 2 ∧
    (audio_processor_init hw_new_channel_fails none).1 = ESP_ERR_INVALID_STATE ∧
    ((audio_processor_init hw_new_channel_fails none).2.2
        ++ (audio_processor_destroy hw_all_ok
              (audio_processor_init hw_new_channel_fails none).2.1).2).count
      (Call.free 1000) = 2 := by
  refine ⟨rfl, rfl, rfl, ?_, ?_, rfl, ?_⟩ <;> decide

/-- After a failed init the channel is never deleted by a following destroy, and after
an extractor failure nothing is released again. -/
theorem destroy_after_failed_init_channel (hw hw' : Responses)
    (config : Option audio_processor_config_t)
    (h : (audio_processor_init hw config).1 ≠ ESP_OK) :
    (∀ handle, Call.i2s_del_channel handle
      ∉ (audio_processor_destroy hw' (audio_processor_init hw config).2.1).2) ∧
    ((i2s_mic_init hw (config.map (fun c => c.mic_config))).1 = ESP_OK →
      (audio_processor_destroy hw' (audio_processor_init hw config).2.1).2 = []) := by
  obtain ⟨c1, c2, c3, c4⟩ := i2s_mic_init_cases hw (config.map (fun c => c.mic_config))
  by_cases h1 : hw.malloc_ptr = 0
  · have e : audio_processor_init hw config
        = (ESP_ERR_NO_MEM, { audio_processor_t.zero with
            mic := { i2s_mic_t.zero with
                     config := (config.map (fun c => c.mic_config)).getD
                       default_i2s_mic_config } },
            [Call.malloc ((((config.map (fun c => c.mic_config)).getD
              default_i2s_mic_config).buffer_len * 2) % 2 ^ 32)]) := by
      unfold audio_processor_init
      rw [c1 h1]
      simp [ESP_ERR_NO_MEM, ESP_OK]
    rw [e, c1 h1]
    constructor
    · intro handle
      simp [audio_processor_destroy, audio_processor_t.zero, mfcc_processor_destroy,
        mfcc_processor_t.zero, i2s_mic_destroy, i2s_mic_t.zero]
    · intro hc; exact absurd hc (by decide : ESP_ERR_NO_MEM ≠ ESP_OK)
  · by_cases h2 : hw.new_channel_ret = ESP_OK
    · by_cases h3 : hw.init_std_mode_ret = ESP_OK
      · have h4 : hw.mfcc_runner = 0 := by
          by_contra hne
          apply h
          unfold audio_processor_init
          rw [c4 h1 h2 h3, mfcc_processor_init_success hw _ hne]
          simp
        have e : (audio_processor_init hw config).2.1
            = { audio_processor_t.zero with
                mic := i2s_mic_t.zero,
                mfcc := { mfcc_iface := esp_fbank_f32, runner := 0,
                          opts := (config.map (fun c => c.mfcc_config)).getD
                            default_mfcc_opts,
                          is_initialized := false } } := by
          unfold audio_processor_init
          rw [c4 h1 h2 h3, mfcc_processor_init_fail hw _ h4]
          simp [i2s_mic_destroy, ESP_FAIL, ESP_OK]
        rw [e]
        constructor
        · intro handle
          simp [audio_processor_destroy, audio_processor_t.zero, mfcc_processor_destroy,
            i2s_mic_destroy, i2s_mic_t.zero]
        · intro _
          simp [audio_processor_destroy, audio_processor_t.zero, mfcc_processor_destroy,
            i2s_mic_destroy, i2s_mic_t.zero]
      · have e : (audio_processor_init hw config).2.1
            = { audio_processor_t.zero with
                mic := { rx_handle := hw.new_channel_handle,
                         config := (config.map (fun c => c.mic_config)).getD
                           default_i2s_mic_config,
                         buffer := hw.malloc_ptr, is_initialized := false } } := by
          unfold audio_processor_init
          rw [c3 h1 h2 h3]
          simp [h3]
        rw [e, c3 h1 h2 h3]
        constructor
        · intro handle
          simp [audio_processor_destroy, audio_processor_t.zero, mfcc_processor_destroy,
            mfcc_processor_t.zero, i2s_mic_destroy]
        · intro hc; exact absurd hc h3
    · have e : (audio_processor_init hw config).2.1
          = { audio_processor_t.zero with
              mic := { rx_handle := hw.new_channel_handle,
                       config := (config.map (fun c => c.mic_config)).getD
                         default_i2s_mic_config,
                       buffer := hw.malloc_ptr, is_initialized := false } } := by
        unfold audio_processor_init
        rw [c2 h1 h2]
        simp [h2]
      rw [e, c2 h1 h2]
      constructor
      · intro handle
        simp [audio_processor_destroy, audio_processor_t.zero, mfcc_processor_destroy,
          mfcc_processor_t.zero, i2s_mic_destroy]
      · intro hc; exact absurd hc h2

/-- C15: for every processor state `audio_processor_destroy` leaves every field of the
handle zero, and a second `audio_processor_destroy` makes no call and leaves the handle
unchanged; likewise a second `i2s_mic_destroy` and a second `mfcc_processor_destroy`. -/
theorem destroy_twice_is_noop (hw hw' : Responses) (processor : audio_processor_t)
    (mic : i2s_mic_t) (mfcc : mfcc_processor_t) :
    (audio_processor_destroy hw processor).1 = audio_processor_t.zero ∧
    audio_processor_destroy hw' (audio_processor_destroy hw processor).1
      = ((audio_processor_destroy hw processor).1, []) ∧
    (i2s_mic_destroy mic).1 = i2s_mic_t.zero ∧
    i2s_mic_destroy (i2s_mic_destroy mic).1 = ((i2s_mic_destroy mic).1, []) ∧
    (mfcc_processor_destroy mfcc).1 = mfcc_processor_t.zero ∧
    mfcc_processor_destroy (mfcc_processor_destroy mfcc).1
      = ((mfcc_processor_destroy mfcc).1, []) := by
  refine ⟨rfl, ?_, rfl, ?_, rfl, ?_⟩
  · rw [audio_processor_destroy_zero]; rfl
  · rfl
  · rfl


/-- The processor left by a successful `audio_processor_init`, field by field. -/
theorem audio_processor_init_success (hw : Responses)
    (config : Option audio_processor_config_t)
    (h : (audio_processor_init hw config).1 = ESP_OK) :
    hw.malloc_ptr ≠ 0 ∧ hw.new_channel_ret = ESP_OK ∧ hw.mfcc_runner ≠ 0 ∧
    (audio_processor_init hw config).2.1.mic
      = { rx_handle := hw.new_channel_handle,
          config := (config.map (fun c => c.mic_config)).getD default_i2s_mic_config,
          buffer := hw.malloc_ptr, is_initialized := true } ∧
    (audio_processor_init hw config).2.1.mfcc
      = { mfcc_iface := esp_fbank_f32, runner := hw.mfcc_runner,
          opts := (config.map (fun c => c.mfcc_config)).getD default_mfcc_opts,
          is_initialized := true } ∧
    (audio_processor_init hw config).2.1.is_running = false ∧
    (audio_processor_init hw config).2.1.task_handle = 0 ∧
    (audio_processor_init hw config).2.2
      = [Call.malloc ((((config.map (fun c => c.mic_config)).getD
            default_i2s_mic_config).buffer_len * 2) % 2 ^ 32),
         Call.i2s_new_channel, Call.i2s_channel_init_std_mode hw.new_channel_handle,
         Call.mfcc_create] := by
  obtain ⟨c1, c2, c3, c4⟩ := i2s_mic_init_cases hw (config.map (fun c => c.mic_config))
  by_cases h1 : hw.malloc_ptr = 0
  · exfalso
    unfold audio_processor_init at h
    rw [c1 h1] at h
    simp [ESP_ERR_NO_MEM, ESP_OK] at h
  by_cases h2 : hw.new_channel_ret = ESP_OK
  swap
  · exfalso
    unfold audio_processor_init at h
    rw [c2 h1 h2] at h
    simp [h2] at h
  by_cases h3 : hw.init_std_mode_ret = ESP_OK
  swap
  · exfalso
    unfold audio_processor_init at h
    rw [c3 h1 h2 h3] at h
    simp [h3] at h
  by_cases h4 : hw.mfcc_runner = 0
  · exfalso
    unfold audio_processor_init at h
    rw [c4 h1 h2 h3, mfcc_processor_init_fail hw _ h4] at h
    simp [ESP_FAIL, ESP_OK] at h
  refine ⟨h1, h2, h4, ?_⟩
  unfold audio_processor_init
  rw [c4 h1 h2 h3, mfcc_processor_init_success hw _ h4]
  cases config <;> simp [audio_processor_t.zero]

theorem audio_processor_stop_keeps_components (hw : Responses)
    (processor : audio_processor_t) :
    (audio_processor_stop hw processor).2.1.mic = processor.mic ∧
    (audio_processor_stop hw processor).2.1.mfcc = processor.mfcc := by
  unfold audio_processor_stop
  by_cases hrun : processor.is_running = true
  · by_cases hth : processor.task_handle = 0 <;>
      by_cases hret : (i2s_mic_stop hw processor.mic).1 = ESP_OK <;> simp [hrun, hth, hret]
  · simp [hrun]

/-- C16: for every configuration on which `audio_processor_init` succeeds (with the
channel handle the driver stored), `audio_processor_destroy` right after init destroys
the transform state, then disables and deletes the hardware channel, then frees the
sample buffer, each exactly once and in the reverse of the creation order, and leaves
the handle zero.  On a running processor holding these components it first stops the
pipeline (the fixed delay when a task handle is set, then the disabling of the channel
by `i2s_mic_stop`) and then makes the same four calls: the transform state, the channel
and the buffer are each released exactly once, the channel being disabled once more
before it is deleted; the handle is left zero.  On any processor the calls are those of
`audio_processor_stop` when it is running, followed by those of the two component
destructors. -/
theorem audio_processor_destroy_releases_all (hw hw' : Responses)
    (config : Option audio_processor_config_t)
    (hinit : (audio_processor_init hw config).1 = ESP_OK) (hh : handle_stored hw) :
    (audio_processor_init hw config).2.2
      = [Call.malloc ((((config.map (fun c => c.mic_config)).getD
            default_i2s_mic_config).buffer_len * 2) % 2 ^ 32),
         Call.i2s_new_channel, Call.i2s_channel_init_std_mode hw.new_channel_handle,
         Call.mfcc_create] ∧
    audio_processor_destroy hw' (audio_processor_init hw config).2.1
      = (audio_processor_t.zero,
          [Call.mfcc_destroy hw.mfcc_runner,
           Call.i2s_channel_disable hw.new_channel_handle,
           Call.i2s_del_channel hw.new_channel_handle,
           Call.free hw.malloc_ptr]) ∧
    (audio_processor_destroy hw' (audio_processor_init hw config).2.1).2.count
      (Call.mfcc_destroy hw.mfcc_runner) = 1 ∧
    (audio_processor_destroy hw' (audio_processor_init hw config).2.1).2.count
      (Call.i2s_del_channel hw.new_channel_handle) = 1 ∧
    (audio_processor_destroy hw' (audio_processor_init hw config).2.1).2.count
      (Call.free hw.malloc_ptr) = 1 ∧
    (∀ q : audio_processor_t,
      (audio_processor_destroy hw' q).2
        = (if q.is_running then (audio_processor_stop hw' q).2.2 else [])
          ++ (mfcc_processor_destroy q.mfcc).2 ++ (i2s_mic_destroy q.mic).2) ∧
    (∀ q : audio_processor_t, q.mic = (audio_processor_init hw config).2.1.mic →
      q.mfcc = (audio_processor_init hw config).2.1.mfcc → q.is_running = true →
      audio_processor_destroy hw' q
        = (audio_processor_t.zero,
            (if q.task_handle ≠ 0 then [Call.vTaskDelay 200] else []) ++
            [Call.i2s_channel_disable hw.new_channel_handle,
             Call.mfcc_destroy hw.mfcc_runner,
             Call.i2s_channel_disable hw.new_channel_handle,
             Call.i2s_del_channel hw.new_channel_handle,
             Call.free hw.malloc_ptr]) ∧
      (audio_processor_destroy hw' q).2.count (Call.mfcc_destroy hw.mfcc_runner) = 1 ∧
      (audio_processor_destroy hw' q).2.count (Call.i2s_del_channel hw.new_channel_handle) = 1 ∧
      (audio_processor_destroy hw' q).2.count (Call.free hw.malloc_ptr) = 1 ∧
      (audio_processor_destroy hw' q).2.count
        (Call.i2s_channel_disable hw.new_channel_handle) = 2) ∧
    (∀ q : audio_processor_t, q.mic = (audio_processor_init hw config).2.1.mic →
      q.mfcc = (audio_processor_init hw config).2.1.mfcc → q.is_running = false →
      audio_processor_destroy hw' q
        = (audio_processor_t.zero,
            [Call.mfcc_destroy hw.mfcc_runner,
             Call.i2s_channel_disable hw.new_channel_handle,
             Call.i2s_del_channel hw.new_channel_handle,
             Call.free hw.malloc_ptr])) := by
  obtain ⟨h1, h2, h3, hmic, hmfcc, hrun, _, htrace⟩ := audio_processor_init_success hw config hinit
  have h5 : hw.new_channel_handle ≠ 0 := hh h2
  have hgen : ∀ q : audio_processor_t,
      (audio_processor_destroy hw' q).2
        = (if q.is_running then (audio_processor_stop hw' q).2.2 else [])
          ++ (mfcc_processor_destroy q.mfcc).2 ++ (i2s_mic_destroy q.mic).2 := by
    intro q
    have k := audio_processor_stop_keeps_components hw' q
    unfold audio_processor_destroy
    by_cases hq : q.is_running = true
    · simp [hq, k.1, k.2]
    · simp [hq]
  have hrel : ∀ q : audio_processor_t, q.mic = (audio_processor_init hw config).2.1.mic →
      q.mfcc = (audio_processor_init hw config).2.1.mfcc →
      (mfcc_processor_destroy q.mfcc).2 ++ (i2s_mic_destroy q.mic).2
        = [Call.mfcc_destroy hw.mfcc_runner,
           Call.i2s_channel_disable hw.new_channel_handle,
           Call.i2s_del_channel hw.new_channel_handle,
           Call.free hw.malloc_ptr] := by
    intro q e1 e2
    rw [e1, e2, hmic, hmfcc]
    simp [mfcc_processor_destroy, i2s_mic_destroy, h1, h3, h5, esp_fbank_f32]
  have hidle : ∀ q : audio_processor_t, q.mic = (audio_processor_init hw config).2.1.mic →
      q.mfcc = (audio_processor_init hw config).2.1.mfcc → q.is_running = false →
      audio_processor_destroy hw' q
        = (audio_processor_t.zero,
            [Call.mfcc_destroy hw.mfcc_runner,
             Call.i2s_channel_disable hw.new_channel_handle,
             Call.i2s_del_channel hw.new_channel_handle,
             Call.free hw.malloc_ptr]) := by
    intro q e1 e2 hq
    apply Prod.ext
    · rfl
    · rw [hgen, hq]
      simp only [Bool.false_eq_true, if_false, List.nil_append]
      exact hrel q e1 e2
  have e := hidle (audio_processor_init hw config).2.1 rfl rfl hrun
  have hstop : ∀ q : audio_processor_t, q.mic = (audio_processor_init hw config).2.1.mic →
      q.is_running = true →
      (audio_processor_stop hw' q).2.2
        = (if q.task_handle ≠ 0 then [Call.vTaskDelay 200] else []) ++
          [Call.i2s_channel_disable hw.new_channel_handle] := by
    intro q e1 hq
    unfold audio_processor_stop i2s_mic_stop
    rw [hmic] at e1
    by_cases hth : q.task_handle = 0 <;>
      by_cases hret : hw'.disable_ret = ESP_OK <;> simp [hq, hth, hret, e1]
  refine ⟨htrace, e, ?_, ?_, ?_, hgen, ?_, hidle⟩
  · rw [e]; simp
  · rw [e]; simp
  · rw [e]; simp
  · intro q e1 e2 hq
    have t : audio_processor_destroy hw' q
        = (audio_processor_t.zero,
            (if q.task_handle ≠ 0 then [Call.vTaskDelay 200] else []) ++
            [Call.i2s_channel_disable hw.new_channel_handle,
             Call.mfcc_destroy hw.mfcc_runner,
             Call.i2s_channel_disable hw.new_channel_handle,
             Call.i2s_del_channel hw.new_channel_handle,
             Call.free hw.malloc_ptr]) := by
      apply Prod.ext
      · rfl
      · rw [hgen, hq, if_pos rfl, List.append_assoc, hrel q e1 e2, hstop q e1 hq]
        simp
    refine ⟨t, ?_, ?_, ?_, ?_⟩ <;> rw [t] <;> by_cases hth : q.task_handle = 0 <;> simp [hth]

/-- Witness for C16: default configuration, all collaborators succeed; the destruction
right after init, and the destruction of the started processor. -/
theorem audio_processor_destroy_releases_all_witness :
    (audio_processor_init hw_all_ok none).1 = ESP_OK ∧ handle_stored hw_all_ok ∧
    audio_processor_destroy hw_all_ok (audio_processor_init hw_all_ok none).2.1
      = (audio_processor_t.zero,
          [Call.mfcc_destroy 3000, Call.i2s_channel_disable 2000, Call.i2s_del_channel 2000,
           Call.free 1000]) ∧
    audio_processor_destroy hw_all_ok
        (audio_processor_start hw_all_ok (audio_processor_init hw_all_ok none).2.1).2.1
      = (audio_processor_t.zero,
          [Call.vTaskDelay 200, Call.i2s_channel_disable 2000, Call.mfcc_destroy 3000,
           Call.i2s_channel_disable 2000, Call.i2s_del_channel 2000, Call.free 1000]) :=
  ⟨rfl, fun _ => by decide,
    (audio_processor_destroy_releases_all hw_all_ok hw_all_ok none rfl
      (fun _ => by decide)).2.1,
    ((audio_processor_destroy_releases_all hw_all_ok hw_all_ok none rfl
      (fun _ => by decide)).2.2.2.2.2.2.1
        (audio_processor_start hw_all_ok (audio_processor_init hw_all_ok none).2.1).2.1
        rfl rfl rfl).1⟩


/-- C17 (counterexample): with sample rate `0` and collaborators that all succeed,
`i2s_mic_init` returns `ESP_OK`, has created the hardware channel and leaves
`is_initialized` true; and when the driver rejects the standard-mode configuration the
channel has nevertheless been created before it is deleted. -/
theorem i2s_mic_init_rate_zero_counterexample :
    config_rate_zero.sample_rate = 0 ∧
    i2s_mic_init hw_all_ok (some config_rate_zero)
      = (ESP_OK,
          { rx_handle := 2000, config := config_rate_zero, buffer := 1000,
            is_initialized := true },
          [Call.malloc 2048, Call.i2s_new_channel, Call.i2s_channel_init_std_mode 2000]) ∧
    (i2s_mic_init hw_std_mode_fails (some config_rate_zero)).2.2
      = [Call.malloc 2048, Call.i2s_new_channel, Call.i2s_channel_init_std_mode 2000,
         Call.i2s_del_channel 2000, Call.free 1000] := by
  refine ⟨rfl, rfl, rfl⟩

/-- C17 (amended): `i2s_mic_init` does not examine the sample rate or the buffer length.
For every configuration, also one with sample rate `0` or buffer length `0`, it returns
`ESP_OK` exactly when `malloc` returns a buffer and both driver calls succeed, it calls
`i2s_new_channel` exactly when `malloc` returns a buffer, `is_initialized` is true
exactly when it returns `ESP_OK`, and the status and `is_initialized` are the same for
any two configurations given the same answers of the heap and the driver. -/
theorem i2s_mic_init_does_not_validate (hw : Responses)
    (config config' : Option i2s_mic_config_t) :
    ((i2s_mic_init hw config).1 = ESP_OK ↔
      hw.malloc_ptr ≠ 0 ∧ hw.new_channel_ret = ESP_OK ∧ hw.init_std_mode_ret = ESP_OK) ∧
    (Call.i2s_new_channel ∈ (i2s_mic_init hw config).2.2 ↔ hw.malloc_ptr ≠ 0) ∧
    ((i2s_mic_init hw config).2.1.is_initialized = true ↔
      (i2s_mic_init hw config).1 = ESP_OK) ∧
    (i2s_mic_init hw config).1 = (i2s_mic_init hw config').1 ∧
    (i2s_mic_init hw config).2.1.is_initialized
      = (i2s_mic_init hw config').2.1.is_initialized := by
  obtain ⟨c1, c2, c3, c4⟩ := i2s_mic_init_cases hw config
  obtain ⟨d1, d2, d3, d4⟩ := i2s_mic_init_cases hw config'
  by_cases h1 : hw.malloc_ptr = 0
  · rw [c1 h1, d1 h1]
    simp [h1, ESP_ERR_NO_MEM, ESP_OK, i2s_mic_t.zero]
  · by_cases h2 : hw.new_channel_ret = ESP_OK
    · by_cases h3 : hw.init_std_mode_ret = ESP_OK
      · rw [c4 h1 h2 h3, d4 h1 h2 h3]
        simp [h1, h2, h3]
      · rw [c3 h1 h2 h3, d3 h1 h2 h3]
        simp [h1, h2, h3]
    · rw [c2 h1 h2, d2 h1 h2]
      simp [h1, h2]

/-- Witness for C17: sample rate `0` against the default configuration. -/
theorem i2s_mic_init_does_not_validate_witness :
    (i2s_mic_init hw_all_ok (some config_rate_zero)).1 = (i2s_mic_init hw_all_ok none).1 ∧
    ((i2s_mic_init hw_all_ok (some config_rate_zero)).2.1.is_initialized = true ↔
      (i2s_mic_init hw_all_ok (some config_rate_zero)).1 = ESP_OK) :=
  ⟨(i2s_mic_init_does_not_validate hw_all_ok (some config_rate_zero) none).2.2.2.1,
   (i2s_mic_init_does_not_validate hw_all_ok (some config_rate_zero) none).2.2.1⟩

/-- C18 (counterexample): on the initialised microphone of `ready_processor` a
successful hardware read of one byte (not zero bytes, and at most `2 * buffer_len`)
makes `i2s_mic_read` return `NULL` and report `0` samples, not the internal buffer with
at least one sample. -/
theorem i2s_mic_read_one_byte_counterexample :
    ready_processor.mic.is_initialized = true ∧
    hw_one_byte.read_ret = ESP_OK ∧ hw_one_byte.read_bytes = 1 ∧
    hw_one_byte.read_bytes ≤ 2 * ready_processor.mic.config.buffer_len ∧
    i2s_mic_read hw_one_byte ready_processor.mic true 1000
      = (0, some 0, [Call.i2s_channel_read 2000 1000 2048 1000]) := by
  refine ⟨rfl, rfl, rfl, by decide, rfl⟩

/-- C18 (amended): for every initialised microphone, a non-null `samples_read` pointer
and every outcome of the hardware read with `bytes_read` at most `2 * buffer_len`, the
hardware is read exactly once and: on a hardware error `i2s_mic_read` returns `NULL` and
reports `0` samples; on success with fewer than two bytes it returns `NULL` and reports
`0` samples; on success with at least two bytes it returns the microphone's internal
buffer and reports `bytes_read / 2` samples, rounded down, which is at least `1` and at
most `buffer_len`. -/
theorem i2s_mic_read_outcomes (hw : Responses) (mic : i2s_mic_t) (timeout_ms : Nat)
    (hinit : mic.is_initialized = true)
    (hbytes : hw.read_bytes ≤ 2 * mic.config.buffer_len) :
    (i2s_mic_read hw mic true timeout_ms).2.2
      = [Call.i2s_channel_read mic.rx_handle mic.buffer
          ((mic.config.buffer_len * 2) % 2 ^ 32) timeout_ms] ∧
    (hw.read_ret ≠ ESP_OK →
      (i2s_mic_read hw mic true timeout_ms).1 = 0 ∧
      (i2s_mic_read hw mic true timeout_ms).2.1 = some 0) ∧
    (hw.read_ret = ESP_OK → hw.read_bytes < 2 →
      (i2s_mic_read hw mic true timeout_ms).1 = 0 ∧
      (i2s_mic_read hw mic true timeout_ms).2.1 = some 0) ∧
    (hw.read_ret = ESP_OK → 2 ≤ hw.read_bytes →
      (i2s_mic_read hw mic true timeout_ms).1 = mic.buffer ∧
      (i2s_mic_read hw mic true timeout_ms).2.1 = some (hw.read_bytes / 2) ∧
      1 ≤ hw.read_bytes / 2 ∧ hw.read_bytes / 2 ≤ mic.config.buffer_len) := by
  have hcall : (i2s_mic_read hw mic true timeout_ms).2.2
      = [Call.i2s_channel_read mic.rx_handle mic.buffer
          ((mic.config.buffer_len * 2) % 2 ^ 32) timeout_ms] := by
    unfold i2s_mic_read
    by_cases hret : hw.read_ret = ESP_OK <;>
      by_cases hz : hw.read_bytes / 2 = 0 <;> simp [hinit, hret, hz]
  have herr : hw.read_ret ≠ ESP_OK →
      (i2s_mic_read hw mic true timeout_ms).1 = 0 ∧
      (i2s_mic_read hw mic true timeout_ms).2.1 = some 0 := by
    intro hret
    unfold i2s_mic_read
    simp [hinit, hret]
  have hempty : hw.read_ret = ESP_OK → hw.read_bytes < 2 →
      (i2s_mic_read hw mic true timeout_ms).1 = 0 ∧
      (i2s_mic_read hw mic true timeout_ms).2.1 = some 0 := by
    intro hret hlt
    have hz : hw.read_bytes / 2 = 0 := by omega
    unfold i2s_mic_read
    simp [hinit, hret, hz]
  have hsome : hw.read_ret = ESP_OK → 2 ≤ hw.read_bytes →
      (i2s_mic_read hw mic true timeout_ms).1 = mic.buffer ∧
      (i2s_mic_read hw mic true timeout_ms).2.1 = some (hw.read_bytes / 2) ∧
      1 ≤ hw.read_bytes / 2 ∧ hw.read_bytes / 2 ≤ mic.config.buffer_len := by
    intro hret hge
    have hz : hw.read_bytes / 2 ≠ 0 := by omega
    refine ⟨?_, ?_, by omega, by omega⟩
    · unfold i2s_mic_read
      simp [hinit, hret, hz]
    · unfold i2s_mic_read
      simp [hinit, hret, hz]
  exact ⟨hcall, herr, hempty, hsome⟩

/-- Witness for C18: the microphone of `ready_processor` and a read of 640 bytes. -/
theorem i2s_mic_read_outcomes_witness :
    ready_processor.mic.is_initialized = true ∧
    hw_all_ok.read_bytes ≤ 2 * ready_processor.mic.config.buffer_len ∧
    (i2s_mic_read hw_all_ok ready_processor.mic true 1000).1 = ready_processor.mic.buffer ∧
    (i2s_mic_read hw_all_ok ready_processor.mic true 1000).2.1 = some (640 / 2) :=
  ⟨rfl, by decide,
    ((i2s_mic_read_outcomes hw_all_ok ready_processor.mic 1000 rfl (by decide)).2.2.2 rfl
      (by decide)).1,
    ((i2s_mic_read_outcomes hw_all_ok ready_processor.mic 1000 rfl (by decide)).2.2.2 rfl
      (by decide)).2.1⟩


/-- The read of an initialised microphone with a buffer yields samples exactly when the
hardware read succeeds with at least one whole sample. -/
theorem i2s_mic_read_yields (hw : Responses) (mic : i2s_mic_t) (timeout_ms : Nat)
    (hinit : mic.is_initialized = true) :
    (hw.read_ret = ESP_OK ∧ 0 < hw.read_bytes / 2 →
      i2s_mic_read hw mic true timeout_ms
        = (mic.buffer, some (hw.read_bytes / 2),
            [Call.i2s_channel_read mic.rx_handle mic.buffer
              ((mic.config.buffer_len * 2) % 2 ^ 32) timeout_ms])) ∧
    (¬ (hw.read_ret = ESP_OK ∧ 0 < hw.read_bytes / 2) →
      i2s_mic_read hw mic true timeout_ms
        = (0, some 0,
            [Call.i2s_channel_read mic.rx_handle mic.buffer
              ((mic.config.buffer_len * 2) % 2 ^ 32) timeout_ms])) := by
  constructor
  · rintro ⟨hret, hpos⟩
    have hz : hw.read_bytes / 2 ≠ 0 := by omega
    unfold i2s_mic_read
    simp [hinit, hret, hz]
  · intro h
    unfold i2s_mic_read
    by_cases hret : hw.read_ret = ESP_OK
    · have hz : hw.read_bytes / 2 = 0 := by
        by_contra hne
        exact h ⟨hret, Nat.pos_of_ne_zero hne⟩
      simp [hinit, hret, hz]
    · simp [hinit, hret]

theorem mfcc_processor_run_initialised (hw : Responses) (processor : mfcc_processor_t)
    (samples : Nat) (num_channels : Int) (hinit : processor.is_initialized = true)
    (hs : samples ≠ 0) :
    mfcc_processor_run hw processor samples num_channels
      = (hw.run_step_result, [Call.mfcc_run_step processor.runner samples num_channels]) := by
  unfold mfcc_processor_run
  simp [hinit, hs]

theorem i2s_mic_read_no_callback (hw : Responses) (mic : i2s_mic_t) (b : Bool) (t : Nat) :
    (i2s_mic_read hw mic b t).2.2.countP Call.is_callback = 0 := by
  unfold i2s_mic_read
  by_cases h1 : mic.is_initialized = true <;> cases b <;>
    by_cases h2 : hw.read_ret = ESP_OK <;> by_cases h3 : hw.read_bytes / 2 = 0 <;>
    simp [h1, h2, h3, List.countP_cons, Call.is_callback]

theorem mfcc_processor_run_no_callback (hw : Responses) (processor : mfcc_processor_t)
    (samples : Nat) (n : Int) :
    (mfcc_processor_run hw processor samples n).2.countP Call.is_callback = 0 := by
  unfold mfcc_processor_run
  by_cases h1 : processor.is_initialized = true <;> by_cases h2 : samples = 0 <;>
    simp [h1, h2, List.countP_cons, Call.is_callback]

/-- A non-null extractor result comes from an initialised extractor, whose coefficient
count is `numcep`. -/
theorem mfcc_processor_run_result_num_coeffs (hw : Responses) (processor : mfcc_processor_t)
    (samples : Nat) (n : Int) (h : (mfcc_processor_run hw processor samples n).1 ≠ 0) :
    mfcc_processor_get_num_coeffs processor = processor.opts.numcep := by
  unfold mfcc_processor_run at h
  unfold mfcc_processor_get_num_coeffs
  by_cases h1 : processor.is_initialized = true
  · simp [h1]
  · simp [h1] at h

/-- C19: in every pass of the background loop the consumer callback is invoked exactly
once if the read returned at least one sample, the extractor returned a vector and a
consumer is registered, and it is given that vector, the configured coefficient count
`numcep` and the stored user context; in every other case it is not invoked, the pass
leaves the processor (so `is_running`) unchanged, and a running loop goes on with the
next pass.  On an initialised processor with its sample buffer the first case is the
one where the hardware read succeeds with at least two bytes, the MFCC library returns a
vector and a consumer is registered. -/
theorem audio_processor_task_iteration_callback
    (consumer : audio_processor_t → audio_processor_t) (hw : Responses)
    (processor : audio_processor_t) :
    (((i2s_mic_read hw processor.mic true 1000).1 ≠ 0 ∧
        0 < (i2s_mic_read hw processor.mic true 1000).2.1.getD 0) ∧
      (mfcc_processor_run hw processor.mfcc
        (i2s_mic_read hw processor.mic true 1000).1 1).1 ≠ 0 ∧
      processor.mfcc_callback ≠ 0 →
      (audio_processor_task_iteration consumer hw processor).2.countP Call.is_callback = 1 ∧
      Call.mfcc_callback processor.mfcc_callback
          (mfcc_processor_run hw processor.mfcc
            (i2s_mic_read hw processor.mic true 1000).1 1).1
          processor.mfcc.opts.numcep processor.user_data
        ∈ (audio_processor_task_iteration consumer hw processor).2) ∧
    (¬ (((i2s_mic_read hw processor.mic true 1000).1 ≠ 0 ∧
          0 < (i2s_mic_read hw processor.mic true 1000).2.1.getD 0) ∧
        (mfcc_processor_run hw processor.mfcc
          (i2s_mic_read hw processor.mic true 1000).1 1).1 ≠ 0 ∧
        processor.mfcc_callback ≠ 0) →
      (audio_processor_task_iteration consumer hw processor).2.countP Call.is_callback = 0 ∧
      (audio_processor_task_iteration consumer hw processor).1 = processor ∧
      (audio_processor_task_iteration consumer hw processor).1.is_running
        = processor.is_running ∧
      (∀ rest, processor.is_running = true →
        audio_processor_task consumer (hw :: rest) processor
          = ((audio_processor_task consumer rest processor).1,
             (audio_processor_task_iteration consumer hw processor).2
               ++ (audio_processor_task consumer rest processor).2.1,
             (audio_processor_task consumer rest processor).2.2))) ∧
    (initialised processor → processor.mic.buffer ≠ 0 →
      ((((i2s_mic_read hw processor.mic true 1000).1 ≠ 0 ∧
          0 < (i2s_mic_read hw processor.mic true 1000).2.1.getD 0) ∧
        (mfcc_processor_run hw processor.mfcc
          (i2s_mic_read hw processor.mic true 1000).1 1).1 ≠ 0 ∧
        processor.mfcc_callback ≠ 0) ↔
       ((hw.read_ret = ESP_OK ∧ 2 ≤ hw.read_bytes) ∧ hw.run_step_result ≠ 0 ∧
        processor.mfcc_callback ≠ 0))) := by
  have c1 := i2s_mic_read_no_callback hw processor.mic true 1000
  have c2 := mfcc_processor_run_no_callback hw processor.mfcc
    (i2s_mic_read hw processor.mic true 1000).1 1
  refine ⟨?_, ?_, ?_⟩
  · rintro ⟨hread, hstep, hcb⟩
    have hn := mfcc_processor_run_result_num_coeffs hw _ _ _ hstep
    have e : audio_processor_task_iteration consumer hw processor
        = (consumer processor,
            (i2s_mic_read hw processor.mic true 1000).2.2
              ++ (mfcc_processor_run hw processor.mfcc
                    (i2s_mic_read hw processor.mic true 1000).1 1).2
              ++ [Call.mfcc_callback processor.mfcc_callback
                    (mfcc_processor_run hw processor.mfcc
                      (i2s_mic_read hw processor.mic true 1000).1 1).1
                    processor.mfcc.opts.numcep processor.user_data,
                  Call.vTaskDelay 100]) := by
      unfold audio_processor_task_iteration
      dsimp only
      rw [if_pos hread, if_pos ⟨hstep, hcb⟩, hn]
    rw [e]
    constructor
    · simp only [List.countP_append, c1, c2]
      simp [List.countP_cons, Call.is_callback]
    · simp
  · intro hno
    have e : (audio_processor_task_iteration consumer hw processor).1 = processor ∧
        (audio_processor_task_iteration consumer hw processor).2.countP Call.is_callback
          = 0 := by
      unfold audio_processor_task_iteration
      dsimp only
      by_cases hread : (i2s_mic_read hw processor.mic true 1000).1 ≠ 0 ∧
          0 < (i2s_mic_read hw processor.mic true 1000).2.1.getD 0
      · have hcond : ¬ ((mfcc_processor_run hw processor.mfcc
            (i2s_mic_read hw processor.mic true 1000).1 1).1 ≠ 0 ∧
            processor.mfcc_callback ≠ 0) := fun hc => hno ⟨hread, hc.1, hc.2⟩
        rw [if_pos hread, if_neg hcond]
        refine ⟨rfl, ?_⟩
        simp only [List.countP_append, c1, c2]
        simp [List.countP_cons, Call.is_callback]
      · rw [if_neg hread]
        refine ⟨rfl, ?_⟩
        simp only [List.countP_append, c1]
        simp [List.countP_cons, Call.is_callback]
    refine ⟨e.2, e.1, by rw [e.1], ?_⟩
    intro rest hrun
    conv_lhs => unfold audio_processor_task
    simp only [hrun, if_true]
    rw [e.1]
  · rintro ⟨hmic, hmfcc⟩ hbuf
    obtain ⟨ry, rn⟩ := i2s_mic_read_yields hw processor.mic 1000 hmic
    by_cases hread : hw.read_ret = ESP_OK ∧ 0 < hw.read_bytes / 2
    · have h2 : 2 ≤ hw.read_bytes := by omega
      rw [ry hread, mfcc_processor_run_initialised hw _ _ _ hmfcc hbuf]
      simp [hbuf, hread.1, hread.2, h2]
    · have h2 : ¬ (hw.read_ret = ESP_OK ∧ 2 ≤ hw.read_bytes) := by
        rintro ⟨a, b⟩
        exact hread ⟨a, by omega⟩
      rw [rn hread]
      simp [h2]

/-- Witness for C19: `ready_processor` with a registered consumer, a read of 320
samples and an extractor result; and the same processor when the read fails. -/
theorem audio_processor_task_iteration_callback_witness :
    (audio_processor_task_iteration id hw_all_ok ready_processor_with_consumer).2.countP
      Call.is_callback = 1 ∧
    Call.mfcc_callback 7000 4000 13 8000
      ∈ (audio_processor_task_iteration id hw_all_ok ready_processor_with_consumer).2 ∧
    (audio_processor_task_iteration id hw_read_fails ready_processor_with_consumer).2.countP
      Call.is_callback = 0 := by
  have h1 := (audio_processor_task_iteration_callback id hw_all_ok
    ready_processor_with_consumer).1 (by decide)
  have h2 := (audio_processor_task_iteration_callback id hw_read_fails
    ready_processor_with_consumer).2.1 (by decide)
  exact ⟨h1.1, h1.2, h2.1⟩

/-- C20: on every initialised processor `audio_processor_process_frame` performs exactly
one capture read and at most one extractor step, never invokes the consumer callback,
returns `ESP_OK`, leaves the processor (so `is_running`, the stored callback and the
configuration) unchanged, and stores in `*mfcc_features` the extractor's result for that
read, `NULL` when the read produced no samples. -/
theorem audio_processor_process_frame_once (hw : Responses) (processor : audio_processor_t)
    (mfcc_features_nonnull : Bool) (hinit : initialised processor) :
    (audio_processor_process_frame hw processor mfcc_features_nonnull).1 = ESP_OK ∧
    (audio_processor_process_frame hw processor mfcc_features_nonnull).2.1 = processor ∧
    (audio_processor_process_frame hw processor mfcc_features_nonnull).2.2.2.countP
      Call.is_read = 1 ∧
    (audio_processor_process_frame hw processor mfcc_features_nonnull).2.2.2.countP
      Call.is_run_step ≤ 1 ∧
    (audio_processor_process_frame hw processor mfcc_features_nonnull).2.2.2.countP
      Call.is_callback = 0 ∧
    (audio_processor_process_frame hw processor mfcc_features_nonnull).2.2.1
      = (if mfcc_features_nonnull then
          some (if (hw.read_ret = ESP_OK ∧ 0 < hw.read_bytes / 2) ∧ processor.mic.buffer ≠ 0
                then hw.run_step_result else 0)
         else none) ∧
    ((hw.read_ret = ESP_OK ∧ 0 < hw.read_bytes / 2) ∧ processor.mic.buffer ≠ 0 →
      (audio_processor_process_frame hw processor mfcc_features_nonnull).2.2.2
        = [Call.i2s_channel_read processor.mic.rx_handle processor.mic.buffer
            ((processor.mic.config.buffer_len * 2) % 2 ^ 32) 1000,
           Call.mfcc_run_step processor.mfcc.runner processor.mic.buffer 1]) := by
  obtain ⟨hmic, hmfcc⟩ := hinit
  obtain ⟨ry, rn⟩ := i2s_mic_read_yields hw processor.mic 1000 hmic
  by_cases hread : hw.read_ret = ESP_OK ∧ 0 < hw.read_bytes / 2
  · by_cases hbuf : processor.mic.buffer = 0
    · have e : audio_processor_process_frame hw processor mfcc_features_nonnull
          = (ESP_OK, processor, if mfcc_features_nonnull then some 0 else none,
              [Call.i2s_channel_read processor.mic.rx_handle processor.mic.buffer
                ((processor.mic.config.buffer_len * 2) % 2 ^ 32) 1000]) := by
        unfold audio_processor_process_frame
        rw [ry hread]
        simp [hbuf]
      rw [e]
      simp [hbuf, List.countP_cons, Call.is_read, Call.is_run_step, Call.is_callback]
    · have hz : hw.read_bytes / 2 ≠ 0 := by omega
      have e : audio_processor_process_frame hw processor mfcc_features_nonnull
          = (ESP_OK, processor,
              if mfcc_features_nonnull then some hw.run_step_result else none,
              [Call.i2s_channel_read processor.mic.rx_handle processor.mic.buffer
                ((processor.mic.config.buffer_len * 2) % 2 ^ 32) 1000,
               Call.mfcc_run_step processor.mfcc.runner processor.mic.buffer 1]) := by
        unfold audio_processor_process_frame
        rw [ry hread]
        dsimp only
        rw [mfcc_processor_run_initialised hw _ _ _ hmfcc hbuf]
        simp [hbuf, hz]
      rw [e]
      simp [hbuf, hread, List.countP_cons, Call.is_read, Call.is_run_step, Call.is_callback]
  · have e : audio_processor_process_frame hw processor mfcc_features_nonnull
        = (ESP_OK, processor, if mfcc_features_nonnull then some 0 else none,
            [Call.i2s_channel_read processor.mic.rx_handle processor.mic.buffer
              ((processor.mic.config.buffer_len * 2) % 2 ^ 32) 1000]) := by
      unfold audio_processor_process_frame
      rw [rn hread]
      simp
    rw [e]
    simp [hread, List.countP_cons, Call.is_read, Call.is_run_step, Call.is_callback]

/-- Witness for C20: `ready_processor_with_consumer` and a read of 320 samples; the
registered consumer is not called. -/
theorem audio_processor_process_frame_once_witness :
    initialised ready_processor_with_consumer ∧
    (audio_processor_process_frame hw_all_ok ready_processor_with_consumer true).1 = ESP_OK ∧
    (audio_processor_process_frame hw_all_ok ready_processor_with_consumer true).2.1
      = ready_processor_with_consumer ∧
    (audio_processor_process_frame hw_all_ok ready_processor_with_consumer true).2.2.2.countP
      Call.is_callback = 0 ∧
    audio_processor_process_frame hw_all_ok ready_processor_with_consumer true
      = (ESP_OK, ready_processor_with_consumer, some 4000,
          [Call.i2s_channel_read 2000 1000 2048 1000, Call.mfcc_run_step 3000 1000 1]) := by
  have a : initialised ready_processor_with_consumer := ⟨rfl, rfl⟩
  have h := audio_processor_process_frame_once hw_all_ok ready_processor_with_consumer true a
  exact ⟨a, h.1, h.2.1, h.2.2.2.2.1, rfl⟩


/-! ## Claims on the extractor getters, reachable states and raw arg-max -/

theorem wrap_int32_of_range {v : Int} (h1 : -2147483648 ≤ v) (h2 : v < 2147483648) :
    wrap_int32 v = v := by
  unfold wrap_int32
  omega

/-- C21 (counterexample): an extractor created with sample rate `1` and stride `-1`
returns `0` samples per frame, where `1 * (-1) / 1000` rounded down is `-1`; and with
48000 Hz and a stride of 60000 ms the 32-bit product wraps and the result is
`-1414967`, not `2880000`. -/
theorem mfcc_processor_get_samples_per_frame_counterexample :
    (mfcc_processor_init hw_all_ok (some opts_negative_stride)).1 = ESP_OK ∧
    mfcc_processor_get_samples_per_frame
      (mfcc_processor_init hw_all_ok (some opts_negative_stride)).2.1 = 0 ∧
    opts_negative_stride.samp_freq * opts_negative_stride.winstep_ms / 1000 = -1 ∧
    (mfcc_processor_init hw_all_ok (some opts_long_stride)).1 = ESP_OK ∧
    mfcc_processor_get_samples_per_frame
      (mfcc_processor_init hw_all_ok (some opts_long_stride)).2.1 = -1414967 ∧
    opts_long_stride.samp_freq * opts_long_stride.winstep_ms / 1000 = 2880000 := by
  refine ⟨rfl, ?_, ?_, rfl, ?_, ?_⟩ <;> decide

/-- C21 (amended): for every configuration with which a feature extractor was created
and whose sample rate and stride are non-negative with a product below `2^31`,
`mfcc_processor_get_samples_per_frame` returns `sample_rate * frame_stride_ms / 1000`
rounded down (320 for the default configuration), and for every created extractor
`mfcc_processor_get_num_coeffs` returns the configured coefficient count (13 by
default); on a processor that is not initialised, so before initialisation and after
destroy, both return `0`. -/
theorem mfcc_getters (hw : Responses) (opts : Option esp_mfcc_opts_t)
    (hcreated : (mfcc_processor_init hw opts).1 = ESP_OK) :
    (0 ≤ (opts.getD default_mfcc_opts).samp_freq →
      0 ≤ (opts.getD default_mfcc_opts).winstep_ms →
      (opts.getD default_mfcc_opts).samp_freq * (opts.getD default_mfcc_opts).winstep_ms
        < 2147483648 →
      mfcc_processor_get_samples_per_frame (mfcc_processor_init hw opts).2.1
        = (opts.getD default_mfcc_opts).samp_freq
            * (opts.getD default_mfcc_opts).winstep_ms / 1000) ∧
    mfcc_processor_get_num_coeffs (mfcc_processor_init hw opts).2.1
      = (opts.getD default_mfcc_opts).numcep ∧
    (opts = none →
      mfcc_processor_get_samples_per_frame (mfcc_processor_init hw opts).2.1 = 320 ∧
      mfcc_processor_get_num_coeffs (mfcc_processor_init hw opts).2.1 = 13) ∧
    (∀ p : mfcc_processor_t, p.is_initialized = false →
      mfcc_processor_get_samples_per_frame p = 0 ∧ mfcc_processor_get_num_coeffs p = 0) ∧
    mfcc_processor_get_samples_per_frame mfcc_processor_t.zero = 0 ∧
    mfcc_processor_get_num_coeffs mfcc_processor_t.zero = 0 ∧
    mfcc_processor_get_samples_per_frame
      (mfcc_processor_destroy (mfcc_processor_init hw opts).2.1).1 = 0 ∧
    mfcc_processor_get_num_coeffs
      (mfcc_processor_destroy (mfcc_processor_init hw opts).2.1).1 = 0 := by
  have hr : hw.mfcc_runner ≠ 0 := by
    intro h0
    rw [mfcc_processor_init_fail hw opts h0] at hcreated
    exact absurd hcreated (by decide : ESP_FAIL ≠ ESP_OK)
  have e := mfcc_processor_init_success hw opts hr
  have hfr : 0 ≤ (opts.getD default_mfcc_opts).samp_freq →
      0 ≤ (opts.getD default_mfcc_opts).winstep_ms →
      (opts.getD default_mfcc_opts).samp_freq * (opts.getD default_mfcc_opts).winstep_ms
        < 2147483648 →
      mfcc_processor_get_samples_per_frame (mfcc_processor_init hw opts).2.1
        = (opts.getD default_mfcc_opts).samp_freq
            * (opts.getD default_mfcc_opts).winstep_ms / 1000 := by
    intro h1 h2 h3
    have hp : 0 ≤ (opts.getD default_mfcc_opts).samp_freq
        * (opts.getD default_mfcc_opts).winstep_ms := Int.mul_nonneg h1 h2
    rw [e]
    unfold mfcc_processor_get_samples_per_frame
    simp only [Bool.not_true, Bool.false_eq_true, if_false]
    rw [wrap_int32_of_range (by omega) h3, Int.tdiv_eq_ediv hp (by decide)]
  have hnc : mfcc_processor_get_num_coeffs (mfcc_processor_init hw opts).2.1
      = (opts.getD default_mfcc_opts).numcep := by
    rw [e]
    unfold mfcc_processor_get_num_coeffs
    simp
  refine ⟨hfr, hnc, ?_, ?_, rfl, rfl, rfl, rfl⟩
  · intro hnone
    subst hnone
    refine ⟨?_, ?_⟩
    · rw [hfr (by decide) (by decide) (by decide)]
      decide
    · rw [hnc]
      rfl
  · intro p hp
    unfold mfcc_processor_get_samples_per_frame mfcc_processor_get_num_coeffs
    simp [hp]

/-- Witness for C21: the default configuration. -/
theorem mfcc_getters_witness :
    (mfcc_processor_init hw_all_ok none).1 = ESP_OK ∧
    mfcc_processor_get_samples_per_frame (mfcc_processor_init hw_all_ok none).2.1 = 320 ∧
    mfcc_processor_get_num_coeffs (mfcc_processor_init hw_all_ok none).2.1 = 13 :=
  ⟨rfl, ((mfcc_getters hw_all_ok none rfl).2.2.1 rfl).1,
    ((mfcc_getters hw_all_ok none rfl).2.2.1 rfl).2⟩

theorem audio_processor_init_state (hw : Responses)
    (config : Option audio_processor_config_t) :
    (audio_processor_init hw config).2.1.is_running = false ∧
    ((audio_processor_init hw config).2.1.mic.is_initialized = true →
      (audio_processor_init hw config).2.1.mfcc.is_initialized = true) := by
  obtain ⟨c1, c2, c3, c4⟩ := i2s_mic_init_cases hw (config.map (fun c => c.mic_config))
  by_cases h1 : hw.malloc_ptr = 0
  · unfold audio_processor_init
    rw [c1 h1]
    simp [ESP_ERR_NO_MEM, ESP_OK, audio_processor_t.zero, i2s_mic_t.zero]
  by_cases h2 : hw.new_channel_ret = ESP_OK
  swap
  · unfold audio_processor_init
    rw [c2 h1 h2]
    simp [h2, audio_processor_t.zero]
  by_cases h3 : hw.init_std_mode_ret = ESP_OK
  swap
  · unfold audio_processor_init
    rw [c3 h1 h2 h3]
    simp [h3, audio_processor_t.zero]
  by_cases h4 : hw.mfcc_runner = 0
  · unfold audio_processor_init
    rw [c4 h1 h2 h3, mfcc_processor_init_fail hw _ h4]
    simp [ESP_FAIL, ESP_OK, audio_processor_t.zero, i2s_mic_destroy, i2s_mic_t.zero]
  · unfold audio_processor_init
    rw [c4 h1 h2 h3, mfcc_processor_init_success hw _ h4]
    cases config <;> simp [audio_processor_t.zero]

theorem audio_processor_start_state (hw : Responses) (processor : audio_processor_t) :
    (audio_processor_start hw processor).2.1.mic = processor.mic ∧
    (audio_processor_start hw processor).2.1.mfcc = processor.mfcc ∧
    ((audio_processor_start hw processor).2.1.is_running = true →
      processor.is_running = true ∨ processor.mic.is_initialized = true) := by
  unfold audio_processor_start i2s_mic_start
  by_cases hrun : processor.is_running = true
  · simp [hrun]
  · by_cases hmic : processor.mic.is_initialized = true
    · by_cases hen : hw.enable_ret = ESP_OK <;>
        by_cases htask : hw.task_create_ret = pdPASS <;> simp [hrun, hmic, hen, htask]
    · simp [hrun, hmic, ESP_ERR_INVALID_STATE, ESP_OK]

theorem audio_processor_process_frame_state (hw : Responses) (processor : audio_processor_t)
    (b : Bool) : (audio_processor_process_frame hw processor b).2.1 = processor := by
  unfold audio_processor_process_frame
  dsimp only
  split <;> rfl

/-- C23: in every state reachable from an all-zero handle by any sequence of
`audio_processor_init`, `start`, `stop`, `process_frame` and `destroy`, under any
answers of the collaborators, `is_running` implies `mic.is_initialized`, and
`mic.is_initialized` implies `mfcc.is_initialized`. -/
theorem reachable_invariant (processor : audio_processor_t) (h : Reachable processor) :
    (processor.is_running = true → processor.mic.is_initialized = true) ∧
    (processor.mic.is_initialized = true → processor.mfcc.is_initialized = true) := by
  induction h with
  | zero =>
    exact ⟨fun h => absurd h (by decide : ¬ audio_processor_t.zero.is_running = true),
      fun h => absurd h (by decide : ¬ audio_processor_t.zero.mic.is_initialized = true)⟩
  | init hw config _ _ =>
    have k := audio_processor_init_state hw config
    refine ⟨fun h => ?_, k.2⟩
    rw [k.1] at h
    cases h
  | @start hw p _ ih =>
    obtain ⟨e1, e2, e3⟩ := audio_processor_start_state hw p
    rw [e1, e2]
    refine ⟨fun h => ?_, ih.2⟩
    rcases e3 h with c | c
    · exact ih.1 c
    · exact c
  | @stop hw p _ ih =>
    obtain ⟨e1, e2⟩ := audio_processor_stop_keeps_components hw p
    rw [e1, e2]
    refine ⟨fun h => ?_, ih.2⟩
    rw [audio_processor_stop_not_running_after] at h
    cases h
  | @process_frame hw b p _ ih =>
    rw [audio_processor_process_frame_state]
    exact ih
  | @destroy hw p _ _ =>
    rw [audio_processor_destroy_zero]
    exact ⟨fun h => absurd h (by decide : ¬ audio_processor_t.zero.is_running = true),
      fun h => absurd h (by decide : ¬ audio_processor_t.zero.mic.is_initialized = true)⟩

/-- Witness for C23: the state after init and a successful start. -/
theorem reachable_invariant_witness :
    Reachable (audio_processor_start hw_all_ok (audio_processor_init hw_all_ok none).2.1).2.1 ∧
    (audio_processor_start hw_all_ok (audio_processor_init hw_all_ok none).2.1).2.1.is_running
      = true ∧
    (audio_processor_start hw_all_ok
      (audio_processor_init hw_all_ok none).2.1).2.1.mic.is_initialized = true ∧
    (audio_processor_start hw_all_ok
      (audio_processor_init hw_all_ok none).2.1).2.1.mfcc.is_initialized = true := by
  have r : Reachable
      (audio_processor_start hw_all_ok (audio_processor_init hw_all_ok none).2.1).2.1 :=
    Reachable.start hw_all_ok (Reachable.init hw_all_ok none Reachable.zero)
  have h := reachable_invariant _ r
  exact ⟨r, rfl, h.1 rfl, h.2 (h.1 rfl)⟩

theorem foldl_max_ge_init (l : List Int) (a : Int) : a ≤ l.foldl max a := by
  induction l generalizing a with
  | nil => exact le_refl a
  | cons x xs ih => exact le_trans (le_max_left a x) (ih (max a x))

theorem foldl_max_ge_mem (l : List Int) (a x : Int) (hx : x ∈ l) : x ≤ l.foldl max a := by
  induction l generalizing a with
  | nil => cases hx
  | cons y ys ih =>
    rcases List.mem_cons.mp hx with h | h
    · rw [h]
      exact le_trans (le_max_right a y) (foldl_max_ge_init ys (max a y))
    · exact ih (max a y) h

theorem foldl_max_mem (l : List Int) (a : Int) : l.foldl max a = a ∨ l.foldl max a ∈ l := by
  induction l generalizing a with
  | nil => exact Or.inl rfl
  | cons y ys ih =>
    rcases ih (max a y) with h | h
    · rcases max_choice a y with c | c
      · left
        rw [List.foldl_cons, h, c]
      · right
        rw [List.foldl_cons, h, c]
        exact List.mem_cons_self y ys
    · right
      exact List.mem_cons_of_mem y h

/-- The greatest raw output of a non-empty list is an element and bounds all elements. -/
theorem max_raw_spec (raw : List Int) (h : raw ≠ []) :
    max_raw raw ∈ raw ∧ ∀ x ∈ raw, x ≤ max_raw raw := by
  unfold max_raw
  cases raw with
  | nil => exact absurd rfl h
  | cons y ys =>
    constructor
    · rcases foldl_max_mem (y :: ys) y with c | c
      · rw [List.headD_cons, c]
        exact List.mem_cons_self y ys
      · exact c
    · intro x hx
      exact foldl_max_ge_mem (y :: ys) _ x hx

theorem getD_eq_getElem_of_lt (l : List Int) (k : Nat) (h : k < l.length) :
    l.getD k 0 = l[k] := by
  simp [List.getD_eq_getElem?_getD, List.getElem?_eq_getElem h]

/-- An index whose element bounds all elements and is not met earlier is the first index
of the greatest raw output. -/
theorem first_index_of_max_raw_unique (raw : List Int) (i : Nat) (hi : i < raw.length)
    (hmax : ∀ j, j < raw.length → raw.getD j 0 ≤ raw.getD i 0)
    (hfirst : ∀ j, j < i → raw.getD j 0 ≠ raw.getD i 0) :
    first_index_of_max_raw raw = i := by
  have hne : raw ≠ [] := by
    intro h
    rw [h] at hi
    exact absurd hi (Nat.not_lt_zero i)
  obtain ⟨hmem, hub⟩ := max_raw_spec raw hne
  have hgi : raw.getD i 0 = raw[i] := getD_eq_getElem_of_lt raw i hi
  have heq : max_raw raw = raw.getD i 0 := by
    apply le_antisymm
    · obtain ⟨k, hk, hkeq⟩ := List.getElem_of_mem hmem
      have := hmax k hk
      rw [getD_eq_getElem_of_lt raw k hk, hkeq] at this
      exact this
    · apply hub
      rw [hgi]
      exact List.getElem_mem hi
  unfold first_index_of_max_raw
  rw [heq]
  have hmem' : raw.getD i 0 ∈ raw := by rw [← heq]; exact hmem
  have hlt : raw.indexOf (raw.getD i 0) < raw.length := List.indexOf_lt_length.mpr hmem'
  have hat : raw[raw.indexOf (raw.getD i 0)] = raw.getD i 0 := List.getElem_indexOf hlt
  rcases Nat.lt_trichotomy (raw.indexOf (raw.getD i 0)) i with c | c | c
  · exfalso
    apply hfirst _ c
    rw [getD_eq_getElem_of_lt raw _ hlt]
    exact hat
  · exact c
  · exfalso
    have := @List.not_of_lt_findIdx Int (fun x => x == raw.getD i 0) raw i c
    have t : (raw[i] == raw.getD i 0) = true := beq_iff_eq.mpr hgi.symm
    exact absurd (t.symm.trans this) (by decide)

/-- Between the products of a positive binary32 value with two integers of at most eight
bits lie two distinct binary32 values, or the products are binary32 values themselves:
the rounded products are strictly ordered. -/
theorem binary32_round_mul_strict (k1 k2 : Int) (sc : ℚ) (h12 : k1 < k2)
    (hk1 : -255 ≤ k1) (hk2 : k2 ≤ 255) (hsc : 0 < sc) (hscr : binary32_round sc = sc) :
    binary32_round ((k1 : ℚ) * sc) < binary32_round ((k2 : ℚ) * sc) := by
  obtain ⟨c, g, hc, hg, e⟩ := binary32_round_representable sc
  rw [hscr] at e
  have hpos := two_zpow_pos g
  have hcpos : 0 < c := by
    have : (0 : ℚ) < (c : ℚ) * 2 ^ g := by rw [← e]; exact hsc
    have : (0 : ℚ) < (c : ℚ) := (mul_pos_iff_of_pos_right hpos).mp this
    exact_mod_cast this
  have hc' := abs_lt.mp hc
  have e1 : (k1 : ℚ) * sc = ((k1 * c : Int) : ℚ) * 2 ^ g := by rw [e]; push_cast; ring
  have e2 : (k2 : ℚ) * sc = ((k2 * c : Int) : ℚ) * 2 ^ g := by rw [e]; push_cast; ring
  have hN : k1 * c + c ≤ k2 * c := by nlinarith
  have hN1a : -(255 * c) ≤ k1 * c := by nlinarith
  have hN1b : k1 * c ≤ 255 * c := by nlinarith
  have hN2a : -(255 * c) ≤ k2 * c := by nlinarith
  have hN2b : k2 * c ≤ 255 * c := by nlinarith
  by_cases hsmall : c < 512
  · have r1 := binary32_round_of_representable (k1 * c) g (by rw [abs_lt]; constructor <;> omega) hg
    have r2 := binary32_round_of_representable (k2 * c) g (by rw [abs_lt]; constructor <;> omega) hg
    rw [e1, e2, r1, r2]
    apply mul_lt_mul_of_pos_right _ hpos
    have : k1 * c < k2 * c := by omega
    exact_mod_cast this
  · have hbig : 512 ≤ c := by omega
    generalize k1 * c = N1 at e1 hN hN1a hN1b
    generalize k2 * c = N2 at e2 hN hN2a hN2b
    have hsplit : (2 : ℚ) ^ (g + 8) = 256 * 2 ^ g := by
      rw [zpow_add₀ (by norm_num : (2 : ℚ) ≠ 0)]; norm_num; ring
    have b1 : |(k1 : ℚ) * sc| < 2 ^ (g + 8 + 24) := by
      rw [e1, abs_mul, abs_of_pos hpos, show g + 8 + 24 = 32 + g by omega,
        zpow_add₀ (by norm_num : (2 : ℚ) ≠ 0)]
      apply mul_lt_mul_of_pos_right _ hpos
      have : |N1| < 2 ^ 32 := by rw [abs_lt]; constructor <;> omega
      have : ((|N1| : Int) : ℚ) < ((2 ^ 32 : Int) : ℚ) := by exact_mod_cast this
      push_cast at this
      rw [show (2 : ℚ) ^ (32 : Int) = 2 ^ 32 by norm_num]
      exact this
    have b2 : |(k2 : ℚ) * sc| < 2 ^ (g + 8 + 24) := by
      rw [e2, abs_mul, abs_of_pos hpos, show g + 8 + 24 = 32 + g by omega,
        zpow_add₀ (by norm_num : (2 : ℚ) ≠ 0)]
      apply mul_lt_mul_of_pos_right _ hpos
      have : |N2| < 2 ^ 32 := by rw [abs_lt]; constructor <;> omega
      have : ((|N2| : Int) : ℚ) < ((2 ^ 32 : Int) : ℚ) := by exact_mod_cast this
      push_cast at this
      rw [show (2 : ℚ) ^ (32 : Int) = 2 ^ 32 by norm_num]
      exact this
    have hA : (k1 : ℚ) * sc ≤ (((N1 + 255) / 256 : Int) : ℚ) * 2 ^ (g + 8) := by
      rw [e1, hsplit, ← mul_assoc]
      apply mul_le_mul_of_nonneg_right _ (le_of_lt hpos)
      have : N1 ≤ (N1 + 255) / 256 * 256 := by omega
      exact_mod_cast this
    have hB : (((N2 / 256 : Int)) : ℚ) * 2 ^ (g + 8) ≤ (k2 : ℚ) * sc := by
      rw [e2, hsplit, ← mul_assoc]
      apply mul_le_mul_of_nonneg_right _ (le_of_lt hpos)
      have : N2 / 256 * 256 ≤ N2 := by omega
      exact_mod_cast this
    have hAB : ((((N1 + 255) / 256 : Int)) : ℚ) * 2 ^ (g + 8)
        < (((N2 / 256 : Int)) : ℚ) * 2 ^ (g + 8) := by
      apply mul_lt_mul_of_pos_right _ (two_zpow_pos _)
      have : (N1 + 255) / 256 < N2 / 256 := by omega
      exact_mod_cast this
    have g1 := (binary32_round_grid _ ((N1 + 255) / 256) (g + 8) b1 (by omega)).2 hA
    have g2 := (binary32_round_grid _ (N2 / 256) (g + 8) b2 (by omega)).1 hB
    exact lt_of_le_of_lt g1 (lt_of_lt_of_le hAB g2)

/-- For int8 raw outputs and zero points and a positive binary32 scale of at most
`2 ^ 119` the score is finite: the binary32 rounding of the exact product. -/
theorem dequantize_int8 (raw zp : Int) (sc : ℚ) (hraw : -128 ≤ raw ∧ raw ≤ 127)
    (hzp : -128 ≤ zp ∧ zp ≤ 127) (hsc : 0 < sc) (hscb : sc ≤ 2 ^ 119) :
    dequantize raw zp sc = float.finite (binary32_round (((raw - zp : Int) : ℚ) * sc)) := by
  rw [dequantize_of_small raw zp sc (by rw [abs_lt]; constructor <;> omega)]
  apply to_float_of_abs_le
  rw [abs_mul, abs_of_pos hsc]
  have hk : |((raw - zp : Int) : ℚ)| ≤ 255 := by
    have : |raw - zp| ≤ 255 := by rw [abs_le]; constructor <;> omega
    have : ((|raw - zp| : Int) : ℚ) ≤ ((255 : Int) : ℚ) := by exact_mod_cast this
    push_cast at this ⊢
    exact this
  calc |((raw - zp : Int) : ℚ)| * sc ≤ 255 * 2 ^ 119 :=
        mul_le_mul hk hscb (le_of_lt hsc) (by norm_num)
    _ ≤ 2 ^ (127 : Int) := by norm_num

theorem dequantize_lt_iff (a b zp : Int) (sc : ℚ) (ha : -128 ≤ a ∧ a ≤ 127)
    (hb : -128 ≤ b ∧ b ≤ 127) (hzp : -128 ≤ zp ∧ zp ≤ 127) (hsc : 0 < sc)
    (hscr : binary32_round sc = sc) (hscb : sc ≤ 2 ^ 119) :
    dequantize a zp sc < dequantize b zp sc ↔ a < b := by
  rw [dequantize_int8 a zp sc ha hzp hsc hscb, dequantize_int8 b zp sc hb hzp hsc hscb,
    float_finite_lt_finite]
  have strict : ∀ u v : Int, -128 ≤ u ∧ u ≤ 127 → -128 ≤ v ∧ v ≤ 127 → u < v →
      binary32_round (((u - zp : Int) : ℚ) * sc) < binary32_round (((v - zp : Int) : ℚ) * sc) := by
    intro u v hu hv huv
    exact binary32_round_mul_strict (u - zp) (v - zp) sc (by omega) (by omega) (by omega) hsc hscr
  constructor
  · intro h
    by_contra hn
    rcases lt_or_eq_of_le (not_lt.mp hn) with c | c
    · exact absurd h (not_lt.mpr (le_of_lt (strict b a hb ha c)))
    · rw [c] at h; exact absurd h (lt_irrefl _)
  · exact strict a b ha hb

theorem dequantize_le_iff (a b zp : Int) (sc : ℚ) (ha : -128 ≤ a ∧ a ≤ 127)
    (hb : -128 ≤ b ∧ b ≤ 127) (hzp : -128 ≤ zp ∧ zp ≤ 127) (hsc : 0 < sc)
    (hscr : binary32_round sc = sc) (hscb : sc ≤ 2 ^ 119) :
    dequantize a zp sc ≤ dequantize b zp sc ↔ a ≤ b := by
  rw [← not_lt, ← not_lt, dequantize_lt_iff b a zp sc hb ha hzp hsc hscr hscb]

theorem select_max_eq_first_index (n : Nat) (data : List Int) (zp : Int) (sc : ℚ)
    (hn : 0 < n) (hlen : n ≤ data.length)
    (hraw : ∀ j, j < n → -128 ≤ data.getD j 0 ∧ data.getD j 0 ≤ 127)
    (hzp : -128 ≤ zp ∧ zp ≤ 127) (hsc : 0 < sc) (hscr : binary32_round sc = sc)
    (hscb : sc ≤ 2 ^ 119) :
    (select_max n data zp sc).1 = first_index_of_max_raw (data.take n) := by
  obtain ⟨h1, h2, h3, h4⟩ := select_max_first_max n data zp sc hn hlen
  have hl : (data.take n).length = n := by
    rw [List.length_take]; omega
  have hget : ∀ j, j < n → (data.take n).getD j 0 = data.getD j 0 := by
    intro j hj
    simp only [List.getD_eq_getElem?_getD, List.getElem?_take]
    rw [if_pos hj]
  symm
  apply first_index_of_max_raw_unique
  · rw [hl]; exact h1
  · intro j hj
    rw [hl] at hj
    rw [hget j hj, hget _ h1]
    rw [h2] at h3 h4
    rcases Nat.lt_trichotomy j (select_max n data zp sc).1 with c | c | c
    · exact le_of_lt ((dequantize_lt_iff _ _ zp sc (hraw j hj) (hraw _ h1) hzp hsc hscr
        hscb).mp (h3 j c))
    · rw [c]
    · exact (dequantize_le_iff _ _ zp sc (hraw j hj) (hraw _ h1) hzp hsc hscr hscb).mp
        (h4 j c hj)
  · intro j hj
    rw [hget j (by omega), hget _ h1]
    rw [h2] at h3
    exact ne_of_lt ((dequantize_lt_iff _ _ zp sc (hraw j (by omega)) (hraw _ h1) hzp hsc hscr
      hscb).mp (h3 j hj))

theorem float_finite_lt_pos_inf (a : ℚ) : float.finite a < float.pos_inf := by
  show float.extended (float.finite a) < float.extended float.pos_inf
  exact WithBot.coe_lt_coe.mpr (WithTop.coe_lt_top a)

theorem to_float_power_of_two_30 : to_float 1073741824 = float.finite 1073741824 := by
  have e : binary32_round 1073741824 = 1073741824 :=
    binary32_round_eq_self_of 1 30 (by decide) (by decide) (by norm_num)
  rw [to_float_finite (by rw [e]; norm_num) (by rw [e]; norm_num), e]

/-- With the zero point `-2 ^ 30` the differences `raw - zero_point` near `2 ^ 30` are
all converted to the binary32 value `2 ^ 30`. -/
theorem dequantize_large_zero_point (raw : Int) (h0 : 0 ≤ raw) (h1 : raw ≤ 63) :
    dequantize raw (-1073741824) 1 = float.finite 1073741824 := by
  unfold dequantize
  have w : wrap_int32 (raw - -1073741824) = raw + 1073741824 := by
    unfold wrap_int32; omega
  have r0 : (0 : ℚ) ≤ raw := by exact_mod_cast h0
  have r1 : (raw : ℚ) ≤ ((63 : Int) : ℚ) := by exact_mod_cast h1
  push_cast at r1
  have hq : binary32_round ((raw + 1073741824 : Int) : ℚ) = 1073741824 := by
    have hn : round_half_even ((((raw + 1073741824 : Int)) : ℚ) / 2 ^ (7 : Int)) = 8388608 := by
      apply round_half_even_of_near <;> push_cast <;> norm_num <;> linarith
    have := binary32_round_eval (q := ((raw + 1073741824 : Int) : ℚ)) (g := 7)
      (by rw [abs_of_pos (by push_cast; linarith)]; push_cast; norm_num; linarith)
      (by rw [abs_of_pos (by push_cast; linarith)]; push_cast; norm_num; linarith)
      (by decide) hn
    rw [this]; norm_num
  rw [w, hq, mul_one]
  exact to_float_power_of_two_30

/-- C24 (counterexample): with the zero point `-2 ^ 30` and scale `1` the raw outputs
`[5, 6, 0, 0]` all have the score `2 ^ 30`, because `2 ^ 30 + 5` and `2 ^ 30 + 6` are
converted to the binary32 value `2 ^ 30`: the code selects index `0`, whereas the first
index of the greatest raw output is `1`.  With zero point `0` and scale `2 ^ 127` the raw
outputs `[1, 2, 3, 0]` have the scores `2 ^ 127`, infinity, infinity and `0`: the code
selects index `1`, whereas the first index of the greatest raw output is `2`. -/
theorem select_max_raw_maximum_counterexample :
    select_max 4 [5, 6, 0, 0] (-1073741824) 1 = (0, float.finite 1073741824) ∧
    first_index_of_max_raw [5, 6, 0, 0] = 1 ∧
    select_max 4 [1, 2, 3, 0] 0 170141183460469231731687303715884105728 = (1, float.pos_inf) ∧
    first_index_of_max_raw [1, 2, 3, 0] = 2 := by
  refine ⟨?_, by decide, ?_, by decide⟩
  · have d5 := dequantize_large_zero_point 5 (by decide) (by decide)
    have d6 := dequantize_large_zero_point 6 (by decide) (by decide)
    have d0 := dequantize_large_zero_point 0 (by decide) (by decide)
    simp [select_max, argmax_loop, d5, d6, d0]
  · have e1 : dequantize 1 0 170141183460469231731687303715884105728
        = float.finite 170141183460469231731687303715884105728 := by
      rw [dequantize_of_small 1 0 _ (by decide)]
      have e : binary32_round (((1 - 0 : Int) : ℚ) * 170141183460469231731687303715884105728)
          = 170141183460469231731687303715884105728 := by
        have := binary32_round_eq_self_of
          (q := ((1 - 0 : Int) : ℚ) * 170141183460469231731687303715884105728)
          1 127 (by decide) (by decide) (by norm_num)
        rw [this]; norm_num
      rw [to_float_finite (by rw [e]; norm_num) (by rw [e]; norm_num), e]
    have e2 : dequantize 2 0 170141183460469231731687303715884105728 = float.pos_inf := by
      rw [dequantize_of_small 2 0 _ (by decide)]
      have e : binary32_round (((2 - 0 : Int) : ℚ) * 170141183460469231731687303715884105728)
          = 2 ^ 128 := by
        have := binary32_round_eq_self_of
          (q := ((2 - 0 : Int) : ℚ) * 170141183460469231731687303715884105728)
          1 128 (by decide) (by decide) (by norm_num)
        rw [this]; norm_num
      unfold to_float
      rw [if_pos (by rw [e])]
    have e3 : dequantize 3 0 170141183460469231731687303715884105728 = float.pos_inf := by
      rw [dequantize_of_small 3 0 _ (by decide)]
      have e : binary32_round (((3 - 0 : Int) : ℚ) * 170141183460469231731687303715884105728)
          = 3 * 2 ^ 127 := by
        have := binary32_round_eq_self_of
          (q := ((3 - 0 : Int) : ℚ) * 170141183460469231731687303715884105728)
          3 127 (by decide) (by decide) (by norm_num)
        rw [this]; norm_num
      unfold to_float
      rw [if_pos (by rw [e]; norm_num)]
    have e0 : dequantize 0 0 170141183460469231731687303715884105728 = float.finite 0 :=
      dequantize_zero_point 0 _
    have c1 : float.finite 170141183460469231731687303715884105728 < float.pos_inf :=
      float_finite_lt_pos_inf _
    have c2 : ¬ (float.pos_inf < float.finite 0) := not_lt.mpr (le_of_lt (float_finite_lt_pos_inf 0))
    simp [select_max, argmax_loop, e1, e2, e3, e0, c1, c2]

/-- C24 (amended): for every non-empty vector of `n` raw int8 outputs, every output zero
point in `[-128, 127]` and every positive binary32 output scale of at most `2 ^ 119`, the
index `classify_mfcc` selects is the first index at which the raw output is maximal: the
raw output there is at least every raw output, no earlier index carries the same value,
and it is the position of the first occurrence of the greatest raw output; it is the
same index for any other zero point and any other scale within these bounds. -/
theorem select_max_is_first_raw_maximum (n : Nat) (data : List Int) (zp zp' : Int)
    (sc sc' : ℚ) (hn : 0 < n) (hlen : n ≤ data.length)
    (hraw : ∀ j, j < n → -128 ≤ data.getD j 0 ∧ data.getD j 0 ≤ 127)
    (hzp : -128 ≤ zp ∧ zp ≤ 127) (hzp' : -128 ≤ zp' ∧ zp' ≤ 127)
    (hsc : 0 < sc) (hscr : binary32_round sc = sc) (hscb : sc ≤ 2 ^ 119)
    (hsc' : 0 < sc') (hscr' : binary32_round sc' = sc') (hscb' : sc' ≤ 2 ^ 119) :
    (select_max n data zp sc).1 = first_index_of_max_raw (data.take n) ∧
    (select_max n data zp sc).1 < n ∧
    (∀ j, j < n → data.getD j 0 ≤ data.getD (select_max n data zp sc).1 0) ∧
    (∀ j, j < (select_max n data zp sc).1 →
      data.getD j 0 < data.getD (select_max n data zp sc).1 0) ∧
    (select_max n data zp sc).1 = (select_max n data zp' sc').1 := by
  obtain ⟨h1, h2, h3, h4⟩ := select_max_first_max n data zp sc hn hlen
  rw [h2] at h3 h4
  refine ⟨select_max_eq_first_index n data zp sc hn hlen hraw hzp hsc hscr hscb, h1, ?_, ?_, ?_⟩
  · intro j hj
    rcases Nat.lt_trichotomy j (select_max n data zp sc).1 with c | c | c
    · exact le_of_lt ((dequantize_lt_iff _ _ zp sc (hraw j hj) (hraw _ h1) hzp hsc hscr
        hscb).mp (h3 j c))
    · rw [c]
    · exact (dequantize_le_iff _ _ zp sc (hraw j hj) (hraw _ h1) hzp hsc hscr hscb).mp
        (h4 j c hj)
  · intro j hj
    exact (dequantize_lt_iff _ _ zp sc (hraw j (by omega)) (hraw _ h1) hzp hsc hscr hscb).mp
      (h3 j hj)
  · rw [select_max_eq_first_index n data zp sc hn hlen hraw hzp hsc hscr hscb,
      select_max_eq_first_index n data zp' sc' hn hlen hraw hzp' hsc' hscr' hscb']

/-- Witness for C24: raw outputs `[3, 9, 9, -128]` with zero point `-128` and scale
`1/256`; the first maximum is at index `1`. -/
theorem select_max_is_first_raw_maximum_witness :
    0 < 4 ∧ 4 ≤ ([3, 9, 9, -128] : List Int).length ∧ (0 : ℚ) < 1 / 256 ∧
    binary32_round (1 / 256) = 1 / 256 ∧
    first_index_of_max_raw (([3, 9, 9, -128] : List Int).take 4) = 1 ∧
    (select_max 4 [3, 9, 9, -128] (-128) (1 / 256)).1 = 1 := by
  have r1 : binary32_round (1 / 256) = 1 / 256 :=
    binary32_round_eq_self_of 1 (-8) (by decide) (by decide) (by norm_num)
  have r2 : binary32_round 1 = 1 :=
    binary32_round_eq_self_of 1 0 (by decide) (by decide) (by norm_num)
  have h := select_max_is_first_raw_maximum 4 [3, 9, 9, -128] (-128) 0 (1 / 256) 1
    (by decide) (by decide)
    (by intro j hj; interval_cases j <;> decide)
    (by decide) (by decide) (by norm_num) r1 (by norm_num) (by norm_num) r2 (by norm_num)
  have e : first_index_of_max_raw (([3, 9, 9, -128] : List Int).take 4) = 1 := by decide
  exact ⟨by decide, by decide, by norm_num, r1, e, by rw [h.1, e]⟩

/-! ## Claim on stopping while a read is in flight -/

/-- Run alone, the steps of the caller agree with `audio_processor_stop`: from its entry,
with the background task not inside a read, they end with the status, the processor and
the calls of `audio_processor_stop`. -/
theorem stop_steps_agree (consumer : audio_processor_t → audio_processor_t)
    (hw : Responses) (s : Threads) (hpc : s.stop_pc = StopPc.entry)
    (htask : read_in_flight s = false) :
    ∃ schedule s', run consumer hw schedule s = some s' ∧
      s'.stop_pc = StopPc.returned (audio_processor_stop hw s.processor).1 ∧
      s'.processor = (audio_processor_stop hw s.processor).2.1 ∧
      s'.calls = s.calls ++ (audio_processor_stop hw s.processor).2.2 := by
  rcases s with ⟨now, p, spc, tpc, calls⟩
  simp only at hpc
  subst hpc
  have hw_wait : ∀ (ms : Nat) (q : audio_processor_t) (pc : StopPc) (cs : List Call),
      wait_step ms { now := now, processor := q, stop_pc := pc, task_pc := tpc, calls := cs }
        = some { now := now + ms, processor := q, stop_pc := pc, task_pc := tpc,
                 calls := cs } := by
    intro ms q pc cs
    unfold wait_step
    cases tpc with
    | reading d => simp [read_in_flight] at htask
    | test => rfl
    | delay w => rfl
    | deleted => rfl
  by_cases hrun : p.is_running = true
  · by_cases hth : p.task_handle = 0
    · refine ⟨[Action.stop_step, Action.stop_step, Action.stop_step],
        { now := now, processor := { p with is_running := false },
          stop_pc := StopPc.returned
            (if (i2s_mic_stop hw p.mic).1 ≠ ESP_OK then (i2s_mic_stop hw p.mic).1 else ESP_OK),
          task_pc := tpc, calls := calls ++ (i2s_mic_stop hw p.mic).2 }, ?_, ?_, ?_, ?_⟩
      · simp [run, step, stop_step, hrun, hth]
      · by_cases hr : (i2s_mic_stop hw p.mic).1 = ESP_OK <;>
          simp [audio_processor_stop, hrun, hth, hr]
      · by_cases hr : (i2s_mic_stop hw p.mic).1 = ESP_OK <;>
          simp [audio_processor_stop, hrun, hth, hr]
      · by_cases hr : (i2s_mic_stop hw p.mic).1 = ESP_OK <;>
          simp [audio_processor_stop, hrun, hth, hr]
    · refine ⟨[Action.stop_step, Action.stop_step, Action.wait 200, Action.stop_step,
        Action.stop_step, Action.stop_step],
        { now := now + 200, processor := { p with is_running := false, task_handle := 0 },
          stop_pc := StopPc.returned
            (if (i2s_mic_stop hw p.mic).1 ≠ ESP_OK then (i2s_mic_stop hw p.mic).1 else ESP_OK),
          task_pc := tpc,
          calls := calls ++ [Call.vTaskDelay 200] ++ (i2s_mic_stop hw p.mic).2 },
        ?_, ?_, ?_, ?_⟩
      · simp [run, step, stop_step, hrun, hth, hw_wait]
      · by_cases hr : (i2s_mic_stop hw p.mic).1 = ESP_OK <;>
          simp [audio_processor_stop, hrun, hth, hr]
      · by_cases hr : (i2s_mic_stop hw p.mic).1 = ESP_OK <;>
          simp [audio_processor_stop, hrun, hth, hr]
      · by_cases hr : (i2s_mic_stop hw p.mic).1 = ESP_OK <;>
          simp [audio_processor_stop, hrun, hth, hr]
  · refine ⟨[Action.stop_step],
      { now := now, processor := p, stop_pc := StopPc.returned ESP_OK, task_pc := tpc,
        calls := calls }, ?_, ?_, ?_, ?_⟩
    · simp [run, step, stop_step, hrun]
    · simp [audio_processor_stop, hrun]
    · simp [audio_processor_stop, hrun]
    · simp [audio_processor_stop, hrun]

/-- No step of `audio_processor_stop` looks at the program point of the background task:
its outcome is the same wherever the task is. -/
theorem stop_step_ignores_task (hw : Responses) (s : Threads) (pc : TaskPc) :
    stop_step hw { s with task_pc := pc }
      = (stop_step hw s).map (fun r => { r with task_pc := pc }) := by
  rcases s with ⟨now, p, spc, tpc, calls⟩
  unfold stop_step
  cases spc with
  | entry => by_cases h : p.is_running = true <;> simp [h]
  | clear_flag => by_cases h : p.task_handle = 0 <;> simp [h]
  | delay wake => by_cases h : wake ≤ now <;> simp [h]
  | clear_handle => simp
  | disable => simp
  | returned r => simp

/-- C22 (failing interleaving): on a started processor the background task passes its
loop condition and blocks inside its read (timeout 1000 ms); `audio_processor_stop`
then clears `is_running`, sleeps its fixed 200 ms, and calls `i2s_channel_disable` at
time 200 and returns, while the read has not returned: the channel is disabled with a
read in flight, and nothing in `audio_processor_stop` waits for the task. -/
theorem stop_disables_channel_during_read :
    started_processor.is_running = true ∧
    run id hw_all_ok (stop_during_read.take 1) threads_at_stop
      = some { now := 0, processor := started_processor, stop_pc := StopPc.entry,
               task_pc := TaskPc.reading 1000, calls := [] } ∧
    run id hw_all_ok (stop_during_read.take 6) threads_at_stop
      = some { now := 200,
               processor := { started_processor with is_running := false, task_handle := 0 },
               stop_pc := StopPc.disable, task_pc := TaskPc.reading 1000,
               calls := [Call.vTaskDelay 200] } ∧
    run id hw_all_ok stop_during_read threads_at_stop
      = some { now := 200,
               processor := { started_processor with is_running := false, task_handle := 0 },
               stop_pc := StopPc.returned ESP_OK, task_pc := TaskPc.reading 1000,
               calls := [Call.vTaskDelay 200, Call.i2s_channel_disable 2000] } ∧
    (∀ s, run id hw_all_ok stop_during_read threads_at_stop = some s →
      read_in_flight s = true ∧ Call.i2s_channel_disable 2000 ∈ s.calls ∧ s.now < 1000) := by
  refine ⟨rfl, rfl, rfl, rfl, ?_⟩
  intro s hs
  have e : run id hw_all_ok stop_during_read threads_at_stop
      = some { now := 200,
               processor := { started_processor with is_running := false, task_handle := 0 },
               stop_pc := StopPc.returned ESP_OK, task_pc := TaskPc.reading 1000,
               calls := [Call.vTaskDelay 200, Call.i2s_channel_disable 2000] } := rfl
  rw [e] at hs
  cases hs
  exact ⟨rfl, by decide, by decide⟩

end EscClassifier
